import Mathlib

/-!
# BtMqttSn: the MQTT-SN client engine of `MqttSnClient.cpp`

A shallow embedding of the packet codec (the message structs of the anonymous
namespace) and of the protocol engine (`MqttSnClient`).

Platform conventions of the embedding (the library targets AVR-GCC):
* structs are laid out without padding, so the field offsets are the running
  sums of the field sizes (`Regack` is 7 bytes, `Publish::data` is at offset 7);
* bit-fields are allocated from the least significant bit of their byte;
* the host byte order is a parameter (`bigEndianHost`), because `bswap` swaps
  unconditionally.

Memory.  A message buffer is the memory starting at the first byte of the buffer, a
map from offsets to bytes; the array proper is its first `PAYLOAD_CAPACITY + 1`
cells, and a read of a C string out of it stops there at the latest.  A C string
argument is the list of its characters, the terminating NUL excluded, so `strlen` is
the length of the list.

Environment.  The radio is scripted: a list of `RxEvent`, one for each poll of
`available()` and `receive(...)`, and a list of outcomes for the coming `send`
calls.  The blocking operations take the stream of events and return what is left
of it; they return `none` when the stream ends before the awaited message arrives,
which is the case in which the busy loop of the code never ends.  The callback is
represented by the log of its invocations.

The stem `init` stands for the method name `initialize` of the message structs.
-/

namespace BtMqttSn

/-! ## Build constants -/

/-- Constants of `BtMqttSnConfiguration.hpp`, `I_RfPacketSocket` and `MqttSnClient.hpp`,
which are not among the sources: they are parameters of the embedding. -/
structure Config where
  /-- The constant `I_RfPacketSocket::PAYLOAD_CAPACITY`. -/
  PAYLOAD_CAPACITY : Nat
  /-- The constant `MAX_LENGTH_CLIENT_ID`. -/
  MAX_LENGTH_CLIENT_ID : Nat
  /-- The constant `MAX_LENGTH_TOPIC_NAME`. -/
  MAX_LENGTH_TOPIC_NAME : Nat
  /-- The constant `MAX_LENGTH_DATA`. -/
  MAX_LENGTH_DATA : Nat
  /-- The capacity of the topic registry. -/
  MAX_TOPICS : Nat
  /-- The default value that the declaration of the four-argument `publish` gives `iRetain`. -/
  DEFAULT_RETAIN : Bool
  /-- Whether the host stores a `uint16_t` high byte first. -/
  bigEndianHost : Bool

/-! ## Memory -/

/-- Memory from the first byte of a message buffer on. -/
abbrev Buffer := Nat → Nat

/-- The buffer after `uint8_t buffer[...] = {0}`. -/
def zeroBuffer : Buffer := fun _ => 0

/-- Store of one `uint8_t` at offset `i`. -/
def poke (buf : Buffer) (i v : Nat) : Buffer :=
  fun j => if j = i then v % 256 else buf j

/-- Native store of a `uint16_t` at offset `i`. -/
def storeU16 (be : Bool) (buf : Buffer) (i v : Nat) : Buffer :=
  if be then poke (poke buf i (v / 256)) (i + 1) v
  else poke (poke buf i v) (i + 1) (v / 256)

/-- Native load of a `uint16_t` at offset `i`. -/
def loadU16 (be : Bool) (buf : Buffer) (i : Nat) : Nat :=
  if be then 256 * buf i + buf (i + 1) else buf i + 256 * buf (i + 1)

/-- The call `memcpy(buf + off, src, n)`. -/
def memcpy (buf : Buffer) (off : Nat) (src : List Nat) (n : Nat) : Buffer :=
  fun j => if off ≤ j ∧ j < off + n then src.getD (j - off) 0 % 256 else buf j

/-- The `n` bytes of the buffer from offset `off` on. -/
def bytesAt (buf : Buffer) (off n : Nat) : List Nat :=
  (List.range n).map (fun k => buf (off + k))

/-- The C string found at offset `off`, read up to the first NUL; `limit` bounds the scan. -/
def cstrAt (buf : Buffer) (off limit : Nat) : List Nat :=
  (bytesAt buf off limit).takeWhile (fun b => b != 0)

/-- The function `strlen` on a C string. -/
def strlen (s : List Nat) : Nat := s.length

/-! ## Packet codec -/

/-- The function `bswap` on a `uint16_t`. -/
def bswap (iValue : Nat) : Nat :=
  ((iValue <<< 8) ||| (iValue >>> 8)) % 65536

def PROTOCOL_ID_1_2 : Nat := 0x01

def CONNECT : Nat := 0x04
def CONNACK : Nat := 0x05
def REGISTER : Nat := 0x0A
def REGACK : Nat := 0x0B
def PUBLISH : Nat := 0x0C
def SUBSCRIBE : Nat := 0x12
def SUBACK : Nat := 0x13
def DISCONNECT : Nat := 0x18

def ACCEPTED : Nat := 0x00
def REJECTED_CONGESTION : Nat := 0x01
def REJECTED_INVALID_TOPIC_ID : Nat := 0x02
def REJECTED_NOT_SUPPORTED : Nat := 0x03

/-- Store into the bit-field of width `w` at bit `o` of the byte `b`. -/
def setBits (b o w v : Nat) : Nat :=
  (b - (b / 2 ^ o % 2 ^ w) * 2 ^ o + (v % 2 ^ w) * 2 ^ o) % 256

/-- Load of the bit-field of width `w` at bit `o` of the byte `b`. -/
def getBits (b o w : Nat) : Nat := b / 2 ^ o % 2 ^ w

namespace Flags

def setDup (b : Nat) (v : Bool) : Nat := setBits b 0 1 v.toNat
def setQos (b v : Nat) : Nat := setBits b 1 2 v
def setRetain (b : Nat) (v : Bool) : Nat := setBits b 3 1 v.toNat
def setWill (b : Nat) (v : Bool) : Nat := setBits b 4 1 v.toNat
def setCleanSession (b : Nat) (v : Bool) : Nat := setBits b 5 1 v.toNat
def setTopicIdType (b v : Nat) : Nat := setBits b 6 2 v

def dup (b : Nat) : Bool := getBits b 0 1 != 0
def qos (b : Nat) : Nat := getBits b 1 2
def retain (b : Nat) : Bool := getBits b 3 1 != 0
def will (b : Nat) : Bool := getBits b 4 1 != 0
def cleanSession (b : Nat) : Bool := getBits b 5 1 != 0
def topicIdType (b : Nat) : Nat := getBits b 6 2

end Flags

/-- The field `Header::length` of the message in the buffer. -/
def Header.length (buf : Buffer) : Nat := buf 0

/-- The field `Header::msgType` of the message in the buffer. -/
def Header.msgType (buf : Buffer) : Nat := buf 1

/-- The method `Connect::initialize`; `sizeof(Connect)` is 6. -/
def Connect.init (be : Bool) (buf : Buffer) (pClientId : List Nat) : Buffer :=
  let buf := poke buf 0 (6 + strlen pClientId)
  let buf := poke buf 1 CONNECT
  let buf := poke buf 2 (Flags.setDup (buf 2) false)
  let buf := poke buf 2 (Flags.setQos (buf 2) 0)
  let buf := poke buf 2 (Flags.setRetain (buf 2) false)
  let buf := poke buf 2 (Flags.setWill (buf 2) false)
  let buf := poke buf 2 (Flags.setCleanSession (buf 2) true)
  let buf := poke buf 2 (Flags.setTopicIdType (buf 2) 0)
  let buf := poke buf 3 PROTOCOL_ID_1_2
  let buf := storeU16 be buf 4 0xFFFF
  memcpy buf 6 pClientId (strlen pClientId)

/-- The field `Connack::returnCode`. -/
def Connack.returnCode (buf : Buffer) : Nat := buf 2

/-- The method `Register::initialize`; `sizeof(Register)` is 6. -/
def Register.init (be : Bool) (buf : Buffer) (iMsgId : Nat) (iTopicName : List Nat) :
    Buffer :=
  let buf := poke buf 0 (6 + strlen iTopicName)
  let buf := poke buf 1 REGISTER
  let buf := storeU16 be buf 2 0x0000
  let buf := storeU16 be buf 4 (bswap iMsgId)
  memcpy buf 6 iTopicName (strlen iTopicName)

def Register.getTopicId (be : Bool) (buf : Buffer) : Nat := bswap (loadU16 be buf 2)

def Register.getMsgId (be : Bool) (buf : Buffer) : Nat := bswap (loadU16 be buf 4)

/-- The member `Register::topicName`, read as a C string. -/
def Register.topicName (buf : Buffer) (limit : Nat) : List Nat := cstrAt buf 6 limit

/-- The method `Regack::initialize`; `sizeof(Regack)` is 7. -/
def Regack.init (be : Bool) (buf : Buffer) (iTopicId iMsgId iReturnCode : Nat) : Buffer :=
  let buf := poke buf 0 7
  let buf := poke buf 1 REGACK
  let buf := storeU16 be buf 2 (bswap iTopicId)
  let buf := storeU16 be buf 4 (bswap iMsgId)
  poke buf 6 iReturnCode

def Regack.getTopicId (be : Bool) (buf : Buffer) : Nat := bswap (loadU16 be buf 2)

def Regack.getMsgId (be : Bool) (buf : Buffer) : Nat := bswap (loadU16 be buf 4)

/-- The field `Regack::returnCode`. -/
def Regack.returnCode (buf : Buffer) : Nat := buf 6

/-- The method `Publish::initialize`; `sizeof(Publish)` is 7. -/
def Publish.init (be : Bool) (buf : Buffer) (iRetain : Bool) (iTopicId : Nat)
    (iData : List Nat) (iSize : Nat) : Buffer :=
  let buf := poke buf 0 (7 + iSize)
  let buf := poke buf 1 PUBLISH
  let buf := poke buf 2 (Flags.setDup (buf 2) false)
  let buf := poke buf 2 (Flags.setQos (buf 2) 0)
  let buf := poke buf 2 (Flags.setRetain (buf 2) iRetain)
  let buf := poke buf 2 (Flags.setWill (buf 2) false)
  let buf := poke buf 2 (Flags.setCleanSession (buf 2) true)
  let buf := poke buf 2 (Flags.setTopicIdType (buf 2) 0)
  let buf := storeU16 be buf 3 (bswap iTopicId)
  let buf := storeU16 be buf 5 0x0000
  memcpy buf 7 iData iSize

def Publish.getTopicId (be : Bool) (buf : Buffer) : Nat := bswap (loadU16 be buf 3)

def Publish.getMsgId (be : Bool) (buf : Buffer) : Nat := bswap (loadU16 be buf 5)

/-- The field `Publish::flags`. -/
def Publish.flags (buf : Buffer) : Nat := buf 2

/-- The member `Publish::data`, read as a C string. -/
def Publish.data (buf : Buffer) (limit : Nat) : List Nat := cstrAt buf 7 limit

/-- The method `Subscribe::initialize`; the fixed part is 5 bytes. -/
def Subscribe.init (be : Bool) (buf : Buffer) (iMsgId : Nat) (iTopicName : List Nat) :
    Buffer :=
  let buf := poke buf 0 (2 + 1 + 2 + strlen iTopicName)
  let buf := poke buf 1 SUBSCRIBE
  let buf := poke buf 2 (Flags.setDup (buf 2) false)
  let buf := poke buf 2 (Flags.setQos (buf 2) 0)
  let buf := poke buf 2 (Flags.setRetain (buf 2) false)
  let buf := poke buf 2 (Flags.setWill (buf 2) false)
  let buf := poke buf 2 (Flags.setCleanSession (buf 2) false)
  let buf := poke buf 2 (Flags.setTopicIdType (buf 2) 0x0)
  let buf := storeU16 be buf 3 (bswap iMsgId)
  memcpy buf 5 iTopicName (strlen iTopicName)

def Suback.getTopicId (be : Bool) (buf : Buffer) : Nat := bswap (loadU16 be buf 3)

def Suback.getMsgId (be : Bool) (buf : Buffer) : Nat := bswap (loadU16 be buf 5)

/-- The field `Suback::returnCode`. -/
def Suback.returnCode (buf : Buffer) : Nat := buf 7

/-- The method `Disconnect::initialize`. -/
def Disconnect.init (buf : Buffer) : Buffer :=
  let buf := poke buf 0 2
  poke buf 1 DISCONNECT

/-! ## Topic registry -/

/-- A registered topic: the class `Topic` of `MqttSnClient.hpp`. -/
structure Topic where
  id : Nat
  name : List Nat
deriving DecidableEq, Repr

/-- Modelled from the spec: the registry class `Topics` behind `mTopics` is declared in
`MqttSnClient.hpp`, which is not among the sources.  A fixed-capacity table of topics,
searched by linear scan. -/
structure Topics where
  entries : List Topic
deriving DecidableEq, Repr

/-- Modelled from the spec: `findTopic(const char*)` of the absent class `Topics`, a linear
scan for the name. -/
def Topics.findTopic (r : Topics) (iName : List Nat) : Option Topic :=
  r.entries.find? (fun t => t.name == iName)

/-- Modelled from the spec: `findTopic(uint16_t)` of the absent class `Topics`, a linear
scan for the id. -/
def Topics.findTopicById (r : Topics) (iId : Nat) : Option Topic :=
  r.entries.find? (fun t => t.id == iId)

/-- Modelled from the spec: `add` of the absent class `Topics`.  It returns false on a
duplicate id or a full table, without mutating the registry; id 0 is never stored; the name
is copied in. -/
def Topics.add (capacity : Nat) (r : Topics) (iId : Nat) (iName : List Nat) : Bool × Topics :=
  if iId = 0 then (false, r)
  else if (r.findTopicById iId).isSome then (false, r)
  else if capacity ≤ r.entries.length then (false, r)
  else (true, { entries := r.entries ++ [{ id := iId, name := iName }] })

/-! ## Transport -/

/-- What the radio answers to one poll of `available()` followed by `receive(...)`. -/
inductive RxEvent where
  /-- No data: `available()` returns false. -/
  | idle
  /-- Data is announced but `receive` returns a negative size. -/
  | failure
  /-- A packet from node `node` with the given bytes. -/
  | packet (node : Nat) (bytes : List Nat)
deriving DecidableEq, Repr

/-- The sending side of the transport `I_RfPacketSocket`: the outcomes of the coming `send`
calls (a call past the end of the list fails) and the log of what was handed to `send`,
destination node and bytes. -/
structure Socket where
  sendResults : List Bool
  sent : List (Nat × List Nat)
deriving DecidableEq, Repr

/-- The call `send(buffer, size, node)`. -/
def Socket.send (s : Socket) (buffer : Buffer) (size node : Nat) : Bool × Socket :=
  (s.sendResults.headD false,
    { sendResults := s.sendResults.tail, sent := s.sent ++ [(node, bytesAt buffer 0 size)] })

/-- The call `available()` at a poll. -/
def Socket.available : RxEvent → Bool
  | .idle => false
  | _ => true

/-- The call `receive(oBuffer, maxSize, &node)` at a poll: buffer afterwards, returned size and
sender node.  At most `maxSize` bytes of a packet are stored. -/
def Socket.receive (ev : RxEvent) (oBuffer : Buffer) (maxSize : Nat) : Buffer × Int × Nat :=
  match ev with
  | .packet node bytes =>
    let n := min bytes.length maxSize
    (memcpy oBuffer 0 bytes n, (n : Int), node)
  | _ => (oBuffer, -1, 0)

/-- The next poll of a stream of radio events; the radio stays silent after the last one. -/
def nextEvent : List RxEvent → RxEvent × List RxEvent
  | [] => (.idle, [])
  | ev :: rx => (ev, rx)

/-! ## Protocol engine -/

/-- The state of a `MqttSnClient`.  `mCallback` tells whether a callback is set and
`delivered` logs its invocations, topic name and payload text. -/
structure MqttSnClient where
  mSocket : Socket
  mGatewayNodeId : Nat
  mClientId : List Nat
  mMsgIdCounter : Nat
  mTopics : Topics
  mCallback : Bool
  delivered : List (List Nat × List Nat)
deriving DecidableEq, Repr

/-- The constructor `MqttSnClient::MqttSnClient`. -/
def MqttSnClient.create (cfg : Config) (iSocket : Socket) (iGatewayNodeId : Nat)
    (iClientId : List Nat) (iCallback : Bool) : MqttSnClient :=
  { mSocket := iSocket
    mGatewayNodeId := iGatewayNodeId
    mClientId := iClientId.take cfg.MAX_LENGTH_CLIENT_ID
    mMsgIdCounter := 0
    mTopics := { entries := [] }
    mCallback := iCallback
    delivered := [] }

/-- The text `"?"` handed to the callback for an unknown topic id. -/
def unknownTopic : List Nat := [63]

/-- The method `MqttSnClient::reveiveLoop` at one poll. -/
def MqttSnClient.reveiveLoop (cfg : Config) (c : MqttSnClient) (ev : RxEvent)
    (oBuffer : Buffer) : Bool × Buffer :=
  if !Socket.available ev then (false, oBuffer)
  else
    let received := Socket.receive ev oBuffer cfg.PAYLOAD_CAPACITY
    let oBuffer := received.1
    let size := received.2.1
    let receiveNodeId := received.2.2
    if size < 0 then (false, oBuffer)
    else if receiveNodeId ≠ c.mGatewayNodeId then (false, oBuffer)
    else if size < 2 then (false, oBuffer)
    else if size ≠ (Header.length oBuffer : Int) then (false, oBuffer)
    else (true, oBuffer)

/-- The method `MqttSnClient::handlePublish`. -/
def MqttSnClient.handlePublish (cfg : Config) (c : MqttSnClient) (iBuffer : Buffer) :
    MqttSnClient :=
  if !c.mCallback then c
  else
    let data := Publish.data iBuffer (cfg.PAYLOAD_CAPACITY + 1 - 7)
    match c.mTopics.findTopicById (Publish.getTopicId cfg.bigEndianHost iBuffer) with
    | none => { c with delivered := c.delivered ++ [(unknownTopic, data)] }
    | some topic => { c with delivered := c.delivered ++ [(topic.name, data)] }

/-- The method `MqttSnClient::handleRegister`. -/
def MqttSnClient.handleRegister (cfg : Config) (c : MqttSnClient) (iBuffer : Buffer) :
    MqttSnClient :=
  let be := cfg.bigEndianHost
  let added := c.mTopics.add cfg.MAX_TOPICS (Register.getTopicId be iBuffer)
    (Register.topicName iBuffer (cfg.PAYLOAD_CAPACITY + 1 - 6))
  let returnCode := if !added.1 then REJECTED_NOT_SUPPORTED else ACCEPTED
  let buffer := Regack.init be zeroBuffer (Register.getTopicId be iBuffer)
    (Register.getMsgId be iBuffer) returnCode
  let sending := c.mSocket.send buffer (Header.length buffer) c.mGatewayNodeId
  { c with mTopics := added.2, mSocket := sending.2 }

/-- The method `MqttSnClient::handleInternal`. -/
def MqttSnClient.handleInternal (cfg : Config) (c : MqttSnClient) (iBuffer : Buffer) :
    MqttSnClient :=
  if Header.msgType iBuffer = PUBLISH then c.handlePublish cfg iBuffer
  else if Header.msgType iBuffer = REGISTER then c.handleRegister cfg iBuffer
  else c

/-- The method `MqttSnClient::handleLoop` at one poll. -/
def MqttSnClient.handleLoop (cfg : Config) (c : MqttSnClient) (ev : RxEvent)
    (oBuffer : Buffer) (msgType : Nat) : Bool × MqttSnClient × Buffer :=
  let received := c.reveiveLoop cfg ev oBuffer
  if !received.1 then (false, c, received.2)
  else if Header.msgType received.2 = msgType then (true, c, received.2)
  else (false, c.handleInternal cfg received.2, received.2)

/-- The method `MqttSnClient::pollLoop` over the stream of radio events: `none` when the
awaited message type never arrives, in which case the loop never ends. -/
def MqttSnClient.pollLoop (cfg : Config) (msgType : Nat) :
    List RxEvent → MqttSnClient → Buffer → Option (MqttSnClient × Buffer × List RxEvent)
  | [], _, _ => none
  | ev :: rx, c, oBuffer =>
    let handled := c.handleLoop cfg ev oBuffer msgType
    if handled.1 then some (handled.2.1, handled.2.2, rx)
    else MqttSnClient.pollLoop cfg msgType rx handled.2.1 handled.2.2

/-- The method `MqttSnClient::loop`. -/
def MqttSnClient.loop (cfg : Config) (c : MqttSnClient) (rx : List RxEvent) :
    MqttSnClient × List RxEvent :=
  let polled := nextEvent rx
  let handled := c.handleLoop cfg polled.1 zeroBuffer PUBLISH
  if !handled.1 then (handled.2.1, polled.2)
  else (handled.2.1.handlePublish cfg handled.2.2, polled.2)

/-- The method `MqttSnClient::connect`. -/
def MqttSnClient.connect (cfg : Config) (c : MqttSnClient) (rx : List RxEvent) :
    Option (Bool × MqttSnClient × List RxEvent) :=
  let buffer := Connect.init cfg.bigEndianHost zeroBuffer c.mClientId
  let sending := c.mSocket.send buffer (Header.length buffer) c.mGatewayNodeId
  let c := { c with mSocket := sending.2 }
  if !sending.1 then some (false, c, rx)
  else
    match MqttSnClient.pollLoop cfg CONNACK rx c buffer with
    | none => none
    | some (c, buffer, rx) =>
      if Connack.returnCode buffer = ACCEPTED then some (true, c, rx)
      else some (false, c, rx)

/-- The method `MqttSnClient::disconnect`. -/
def MqttSnClient.disconnect (cfg : Config) (c : MqttSnClient) (rx : List RxEvent) :
    Option (Bool × MqttSnClient × List RxEvent) :=
  let buffer := Disconnect.init zeroBuffer
  let sending := c.mSocket.send buffer (Header.length buffer) c.mGatewayNodeId
  let c := { c with mSocket := sending.2 }
  if !sending.1 then some (false, c, rx)
  else
    match MqttSnClient.pollLoop cfg DISCONNECT rx c buffer with
    | none => none
    | some (c, _, rx) => some (true, c, rx)

/-- The method `MqttSnClient::registerTopic`. -/
def MqttSnClient.registerTopic (cfg : Config) (c : MqttSnClient) (rx : List RxEvent)
    (iTopic : List Nat) : Option (Bool × MqttSnClient × List RxEvent) :=
  if strlen iTopic > cfg.MAX_LENGTH_TOPIC_NAME then some (false, c, rx)
  else
    let be := cfg.bigEndianHost
    let msgId := c.mMsgIdCounter
    let c := { c with mMsgIdCounter := (c.mMsgIdCounter + 1) % 65536 }
    let buffer := Register.init be zeroBuffer msgId iTopic
    let sending := c.mSocket.send buffer (Header.length buffer) c.mGatewayNodeId
    let c := { c with mSocket := sending.2 }
    if !sending.1 then some (false, c, rx)
    else
      match MqttSnClient.pollLoop cfg REGACK rx c buffer with
      | none => none
      | some (c, buffer, rx) =>
        if Regack.getMsgId be buffer ≠ msgId then some (false, c, rx)
        else if Regack.returnCode buffer ≠ ACCEPTED then some (false, c, rx)
        else
          let added := c.mTopics.add cfg.MAX_TOPICS (Regack.getTopicId be buffer) iTopic
          if !added.1 then some (false, { c with mTopics := added.2 }, rx)
          else some (true, { c with mTopics := added.2 }, rx)

/-- The method `MqttSnClient::publish(const char*, const uint8_t*, size_t, bool)`. -/
def MqttSnClient.publish (cfg : Config) (c : MqttSnClient) (rx : List RxEvent)
    (iTopic : List Nat) (iData : List Nat) (iSize : Nat) (iRetain : Bool) :
    Option (Bool × MqttSnClient × List RxEvent) :=
  let send := fun (c : MqttSnClient) (rx : List RxEvent) (topic : Topic) =>
    let buffer := Publish.init cfg.bigEndianHost zeroBuffer iRetain topic.id iData iSize
    let sending := c.mSocket.send buffer (Header.length buffer) c.mGatewayNodeId
    let c := { c with mSocket := sending.2 }
    if !sending.1 then (false, c, rx) else (true, c, rx)
  if iSize > cfg.MAX_LENGTH_DATA then some (false, c, rx)
  else
    match c.mTopics.findTopic iTopic with
    | some topic => some (send c rx topic)
    | none =>
      match c.registerTopic cfg rx iTopic with
      | none => none
      | some (registered, c, rx) =>
        if !registered then some (false, c, rx)
        else
          match c.mTopics.findTopic iTopic with
          | none => some (false, c, rx)
          | some topic => some (send c rx topic)

/-- The method `MqttSnClient::publish(const char*, const char*, bool)`: it calls the
four-argument `publish` with three arguments, so that one runs with the default `iRetain`. -/
def MqttSnClient.publishText (cfg : Config) (c : MqttSnClient) (rx : List RxEvent)
    (iTopic : List Nat) (iMessage : List Nat) (_iRetain : Bool) :
    Option (Bool × MqttSnClient × List RxEvent) :=
  c.publish cfg rx iTopic iMessage (strlen iMessage) cfg.DEFAULT_RETAIN

/-- The method `MqttSnClient::subscribe`. -/
def MqttSnClient.subscribe (cfg : Config) (c : MqttSnClient) (rx : List RxEvent)
    (iTopic : List Nat) : Option (Bool × MqttSnClient × List RxEvent) :=
  if strlen iTopic > cfg.MAX_LENGTH_TOPIC_NAME then some (false, c, rx)
  else
    let be := cfg.bigEndianHost
    let msgId := c.mMsgIdCounter
    let c := { c with mMsgIdCounter := (c.mMsgIdCounter + 1) % 65536 }
    let buffer := Subscribe.init be zeroBuffer msgId iTopic
    let sending := c.mSocket.send buffer (Header.length buffer) c.mGatewayNodeId
    let c := { c with mSocket := sending.2 }
    if !sending.1 then some (false, c, rx)
    else
      match MqttSnClient.pollLoop cfg SUBACK rx c buffer with
      | none => none
      | some (c, buffer, rx) =>
        if Suback.getMsgId be buffer ≠ msgId then some (false, c, rx)
        else if Suback.returnCode buffer ≠ ACCEPTED then some (false, c, rx)
        else if Suback.getTopicId be buffer ≠ 0x0000 then
          let added := c.mTopics.add cfg.MAX_TOPICS (Suback.getTopicId be buffer) iTopic
          if !added.1 then some (false, { c with mTopics := added.2 }, rx)
          else some (true, { c with mTopics := added.2 }, rx)
        else some (true, c, rx)

/-! ## Notions used in the statements -/

/-- The packet `p` of the send log is addressed to node `gw`, has type byte `msgType`, and
its header length byte and its number of bytes are both `total`. -/
def isFramed (gw msgType total : Nat) (p : Nat × List Nat) : Bool :=
  p.1 == gw && p.2.length == total && p.2.getD 0 0 == total && p.2.getD 1 0 == msgType

/-- What the engine has handed to the transport between the states `c` and `c2`, when the
send log of `c2` continues that of `c`. -/
def sentSince (c c2 : MqttSnClient) : Option (List (Nat × List Nat)) :=
  if c2.mSocket.sent.take c.mSocket.sent.length = c.mSocket.sent then
    some (c2.mSocket.sent.drop c.mSocket.sent.length)
  else none

/-- Between the states `c` and `c2` the engine has handed to the transport, for the gateway
node, first a message of type `msgType` of exactly `total` bytes with header length byte
`total`, and after it nothing but REGACKs of exactly 7 bytes with header length byte 7. -/
def transmits (c c2 : MqttSnClient) (msgType total : Nat) : Bool :=
  match sentSince c c2 with
  | some (p :: replies) =>
    isFramed c.mGatewayNodeId msgType total p &&
      replies.all (isFramed c.mGatewayNodeId REGACK 7)
  | _ => false

/-- Every packet that the engine has handed to the transport between the states `c` and
`c2` is for the gateway node and of one of the `kinds`, pairs of a message type and a total:
it has that type byte, and its header length byte and its number of bytes are that total. -/
def transmitsOnly (c c2 : MqttSnClient) (kinds : List (Nat × Nat)) : Bool :=
  match sentSince c c2 with
  | some new => new.all (fun p => kinds.any (fun k => isFramed c.mGatewayNodeId k.1 k.2 p))
  | none => false

/-- The encoder `enc`, as a function of the buffer it writes into, writes exactly the
`total` bytes from offset 0 on: each of them comes out the same whatever the buffer held,
and no byte at offset `total` or behind it is touched. -/
def writesExactly (enc : Buffer → Buffer) (total : Nat) : Prop :=
  (∀ (b1 b2 : Buffer) (j : Nat), j < total → enc b1 j = enc b2 j) ∧
    ∀ (buf : Buffer) (j : Nat), total ≤ j → enc buf j = buf j

/-- The message type of the packet that a poll delivers, when the receive step
(`reveiveLoop`) accepts it for the gateway node `gw`; `none` when nothing is accepted. -/
def RxEvent.accepted (cfg : Config) (gw : Nat) : RxEvent → Option Nat
  | .packet node bytes =>
    if node = gw ∧ 2 ≤ min bytes.length cfg.PAYLOAD_CAPACITY ∧
        min bytes.length cfg.PAYLOAD_CAPACITY = bytes.getD 0 0 % 256 then
      some (bytes.getD 1 0 % 256)
    else none
  | _ => none

/-- No poll of `pre` ends a wait for the message type `awaited` and none delivers a REGISTER
that is dispatched. -/
def isQuiet (cfg : Config) (gw awaited : Nat) (pre : List RxEvent) : Bool :=
  pre.all (fun ev => RxEvent.accepted cfg gw ev != some awaited &&
    RxEvent.accepted cfg gw ev != some REGISTER)

/-- No poll of `pre` ends a wait for the message type `awaited`. -/
def isWaiting (cfg : Config) (gw awaited : Nat) (pre : List RxEvent) : Bool :=
  pre.all (fun ev => RxEvent.accepted cfg gw ev != some awaited)

/-- The blocking operation `op`, started in state `c` and waiting for the message type
`awaited`, ends and establishes `post`: when the send of its request fails it returns false
at once with the stream of radio events untouched; when the send succeeds it returns as soon
as the awaited message is accepted, whatever the polls before it brought; and whenever it
returns, the state it returns satisfies `post`. -/
def Completes (cfg : Config) (c : MqttSnClient)
    (op : List RxEvent → Option (Bool × MqttSnClient × List RxEvent)) (awaited : Nat)
    (post : MqttSnClient → Prop) : Prop :=
  (c.mSocket.sendResults.headD false = false →
    ∀ rx : List RxEvent, ∃ c2, op rx = some (false, c2, rx) ∧ post c2) ∧
  (c.mSocket.sendResults.headD false = true →
    ∀ (pre : List RxEvent) (reply : RxEvent) (rest : List RxEvent),
      isWaiting cfg c.mGatewayNodeId awaited pre = true →
      RxEvent.accepted cfg c.mGatewayNodeId reply = some awaited →
      ∃ ok c2, op (pre ++ reply :: rest) = some (ok, c2, rest) ∧ post c2) ∧
  (∀ (rx : List RxEvent) (ok : Bool) (c2 : MqttSnClient) (rx2 : List RxEvent),
    op rx = some (ok, c2, rx2) → post c2)

/-- The packet `pkt` as it lies in a zeroed receive buffer. -/
def packetBuffer (pkt : List Nat) : Buffer := memcpy zeroBuffer 0 pkt pkt.length

/-- The packet `pkt` is one that the receive step accepts from the gateway as a message of
`size` bytes and type `msgType`: it has `size` bytes, fits the payload capacity, and its
header declares that length and that type. -/
def isMessage (cfg : Config) (pkt : List Nat) (size msgType : Nat) : Bool :=
  decide (pkt.length = size ∧ 2 ≤ size ∧ size ≤ cfg.PAYLOAD_CAPACITY ∧
    Header.length (packetBuffer pkt) = size ∧ Header.msgType (packetBuffer pkt) = msgType)

/-- A sample build: payload capacity 30, client ids up to 10, topic names and payloads up
to 20 bytes, 4 registry entries, `iRetain` false by default, low-byte-first host. -/
def sampleConfig : Config :=
  { PAYLOAD_CAPACITY := 30
    MAX_LENGTH_CLIENT_ID := 10
    MAX_LENGTH_TOPIC_NAME := 20
    MAX_LENGTH_DATA := 20
    MAX_TOPICS := 4
    DEFAULT_RETAIN := false
    bigEndianHost := false }

/-- A freshly constructed client with client id `Bt`, gateway node 1, a callback, and a
transport on which the next three sends succeed. -/
def sampleClient : MqttSnClient :=
  MqttSnClient.create sampleConfig { sendResults := [true, true, true], sent := [] } 1
    [66, 116] true

/-- The topic name `sensor/temp`. -/
def sensorTemp : List Nat := [115, 101, 110, 115, 111, 114, 47, 116, 101, 109, 112]

/-- The sample client with `sensor/temp` registered under topic id 7. -/
def registeredClient : MqttSnClient :=
  { sampleClient with mTopics := { entries := [{ id := 7, name := sensorTemp }] } }

/-- The sample client after a `registerTopic` of `sensor/temp` that was sent and failed:
the REGISTER is in the send log and the message-id counter has advanced. -/
def failedRegistration : MqttSnClient :=
  { sampleClient with
    mMsgIdCounter := 1
    mSocket :=
      { sendResults := [true, true]
        sent := [(1, [17, 10, 0, 0, 0, 0, 115, 101, 110, 115, 111, 114, 47, 116, 101, 109,
          112])] } }

/-! ## Basic facts about memory and byte order -/

theorem bswap_eq (v : Nat) (h : v < 65536) : bswap v = (v % 256) * 256 + v / 256 := by
  have h1 : v >>> 8 < 2 ^ 8 := by
    rw [Nat.shiftRight_eq_div_pow]; omega
  have h2 := Nat.mul_add_lt_is_or h1 v
  unfold bswap
  rw [Nat.shiftLeft_eq, Nat.mul_comm v (2 ^ 8), ← h2, Nat.shiftRight_eq_div_pow]
  omega

theorem bswap_lt (v : Nat) : bswap v < 65536 := by
  unfold bswap; omega

theorem bswap_bswap (v : Nat) (h : v < 65536) : bswap (bswap v) = v := by
  rw [bswap_eq (bswap v) (bswap_lt v), bswap_eq v h]
  omega

@[simp] theorem poke_apply (buf : Buffer) (i v j : Nat) :
    poke buf i v j = if j = i then v % 256 else buf j := rfl

@[simp] theorem memcpy_apply (buf : Buffer) (off : Nat) (src : List Nat) (n j : Nat) :
    memcpy buf off src n j = if off ≤ j ∧ j < off + n then src.getD (j - off) 0 % 256 else buf j :=
  rfl

@[simp] theorem zeroBuffer_apply (j : Nat) : zeroBuffer j = 0 := rfl

theorem loadU16_storeU16 (be : Bool) (buf : Buffer) (i v : Nat) (h : v < 65536) :
    loadU16 be (storeU16 be buf i v) i = v := by
  cases be <;> simp [loadU16, storeU16] <;> omega

@[simp] theorem length_bytesAt (buf : Buffer) (off n : Nat) : (bytesAt buf off n).length = n := by
  simp [bytesAt]

theorem bytesAt_memcpy (buf : Buffer) (off : Nat) (src : List Nat) (n : Nat)
    (hn : n ≤ src.length) (hb : ∀ x ∈ src, x < 256) :
    bytesAt (memcpy buf off src n) off n = src.take n := by
  apply List.ext_getElem
  · simp [hn]
  · intro k h1 h2
    simp at h1 h2
    have h3 : k < src.length := by omega
    simp [bytesAt, h1, h3]
    exact hb _ (List.getElem_mem _)

theorem loadU16_poke_of_lt (be : Bool) (buf : Buffer) (i j v : Nat) (h : i + 1 < j) :
    loadU16 be (poke buf j v) i = loadU16 be buf i := by
  have h1 : i ≠ j := by omega
  have h2 : i + 1 ≠ j := by omega
  simp [loadU16, h1, h2]

theorem loadU16_storeU16_of_lt (be : Bool) (buf : Buffer) (i j v : Nat) (h : i + 1 < j) :
    loadU16 be (storeU16 be buf j v) i = loadU16 be buf i := by
  have h1 : i ≠ j := by omega
  have h2 : i + 1 ≠ j := by omega
  have h3 : i ≠ j + 1 := by omega
  have h4 : i + 1 ≠ j + 1 := by omega
  cases be <;> simp [loadU16, storeU16, h1, h2, h3, h4]

theorem loadU16_memcpy_of_lt (be : Bool) (buf : Buffer) (i off : Nat) (src : List Nat) (n : Nat)
    (h : i + 1 < off) : loadU16 be (memcpy buf off src n) i = loadU16 be buf i := by
  have h1 : ¬ (off ≤ i) := by omega
  have h2 : ¬ (off ≤ i + 1) := by omega
  simp [loadU16, h1, h2]

theorem regack_loadTopicId (be : Bool) (buf : Buffer) (t m r : Nat) :
    loadU16 be (Regack.init be buf t m r) 2 = bswap t := by
  simp only [Regack.init]
  rw [loadU16_poke_of_lt _ _ _ _ _ (by omega), loadU16_storeU16_of_lt _ _ _ _ _ (by omega),
    loadU16_storeU16 _ _ _ _ (bswap_lt t)]

theorem regack_loadMsgId (be : Bool) (buf : Buffer) (t m r : Nat) :
    loadU16 be (Regack.init be buf t m r) 4 = bswap m := by
  simp only [Regack.init]
  rw [loadU16_poke_of_lt _ _ _ _ _ (by omega), loadU16_storeU16 _ _ _ _ (bswap_lt m)]

theorem publish_loadTopicId (be : Bool) (buf : Buffer) (retain : Bool) (t : Nat)
    (data : List Nat) (n : Nat) :
    loadU16 be (Publish.init be buf retain t data n) 3 = bswap t := by
  simp only [Publish.init]
  rw [loadU16_memcpy_of_lt _ _ _ _ _ _ (by omega), loadU16_storeU16_of_lt _ _ _ _ _ (by omega),
    loadU16_storeU16 _ _ _ _ (bswap_lt t)]

theorem publish_loadMsgId (be : Bool) (buf : Buffer) (retain : Bool) (t : Nat)
    (data : List Nat) (n : Nat) :
    loadU16 be (Publish.init be buf retain t data n) 5 = 0 := by
  simp only [Publish.init]
  rw [loadU16_memcpy_of_lt _ _ _ _ _ _ (by omega), loadU16_storeU16 _ _ _ _ (by omega)]

theorem publish_flags_init (be : Bool) (retain : Bool) (t : Nat)
    (data : List Nat) (n : Nat) :
    Publish.flags (Publish.init be zeroBuffer retain t data n)
      = 32 + 8 * retain.toNat := by
  cases be <;> cases retain <;>
    simp [Publish.init, Publish.flags, storeU16, Flags.setDup, Flags.setQos,
      Flags.setRetain, Flags.setWill, Flags.setCleanSession, Flags.setTopicIdType, setBits]

theorem register_loadTopicId (be : Bool) (buf : Buffer) (m : Nat) (name : List Nat) :
    loadU16 be (Register.init be buf m name) 2 = 0 := by
  simp only [Register.init]
  rw [loadU16_memcpy_of_lt _ _ _ _ _ _ (by omega), loadU16_storeU16_of_lt _ _ _ _ _ (by omega),
    loadU16_storeU16 _ _ _ _ (by omega)]

theorem register_loadMsgId (be : Bool) (buf : Buffer) (m : Nat) (name : List Nat) :
    loadU16 be (Register.init be buf m name) 4 = bswap m := by
  simp only [Register.init]
  rw [loadU16_memcpy_of_lt _ _ _ _ _ _ (by omega), loadU16_storeU16 _ _ _ _ (bswap_lt m)]

theorem bswap_zero : bswap 0 = 0 := by decide

/-! ## The receive step and the wait loop -/

theorem receive_checks (n b0 x node gw : Nat) (buf : Buffer) (h : 2 ≤ n → b0 = x) :
    (if (n : Int) < 0 then (false, buf)
      else if node ≠ gw then (false, buf)
      else if (n : Int) < 2 then (false, buf)
      else if (n : Int) ≠ (b0 : Int) then (false, buf)
      else (true, buf)) = (decide (node = gw ∧ 2 ≤ n ∧ n = x), buf) := by
  split_ifs with h1 h2 h3 h4
  · omega
  · simp [h2]
  · have : ¬ 2 ≤ n := by omega
    simp [this]
  · have h5 : 2 ≤ n := by omega
    have h6 : n ≠ x := by rw [← h h5]; exact_mod_cast h4
    simp [h6]
  · have h5 : 2 ≤ n := by omega
    have h6 : n = x := by rw [← h h5]; push_neg at h4; exact_mod_cast h4
    push_neg at h2
    have h7 : 2 ≤ x := by omega
    simp [h6, h2, h7]

theorem reveiveLoop_packet (cfg : Config) (c : MqttSnClient) (node : Nat) (bytes : List Nat)
    (buf : Buffer) :
    c.reveiveLoop cfg (.packet node bytes) buf =
      (decide (node = c.mGatewayNodeId ∧ 2 ≤ min bytes.length cfg.PAYLOAD_CAPACITY ∧
        min bytes.length cfg.PAYLOAD_CAPACITY = bytes.getD 0 0 % 256),
        memcpy buf 0 bytes (min bytes.length cfg.PAYLOAD_CAPACITY)) := by
  have h5 : 2 ≤ min bytes.length cfg.PAYLOAD_CAPACITY →
      memcpy buf 0 bytes (min bytes.length cfg.PAYLOAD_CAPACITY) 0 = bytes.getD 0 0 % 256 := by
    intro h
    simp only [memcpy_apply]
    rw [if_pos (by omega)]
  exact receive_checks _ _ _ node c.mGatewayNodeId _ h5

theorem reveiveLoop_idle (cfg : Config) (c : MqttSnClient) (buf : Buffer) :
    c.reveiveLoop cfg .idle buf = (false, buf) := rfl

theorem reveiveLoop_failure (cfg : Config) (c : MqttSnClient) (buf : Buffer) :
    c.reveiveLoop cfg .failure buf = (false, buf) := rfl

theorem handleLoop_not_accepted (cfg : Config) (c : MqttSnClient) (ev : RxEvent) (buf : Buffer)
    (msgType : Nat) (h : RxEvent.accepted cfg c.mGatewayNodeId ev = none) :
    ∃ buf2, c.handleLoop cfg ev buf msgType = (false, c, buf2) := by
  cases ev with
  | idle => exact ⟨buf, rfl⟩
  | failure => exact ⟨buf, rfl⟩
  | packet node bytes =>
    refine ⟨memcpy buf 0 bytes (min bytes.length cfg.PAYLOAD_CAPACITY), ?_⟩
    simp only [RxEvent.accepted] at h
    split at h
    · simp at h
    · rename_i h1
      simp only [MqttSnClient.handleLoop, reveiveLoop_packet, decide_eq_false h1]
      rfl

theorem handleLoop_accepted (cfg : Config) (c : MqttSnClient) (node : Nat) (bytes : List Nat)
    (buf : Buffer) (msgType ty : Nat)
    (h : RxEvent.accepted cfg c.mGatewayNodeId (.packet node bytes) = some ty) :
    Header.msgType (memcpy buf 0 bytes (min bytes.length cfg.PAYLOAD_CAPACITY)) = ty ∧
    c.handleLoop cfg (.packet node bytes) buf msgType =
      if ty = msgType then
        (true, c, memcpy buf 0 bytes (min bytes.length cfg.PAYLOAD_CAPACITY))
      else
        (false, c.handleInternal cfg (memcpy buf 0 bytes (min bytes.length cfg.PAYLOAD_CAPACITY)),
          memcpy buf 0 bytes (min bytes.length cfg.PAYLOAD_CAPACITY)) := by
  simp only [RxEvent.accepted] at h
  split at h
  · rename_i h1
    simp only [Option.some.injEq] at h
    have h2 : Header.msgType (memcpy buf 0 bytes (min bytes.length cfg.PAYLOAD_CAPACITY)) = ty := by
      simp only [Header.msgType, memcpy_apply]
      rw [if_pos (by omega)]
      exact h
    refine ⟨h2, ?_⟩
    simp only [MqttSnClient.handleLoop, reveiveLoop_packet, decide_eq_true h1, h2]
    rfl
  · simp at h

theorem handleInternal_not_register (cfg : Config) (c : MqttSnClient) (buf : Buffer)
    (h : Header.msgType buf ≠ REGISTER) :
    ∃ d, c.handleInternal cfg buf = { c with delivered := d } := by
  unfold MqttSnClient.handleInternal
  split_ifs with h1
  · unfold MqttSnClient.handlePublish
    split_ifs
    · exact ⟨c.delivered, rfl⟩
    · dsimp only
      split
      · exact ⟨_, rfl⟩
      · exact ⟨_, rfl⟩
  · exact ⟨c.delivered, rfl⟩

theorem isQuiet_cons (cfg : Config) (gw awaited : Nat) (ev : RxEvent) (pre : List RxEvent)
    (h : isQuiet cfg gw awaited (ev :: pre) = true) :
    RxEvent.accepted cfg gw ev ≠ some awaited ∧ RxEvent.accepted cfg gw ev ≠ some REGISTER ∧
      isQuiet cfg gw awaited pre = true := by
  simp only [isQuiet, List.all_cons, Bool.and_eq_true, bne_iff_ne, ne_eq] at h
  exact ⟨h.1.1, h.1.2, by simpa [isQuiet] using h.2⟩

theorem pollLoop_quiet (cfg : Config) (awaited : Nat) (rx : List RxEvent) :
    ∀ (pre : List RxEvent) (c : MqttSnClient) (buf : Buffer),
      isQuiet cfg c.mGatewayNodeId awaited pre = true →
      ∃ d buf2, MqttSnClient.pollLoop cfg awaited (pre ++ rx) c buf =
        MqttSnClient.pollLoop cfg awaited rx { c with delivered := d } buf2 := by
  intro pre
  induction pre with
  | nil => intro c buf _; exact ⟨c.delivered, buf, rfl⟩
  | cons ev pre ih =>
    intro c buf hq
    obtain ⟨hev1, hev2, hpre⟩ := isQuiet_cons cfg c.mGatewayNodeId awaited ev pre hq
    cases hacc : RxEvent.accepted cfg c.mGatewayNodeId ev with
    | none =>
      obtain ⟨buf2, h2⟩ := handleLoop_not_accepted cfg c ev buf awaited hacc
      obtain ⟨d, buf3, h3⟩ := ih c buf2 hpre
      refine ⟨d, buf3, ?_⟩
      rw [← h3]
      simp [MqttSnClient.pollLoop, h2]
    | some ty =>
      cases ev with
      | idle => simp [RxEvent.accepted] at hacc
      | failure => simp [RxEvent.accepted] at hacc
      | packet node bytes =>
        obtain ⟨hty, h2⟩ := handleLoop_accepted cfg c node bytes buf awaited ty hacc
        have h4 : ty ≠ awaited := fun h => hev1 (by rw [hacc, h])
        have h5 : ty ≠ REGISTER := fun h => hev2 (by rw [hacc, h])
        rw [if_neg h4] at h2
        obtain ⟨d1, h6⟩ := handleInternal_not_register cfg c
          (memcpy buf 0 bytes (min bytes.length cfg.PAYLOAD_CAPACITY)) (by rw [hty]; exact h5)
        rw [h6] at h2
        obtain ⟨d, buf3, h3⟩ := ih { c with delivered := d1 }
          (memcpy buf 0 bytes (min bytes.length cfg.PAYLOAD_CAPACITY)) hpre
        refine ⟨d, buf3, ?_⟩
        rw [← h3]
        simp [MqttSnClient.pollLoop, h2]

theorem pollLoop_arrival (cfg : Config) (awaited : Nat) (c : MqttSnClient) (node : Nat)
    (bytes : List Nat) (rest : List RxEvent) (buf : Buffer)
    (h : RxEvent.accepted cfg c.mGatewayNodeId (.packet node bytes) = some awaited) :
    MqttSnClient.pollLoop cfg awaited (.packet node bytes :: rest) c buf =
      some (c, memcpy buf 0 bytes (min bytes.length cfg.PAYLOAD_CAPACITY), rest) := by
  obtain ⟨_, h2⟩ := handleLoop_accepted cfg c node bytes buf awaited awaited h
  rw [if_pos rfl] at h2
  simp [MqttSnClient.pollLoop, h2]

theorem memcpy_packet (buf : Buffer) (pkt : List Nat) (j : Nat) (h : j < pkt.length) :
    memcpy buf 0 pkt pkt.length j = packetBuffer pkt j := by
  simp [packetBuffer, h]

theorem loadU16_packet (be : Bool) (buf : Buffer) (pkt : List Nat) (i : Nat)
    (h : i + 1 < pkt.length) :
    loadU16 be (memcpy buf 0 pkt pkt.length) i = loadU16 be (packetBuffer pkt) i := by
  simp only [loadU16]
  rw [memcpy_packet buf pkt i (by omega), memcpy_packet buf pkt (i + 1) h]

theorem accepted_of_isMessage (cfg : Config) (gw : Nat) (pkt : List Nat) (size msgType : Nat)
    (h : isMessage cfg pkt size msgType = true) :
    RxEvent.accepted cfg gw (.packet gw pkt) = some msgType ∧
      min pkt.length cfg.PAYLOAD_CAPACITY = pkt.length ∧ pkt.length = size := by
  simp only [isMessage, decide_eq_true_eq] at h
  obtain ⟨h1, h2, h3, h4, h5⟩ := h
  have hmin : min pkt.length cfg.PAYLOAD_CAPACITY = pkt.length := by omega
  have h6 : pkt.getD 0 0 % 256 = pkt.length := by
    have : packetBuffer pkt 0 = pkt.getD 0 0 % 256 := by
      simp only [packetBuffer, memcpy_apply]; rw [if_pos (by omega)]
    rw [← this]; simpa [Header.length, h1] using h4
  have h7 : pkt.getD 1 0 % 256 = msgType := by
    have : packetBuffer pkt 1 = pkt.getD 1 0 % 256 := by
      simp only [packetBuffer, memcpy_apply]; rw [if_pos (by omega)]
    rw [← this]; simpa [Header.msgType] using h5
  refine ⟨?_, hmin, h1⟩
  simp only [RxEvent.accepted]
  rw [if_pos (by refine ⟨trivial, ?_, ?_⟩ <;> omega), h7]

theorem pollLoop_reply (cfg : Config) (awaited : Nat) (c : MqttSnClient)
    (pre : List RxEvent) (pkt : List Nat) (rest : List RxEvent) (buf : Buffer) (size : Nat)
    (hq : isQuiet cfg c.mGatewayNodeId awaited pre = true)
    (hm : isMessage cfg pkt size awaited = true) :
    ∃ d buf2, MqttSnClient.pollLoop cfg awaited
        (pre ++ .packet c.mGatewayNodeId pkt :: rest) c buf =
      some ({ c with delivered := d }, memcpy buf2 0 pkt pkt.length, rest) := by
  obtain ⟨hacc, hmin, _⟩ := accepted_of_isMessage cfg c.mGatewayNodeId pkt size awaited hm
  obtain ⟨d, buf2, h⟩ := pollLoop_quiet cfg awaited (.packet c.mGatewayNodeId pkt :: rest)
    pre c buf hq
  refine ⟨d, buf2, ?_⟩
  rw [h, pollLoop_arrival cfg awaited { c with delivered := d } c.mGatewayNodeId pkt rest buf2
    hacc, hmin]

theorem Topics.add_success (capacity : Nat) (r : Topics) (iId : Nat) (iName : List Nat)
    (h0 : iId ≠ 0) (hid : r.findTopicById iId = none) (hroom : r.entries.length < capacity) :
    r.add capacity iId iName = (true, { entries := r.entries ++ [{ id := iId, name := iName }] }) := by
  have h : ¬ capacity ≤ r.entries.length := by omega
  simp [Topics.add, h0, hid, h]

theorem Topics.findTopic_after_add (r : Topics) (iId : Nat) (iName : List Nat)
    (hnew : r.findTopic iName = none) :
    Topics.findTopic { entries := r.entries ++ [{ id := iId, name := iName }] } iName
      = some { id := iId, name := iName } := by
  simp only [Topics.findTopic] at *
  rw [List.find?_append, hnew]
  simp

theorem headD_of_head? (l : List Bool) (h : l.head? = some true) : l.headD false = true := by
  cases l with
  | nil => simp at h
  | cons a l => simp at h; simp [h]

theorem Topics.add_true (capacity : Nat) (r : Topics) (iId : Nat) (iName : List Nat)
    (h : (r.add capacity iId iName).1 = true) :
    (r.add capacity iId iName).2 = { entries := r.entries ++ [{ id := iId, name := iName }] } := by
  unfold Topics.add at h ⊢
  split_ifs at h ⊢
  all_goals simp_all

theorem Topics.add_false (capacity : Nat) (r : Topics) (iId : Nat) (iName : List Nat)
    (h : (r.add capacity iId iName).1 = false) : (r.add capacity iId iName).2 = r := by
  unfold Topics.add at h ⊢
  split_ifs at h ⊢ <;> simp_all

/-- What `registerTopic` leaves behind when the send succeeds and the wait ends with a
packet: the state after the send and the wait, and the outcome read from the buffer. -/
theorem registerTopic_reply (cfg : Config) (c : MqttSnClient) (pre : List RxEvent)
    (pkt : List Nat) (rest : List RxEvent) (name : List Nat) (size : Nat)
    (hname : strlen name ≤ cfg.MAX_LENGTH_TOPIC_NAME)
    (hsend : c.mSocket.sendResults.head? = some true)
    (hq : isQuiet cfg c.mGatewayNodeId REGACK pre = true)
    (hpkt : isMessage cfg pkt size REGACK = true) :
    ∃ d buf2, c.registerTopic cfg (pre ++ .packet c.mGatewayNodeId pkt :: rest) name =
      (if Regack.getMsgId cfg.bigEndianHost (memcpy buf2 0 pkt pkt.length) ≠ c.mMsgIdCounter ∨
          Regack.returnCode (memcpy buf2 0 pkt pkt.length) ≠ ACCEPTED then
        some (false,
          { c with
            mMsgIdCounter := (c.mMsgIdCounter + 1) % 65536
            mSocket :=
              { sendResults := c.mSocket.sendResults.tail
                sent := c.mSocket.sent ++ [(c.mGatewayNodeId,
                  bytesAt (Register.init cfg.bigEndianHost zeroBuffer c.mMsgIdCounter name) 0
                    (Header.length
                      (Register.init cfg.bigEndianHost zeroBuffer c.mMsgIdCounter name)))] }
            delivered := d }, rest)
      else
        some ((c.mTopics.add cfg.MAX_TOPICS
            (Regack.getTopicId cfg.bigEndianHost (memcpy buf2 0 pkt pkt.length)) name).1,
          { c with
            mMsgIdCounter := (c.mMsgIdCounter + 1) % 65536
            mSocket :=
              { sendResults := c.mSocket.sendResults.tail
                sent := c.mSocket.sent ++ [(c.mGatewayNodeId,
                  bytesAt (Register.init cfg.bigEndianHost zeroBuffer c.mMsgIdCounter name) 0
                    (Header.length
                      (Register.init cfg.bigEndianHost zeroBuffer c.mMsgIdCounter name)))] }
            delivered := d
            mTopics := (c.mTopics.add cfg.MAX_TOPICS
              (Regack.getTopicId cfg.bigEndianHost (memcpy buf2 0 pkt pkt.length)) name).2 },
          rest)) := by
  have hs := headD_of_head? _ hsend
  have hn : ¬ strlen name > cfg.MAX_LENGTH_TOPIC_NAME := by omega
  obtain ⟨d, buf2, hp⟩ := pollLoop_reply cfg REGACK
    { c with
      mMsgIdCounter := (c.mMsgIdCounter + 1) % 65536
      mSocket := (c.mSocket.send
        (Register.init cfg.bigEndianHost zeroBuffer c.mMsgIdCounter name)
        (Header.length (Register.init cfg.bigEndianHost zeroBuffer c.mMsgIdCounter name))
        c.mGatewayNodeId).2 }
    pre pkt rest (Register.init cfg.bigEndianHost zeroBuffer c.mMsgIdCounter name) size hq hpkt
  refine ⟨d, buf2, ?_⟩
  simp only [MqttSnClient.registerTopic, if_neg hn]
  simp only [Socket.send, hs] at hp ⊢
  simp only [Bool.not_true, Bool.false_eq_true, if_false]
  rw [hp]
  dsimp only
  by_cases h1 : Regack.getMsgId cfg.bigEndianHost (memcpy buf2 0 pkt pkt.length)
      ≠ c.mMsgIdCounter
  · rw [if_pos h1, if_pos (Or.inl h1)]
  · by_cases h2 : Regack.returnCode (memcpy buf2 0 pkt pkt.length) ≠ ACCEPTED
    · rw [if_neg h1, if_pos h2, if_pos (Or.inr h2)]
    · have h3 : ¬ (Regack.getMsgId cfg.bigEndianHost (memcpy buf2 0 pkt pkt.length)
          ≠ c.mMsgIdCounter ∨ Regack.returnCode (memcpy buf2 0 pkt pkt.length) ≠ ACCEPTED) := by
        tauto
      simp only [if_neg h1, if_neg h2, if_neg h3]
      cases hadd : (c.mTopics.add cfg.MAX_TOPICS
          (Regack.getTopicId cfg.bigEndianHost (memcpy buf2 0 pkt pkt.length)) name).1
      · simp
      · simp

theorem bytesAt_getD (buf : Buffer) (off n k : Nat) :
    (bytesAt buf off n).getD k 0 = if k < n then buf (off + k) else 0 := by
  simp only [bytesAt, List.getD_eq_getElem?_getD, List.getElem?_map, List.getElem?_range]
  split_ifs with h
  · simp [List.getElem?_range h]
  · simp [List.getElem?_eq_none (show (List.range n).length ≤ k by simp; omega)]

theorem regack_header (be : Bool) (t m r : Nat) :
    Header.length (Regack.init be zeroBuffer t m r) = 7 ∧
      Header.msgType (Regack.init be zeroBuffer t m r) = REGACK := by
  cases be <;> simp [Regack.init, Header.length, Header.msgType, storeU16, REGACK]

theorem handleRegister_sent (cfg : Config) (c : MqttSnClient) (buf : Buffer) :
    (c.handleRegister cfg buf).mSocket.sent = c.mSocket.sent ++
      [(c.mGatewayNodeId, bytesAt (Regack.init cfg.bigEndianHost zeroBuffer
        (Register.getTopicId cfg.bigEndianHost buf) (Register.getMsgId cfg.bigEndianHost buf)
        (if !(c.mTopics.add cfg.MAX_TOPICS (Register.getTopicId cfg.bigEndianHost buf)
            (Register.topicName buf (cfg.PAYLOAD_CAPACITY + 1 - 6))).1
          then REJECTED_NOT_SUPPORTED else ACCEPTED)) 0 7)] := by
  simp only [MqttSnClient.handleRegister, Socket.send, (regack_header _ _ _ _).1]

theorem handleInternal_sent (cfg : Config) (c : MqttSnClient) (buf : Buffer) :
    ∃ new, (c.handleInternal cfg buf).mSocket.sent = c.mSocket.sent ++ new ∧
      (∀ p ∈ new, p.2.getD 1 0 = REGACK) ∧
      (c.handleInternal cfg buf).mGatewayNodeId = c.mGatewayNodeId := by
  unfold MqttSnClient.handleInternal
  split_ifs with h1 h2
  · refine ⟨[], ?_, by simp, ?_⟩
    · unfold MqttSnClient.handlePublish
      split_ifs
      · simp
      · dsimp only; split <;> simp
    · unfold MqttSnClient.handlePublish
      split_ifs
      · rfl
      · dsimp only; split <;> rfl
  · refine ⟨_, handleRegister_sent cfg c buf, ?_, rfl⟩
    intro p hp
    simp only [List.mem_singleton] at hp
    rw [hp, bytesAt_getD]
    simpa [Header.msgType] using (regack_header cfg.bigEndianHost _ _ _).2
  · exact ⟨[], by simp, by simp, rfl⟩

theorem handleLoop_sent (cfg : Config) (c : MqttSnClient) (ev : RxEvent) (buf : Buffer)
    (ty : Nat) :
    ∃ new, (c.handleLoop cfg ev buf ty).2.1.mSocket.sent = c.mSocket.sent ++ new ∧
      (∀ p ∈ new, p.2.getD 1 0 = REGACK) ∧
      (c.handleLoop cfg ev buf ty).2.1.mGatewayNodeId = c.mGatewayNodeId := by
  unfold MqttSnClient.handleLoop
  dsimp only
  split_ifs
  · exact ⟨[], by simp, by simp, rfl⟩
  · exact ⟨[], by simp, by simp, rfl⟩
  · exact handleInternal_sent cfg c _

theorem pollLoop_sent (cfg : Config) (ty : Nat) :
    ∀ (rx : List RxEvent) (c : MqttSnClient) (buf : Buffer) (c2 : MqttSnClient)
      (buf2 : Buffer) (rx2 : List RxEvent),
      MqttSnClient.pollLoop cfg ty rx c buf = some (c2, buf2, rx2) →
      ∃ new, c2.mSocket.sent = c.mSocket.sent ++ new ∧ (∀ p ∈ new, p.2.getD 1 0 = REGACK) ∧
        c2.mGatewayNodeId = c.mGatewayNodeId := by
  intro rx
  induction rx with
  | nil => intro c buf c2 buf2 rx2 h; simp [MqttSnClient.pollLoop] at h
  | cons ev rx ih =>
    intro c buf c2 buf2 rx2 h
    obtain ⟨new1, h1, h2, h3⟩ := handleLoop_sent cfg c ev buf ty
    simp only [MqttSnClient.pollLoop] at h
    split_ifs at h with hok
    · simp only [Option.some.injEq, Prod.mk.injEq] at h
      rw [← h.1]
      exact ⟨new1, h1, h2, h3⟩
    · obtain ⟨new2, h4, h5, h6⟩ := ih _ _ _ _ _ h
      refine ⟨new1 ++ new2, ?_, ?_, ?_⟩
      · rw [h4, h1, List.append_assoc]
      · intro p hp
        rcases List.mem_append.1 hp with hp | hp
        · exact h2 p hp
        · exact h5 p hp
      · rw [h6, h3]

theorem registerTopic_sent (cfg : Config) (c : MqttSnClient) (rx : List RxEvent)
    (name : List Nat) (ok : Bool) (c2 : MqttSnClient) (rx2 : List RxEvent)
    (h : c.registerTopic cfg rx name = some (ok, c2, rx2)) :
    ∃ new, c2.mSocket.sent = c.mSocket.sent ++ new ∧ ∀ p ∈ new, p.2.getD 1 0 ≠ PUBLISH := by
  have hreg : ∀ L : Nat, (bytesAt (Register.init cfg.bigEndianHost zeroBuffer c.mMsgIdCounter
      name) 0 L).getD 1 0 ≠ PUBLISH := by
    intro L
    rw [bytesAt_getD]
    split_ifs
    · cases cfg.bigEndianHost <;> simp [Register.init, storeU16, REGISTER, PUBLISH]
    · simp [PUBLISH]
  unfold MqttSnClient.registerTopic at h
  split_ifs at h with h1
  · simp only [Option.some.injEq, Prod.mk.injEq] at h
    exact ⟨[], by rw [← h.2.1]; simp, by simp⟩
  · dsimp only at h
    split_ifs at h with h2
    · simp only [Option.some.injEq, Prod.mk.injEq] at h
      refine ⟨_, by rw [← h.2.1]; rfl, ?_⟩
      intro p hp
      simp only [List.mem_singleton] at hp
      rw [hp]; exact hreg _
    · split at h
      · simp at h
      · rename_i c3 buf3 rx3 hpoll
        obtain ⟨new, h3, h4, _⟩ := pollLoop_sent cfg REGACK _ _ _ _ _ _ hpoll
        have hc2 : c2.mSocket = c3.mSocket := by
          split_ifs at h <;> simp only [Option.some.injEq, Prod.mk.injEq] at h <;>
            rw [← h.2.1]
        refine ⟨(c.mGatewayNodeId,
          bytesAt (Register.init cfg.bigEndianHost zeroBuffer c.mMsgIdCounter name) 0
            (Header.length (Register.init cfg.bigEndianHost zeroBuffer c.mMsgIdCounter name)))
          :: new, ?_, ?_⟩
        · rw [hc2, h3]; simp [Socket.send]
        · intro p hp
          rcases List.mem_cons.1 hp with hp | hp
          · rw [hp]; exact hreg _
          · rw [h4 p hp]; decide

theorem regack_received_msgId (be : Bool) (buf : Buffer) (pkt : List Nat)
    (h : 6 ≤ pkt.length) :
    Regack.getMsgId be (memcpy buf 0 pkt pkt.length) = Regack.getMsgId be (packetBuffer pkt) := by
  rw [Regack.getMsgId, Regack.getMsgId, loadU16_packet _ _ _ _ (by omega)]

theorem regack_received (be : Bool) (buf : Buffer) (pkt : List Nat) (h : 7 ≤ pkt.length) :
    Regack.getTopicId be (memcpy buf 0 pkt pkt.length)
        = Regack.getTopicId be (packetBuffer pkt) ∧
      Regack.returnCode (memcpy buf 0 pkt pkt.length) = Regack.returnCode (packetBuffer pkt) := by
  constructor
  · rw [Regack.getTopicId, Regack.getTopicId, loadU16_packet _ _ _ _ (by omega)]
  · rw [Regack.returnCode, Regack.returnCode, memcpy_packet _ _ _ (by omega)]

theorem loop_dispatch (cfg : Config) (c : MqttSnClient) (node : Nat) (bytes : List Nat)
    (rx : List RxEvent) (ty : Nat)
    (hacc : RxEvent.accepted cfg c.mGatewayNodeId (.packet node bytes) = some ty) :
    c.loop cfg (.packet node bytes :: rx) =
      (if ty = PUBLISH then
          c.handlePublish cfg (memcpy zeroBuffer 0 bytes (min bytes.length cfg.PAYLOAD_CAPACITY))
        else
          c.handleInternal cfg (memcpy zeroBuffer 0 bytes (min bytes.length cfg.PAYLOAD_CAPACITY)),
        rx) := by
  obtain ⟨_, h2⟩ := handleLoop_accepted cfg c node bytes zeroBuffer PUBLISH ty hacc
  by_cases h : ty = PUBLISH
  · rw [if_pos h] at h2
    simp [MqttSnClient.loop, nextEvent, h2, h]
  · rw [if_neg h] at h2
    simp [MqttSnClient.loop, nextEvent, h2, h]

/-! ## The codec: C2, C3 -/

/-- C2: decoding what the codec encoded gives the fields back.  A REGACK built by
`Regack::initialize(t, m, r)` decodes to topic id `t`, message id `m` and return code `r`; a
PUBLISH built by `Publish::initialize(retain, t, data, n)` decodes to topic id `t`, message
id 0, retain flag `retain` and the `n` data bytes; a REGISTER built by
`Register::initialize(m, name)` decodes to message id `m`, topic id 0 and the name bytes. -/
theorem codec_round_trip (be : Bool) :
    (∀ topicId msgId returnCode : Nat, topicId < 65536 → msgId < 65536 → returnCode < 256 →
      Regack.getTopicId be (Regack.init be zeroBuffer topicId msgId returnCode) = topicId ∧
      Regack.getMsgId be (Regack.init be zeroBuffer topicId msgId returnCode) = msgId ∧
      Regack.returnCode (Regack.init be zeroBuffer topicId msgId returnCode) = returnCode) ∧
    (∀ (retain : Bool) (topicId : Nat) (data : List Nat) (size : Nat), topicId < 65536 →
      size ≤ data.length → (∀ x ∈ data, x < 256) →
      Publish.getTopicId be (Publish.init be zeroBuffer retain topicId data size) = topicId ∧
      Publish.getMsgId be (Publish.init be zeroBuffer retain topicId data size) = 0 ∧
      Flags.retain (Publish.flags (Publish.init be zeroBuffer retain topicId data size))
        = retain ∧
      bytesAt (Publish.init be zeroBuffer retain topicId data size) 7 size
        = data.take size) ∧
    (∀ (msgId : Nat) (topicName : List Nat), msgId < 65536 → (∀ x ∈ topicName, x < 256) →
      Register.getMsgId be (Register.init be zeroBuffer msgId topicName) = msgId ∧
      Register.getTopicId be (Register.init be zeroBuffer msgId topicName) = 0 ∧
      bytesAt (Register.init be zeroBuffer msgId topicName) 6 (strlen topicName)
        = topicName) := by
  refine ⟨?_, ?_, ?_⟩
  · intro topicId msgId returnCode ht hm hr
    refine ⟨?_, ?_, ?_⟩
    · rw [Regack.getTopicId, regack_loadTopicId, bswap_bswap _ ht]
    · rw [Regack.getMsgId, regack_loadMsgId, bswap_bswap _ hm]
    · simp [Regack.returnCode, Regack.init]; omega
  · intro retain topicId data size ht hs hd
    refine ⟨?_, ?_, ?_, ?_⟩
    · rw [Publish.getTopicId, publish_loadTopicId, bswap_bswap _ ht]
    · rw [Publish.getMsgId, publish_loadMsgId, bswap_zero]
    · rw [publish_flags_init]; cases retain <;> decide
    · simp only [Publish.init]
      exact bytesAt_memcpy _ _ _ _ hs hd
  · intro msgId topicName hm hd
    refine ⟨?_, ?_, ?_⟩
    · rw [Register.getMsgId, register_loadMsgId, bswap_bswap _ hm]
    · rw [Register.getTopicId, register_loadTopicId, bswap_zero]
    · simp only [Register.init, strlen]
      rw [bytesAt_memcpy _ _ _ _ (le_refl _) hd, List.take_length]

/-- C2 at the REGACK with topic id 7, message id 258 and return code 3. -/
theorem codec_round_trip_witness :
    Regack.getTopicId false (Regack.init false zeroBuffer 7 258 3) = 7 ∧
    Regack.getMsgId false (Regack.init false zeroBuffer 7 258 3) = 258 ∧
    Regack.returnCode (Regack.init false zeroBuffer 7 258 3) = 3 :=
  (codec_round_trip false).1 7 258 3 (by decide) (by decide) (by decide)

/-- C3, amended: the 16-bit fields are big-endian on the wire on a host that stores a
`uint16_t` low byte first: the REGISTER of `Register::initialize(m, name)` has byte 4 equal to
`m / 256` and byte 5 equal to `m % 256`, and `getMsgId` of a REGACK whose bytes 4 and 5 are
`(h, l)` is `256 * h + l`.  The swap is unconditional, so on a host that stores the high byte
first the two bytes are exchanged: byte 4 is `m % 256`, byte 5 is `m / 256`, and `getMsgId`
is `256 * l + h`. -/
theorem wire_order_follows_host_order :
    (∀ (msgId : Nat) (topicName : List Nat), msgId < 65536 →
      Register.init false zeroBuffer msgId topicName 4 = msgId / 256 ∧
      Register.init false zeroBuffer msgId topicName 5 = msgId % 256) ∧
    (∀ buf : Buffer, buf 4 < 256 → buf 5 < 256 →
      Regack.getMsgId false buf = 256 * buf 4 + buf 5) ∧
    (∀ (msgId : Nat) (topicName : List Nat), msgId < 65536 →
      Register.init true zeroBuffer msgId topicName 4 = msgId % 256 ∧
      Register.init true zeroBuffer msgId topicName 5 = msgId / 256) ∧
    (∀ buf : Buffer, buf 4 < 256 → buf 5 < 256 →
      Regack.getMsgId true buf = 256 * buf 5 + buf 4) := by
  refine ⟨?_, ?_, ?_, ?_⟩
  · intro msgId topicName h
    have h1 : (msgId % 256 * 256 + msgId / 256) / 256 = msgId % 256 := by omega
    have h2 : (msgId % 256 * 256 + msgId / 256) % 256 = msgId / 256 := by omega
    simp [Register.init, storeU16, bswap_eq msgId h, h1, h2]
  · intro buf h4 h5
    rw [Regack.getMsgId, bswap_eq _ (by simp [loadU16]; omega)]
    simp [loadU16]; omega
  · intro msgId topicName h
    have h1 : (msgId % 256 * 256 + msgId / 256) / 256 = msgId % 256 := by omega
    have h2 : (msgId % 256 * 256 + msgId / 256) % 256 = msgId / 256 := by omega
    simp [Register.init, storeU16, bswap_eq msgId h, h1, h2]
  · intro buf h4 h5
    rw [Regack.getMsgId, bswap_eq _ (by simp [loadU16]; omega)]
    simp [loadU16]; omega

/-- C3, amended, at message id 258 on a low-byte-first host. -/
theorem wire_order_follows_host_order_witness :
    (Register.init false zeroBuffer 258 [97] 4 = 258 / 256 ∧
      Register.init false zeroBuffer 258 [97] 5 = 258 % 256) ∧
    Regack.getMsgId false (Regack.init false zeroBuffer 7 258 0)
      = 256 * Regack.init false zeroBuffer 7 258 0 4
        + Regack.init false zeroBuffer 7 258 0 5 :=
  ⟨wire_order_follows_host_order.1 258 [97] (by decide),
    wire_order_follows_host_order.2.1 _ (by decide) (by decide)⟩

/-- C3 as stated fails on a host that stores the high byte first: the REGISTER with message
id 1 has byte 4 equal to 1, not to `1 / 256`, and a REGACK whose bytes 4 and 5 are `(0, 1)`
decodes to message id 256. -/
theorem wire_order_fails_on_big_endian_host :
    ¬ (Register.init true zeroBuffer 1 [] 4 = 1 / 256 ∧
        Register.init true zeroBuffer 1 [] 5 = 1 % 256) ∧
    ¬ (Regack.getMsgId true (poke (poke zeroBuffer 4 0) 5 1) =
        256 * (poke (poke zeroBuffer 4 0) 5 1) 4 + (poke (poke zeroBuffer 4 0) 5 1) 5) := by
  decide

/-! ## registerTopic: C4, C5 -/

/-- C4, amended: for every topic name within the maximum length that has no entry in the
registry yet and every nonzero topic id `t`: when the send succeeds, the polls before the
reply deliver nothing that ends the wait or is a dispatched REGISTER, the reply is a
well-formed REGACK carrying topic id `t`, the message id of the REGISTER just sent and
return code ACCEPTED, and the registry has room and no entry with id `t`, then
`registerTopic` returns true and the lookup of the name in the registry yields id `t`. -/
theorem registerTopic_accepted (cfg : Config) (c : MqttSnClient) (pre : List RxEvent)
    (pkt : List Nat) (rest : List RxEvent) (name : List Nat) (t : Nat)
    (hname : strlen name ≤ cfg.MAX_LENGTH_TOPIC_NAME)
    (hsend : c.mSocket.sendResults.head? = some true)
    (hq : isQuiet cfg c.mGatewayNodeId REGACK pre = true)
    (hpkt : isMessage cfg pkt 7 REGACK = true)
    (ht : Regack.getTopicId cfg.bigEndianHost (packetBuffer pkt) = t)
    (hm : Regack.getMsgId cfg.bigEndianHost (packetBuffer pkt) = c.mMsgIdCounter)
    (hr : Regack.returnCode (packetBuffer pkt) = ACCEPTED)
    (hroom : c.mTopics.entries.length < cfg.MAX_TOPICS)
    (hid : c.mTopics.findTopicById t = none)
    (ht0 : t ≠ 0)
    (hnew : c.mTopics.findTopic name = none) :
    ∃ c2, c.registerTopic cfg (pre ++ .packet c.mGatewayNodeId pkt :: rest) name
        = some (true, c2, rest) ∧
      (c2.mTopics.findTopic name).map Topic.id = some t := by
  obtain ⟨_, _, hlen⟩ := accepted_of_isMessage cfg c.mGatewayNodeId pkt 7 REGACK hpkt
  obtain ⟨d, buf2, hreg⟩ := registerTopic_reply cfg c pre pkt rest name 7 hname hsend hq hpkt
  have h3 : ¬ (Regack.getMsgId cfg.bigEndianHost (memcpy buf2 0 pkt pkt.length)
      ≠ c.mMsgIdCounter ∨ Regack.returnCode (memcpy buf2 0 pkt pkt.length) ≠ ACCEPTED) := by
    rw [regack_received_msgId _ _ _ (by omega), (regack_received cfg.bigEndianHost _ _ (by omega)).2, hm, hr]
    simp
  rw [if_neg h3, (regack_received cfg.bigEndianHost _ _ (by omega)).1, ht,
    Topics.add_success cfg.MAX_TOPICS c.mTopics t name ht0 hid hroom] at hreg
  refine ⟨_, hreg, ?_⟩
  simp only [Topics.findTopic_after_add c.mTopics t name hnew, Option.map_some']

/-- C4, amended, at the name `sensor/temp` and topic id 7. -/
theorem registerTopic_accepted_witness :
    ∃ c2, sampleClient.registerTopic sampleConfig
        ([RxEvent.idle] ++ RxEvent.packet sampleClient.mGatewayNodeId [7, 11, 0, 7, 0, 0, 0] :: [])
        sensorTemp = some (true, c2, []) ∧
      (c2.mTopics.findTopic sensorTemp).map Topic.id = some 7 :=
  registerTopic_accepted sampleConfig sampleClient [RxEvent.idle] [7, 11, 0, 7, 0, 0, 0] []
    sensorTemp 7 (by decide) (by decide) (by decide) (by decide) (by decide) (by decide)
    (by decide) (by decide) (by decide) (by decide) (by decide)

/-- C4 as stated fails in two ways.  With an empty registry and a REGACK that carries topic
id 0, the matching message id and ACCEPTED, `registerTopic` returns false and the lookup
finds nothing, because id 0 is never stored.  After `sensor/temp` was registered under id 3,
a second `registerTopic` of the same name answered with id 7 returns true (the registry has
room and no entry with id 7), but the lookup by name still yields id 3. -/
theorem registerTopic_lookup_fails :
    (sampleClient.mTopics.findTopicById 0 = none ∧
      sampleClient.mTopics.entries.length < sampleConfig.MAX_TOPICS ∧
      (sampleClient.registerTopic sampleConfig [RxEvent.packet 1 [7, 11, 0, 0, 0, 0, 0]]
          sensorTemp).map
        (fun r => (r.1, (r.2.1.mTopics.findTopic sensorTemp).map Topic.id))
          = some (false, none)) ∧
    ((sampleClient.registerTopic sampleConfig [RxEvent.packet 1 [7, 11, 0, 3, 0, 0, 0]]
          sensorTemp).map
        (fun r => (r.1, r.2.1.mTopics, r.2.1.mTopics.findTopicById 7))
          = some (true, { entries := [{ id := 3, name := sensorTemp }] }, none) ∧
      ((sampleClient.registerTopic sampleConfig [RxEvent.packet 1 [7, 11, 0, 3, 0, 0, 0]]
          sensorTemp).bind
        (fun r => r.2.1.registerTopic sampleConfig [RxEvent.packet 1 [7, 11, 0, 7, 0, 1, 0]]
          sensorTemp)).map
        (fun r => (r.1, (r.2.1.mTopics.findTopic sensorTemp).map Topic.id))
          = some (true, some 3)) := by
  decide

/-- C5, amended: for every `registerTopic` call in which no unsolicited REGISTER is
dispatched during the wait and whose awaited REGACK carries a message id different from the
one placed in the REGISTER just sent, `registerTopic` returns false and the topic registry
is exactly what it was before the call, whatever return code and topic id the REGACK
carries. -/
theorem registerTopic_msgId_mismatch (cfg : Config) (c : MqttSnClient) (pre : List RxEvent)
    (pkt : List Nat) (rest : List RxEvent) (name : List Nat) (size : Nat)
    (hname : strlen name ≤ cfg.MAX_LENGTH_TOPIC_NAME)
    (hsend : c.mSocket.sendResults.head? = some true)
    (hq : isQuiet cfg c.mGatewayNodeId REGACK pre = true)
    (hpkt : isMessage cfg pkt size REGACK = true)
    (hsize : 6 ≤ size)
    (hm : Regack.getMsgId cfg.bigEndianHost (packetBuffer pkt) ≠ c.mMsgIdCounter) :
    ∃ c2, c.registerTopic cfg (pre ++ .packet c.mGatewayNodeId pkt :: rest) name
        = some (false, c2, rest) ∧ c2.mTopics = c.mTopics := by
  obtain ⟨_, _, hlen⟩ := accepted_of_isMessage cfg c.mGatewayNodeId pkt size REGACK hpkt
  obtain ⟨d, buf2, hreg⟩ := registerTopic_reply cfg c pre pkt rest name size hname hsend hq hpkt
  have h3 : Regack.getMsgId cfg.bigEndianHost (memcpy buf2 0 pkt pkt.length)
      ≠ c.mMsgIdCounter ∨ Regack.returnCode (memcpy buf2 0 pkt pkt.length) ≠ ACCEPTED := by
    left
    rw [regack_received_msgId _ _ _ (by omega)]
    exact hm
  rw [if_pos h3] at hreg
  exact ⟨_, hreg, rfl⟩

/-- C5, amended, at a REGACK with message id 1 answering the REGISTER with message id 0. -/
theorem registerTopic_msgId_mismatch_witness :
    ∃ c2, sampleClient.registerTopic sampleConfig
        ([RxEvent.idle] ++ RxEvent.packet sampleClient.mGatewayNodeId [7, 11, 0, 7, 0, 1, 0] :: [])
        sensorTemp = some (false, c2, []) ∧ c2.mTopics = sampleClient.mTopics :=
  registerTopic_msgId_mismatch sampleConfig sampleClient [RxEvent.idle] [7, 11, 0, 7, 0, 1, 0] []
    sensorTemp 7 (by decide) (by decide) (by decide) (by decide) (by decide) (by decide)

/-- C5 as stated fails when the gateway sends a REGISTER (topic id 9, name `xyz`) before the
REGACK with the wrong message id: `registerTopic` of `ab` returns false, but the registry,
empty before the call, now holds the entry for id 9. -/
theorem registerTopic_mismatch_after_register :
    isMessage sampleConfig [7, 11, 0, 7, 0, 1, 0] 7 REGACK = true ∧
    Regack.getMsgId sampleConfig.bigEndianHost (packetBuffer [7, 11, 0, 7, 0, 1, 0])
      ≠ sampleClient.mMsgIdCounter ∧
    sampleClient.mTopics = { entries := [] } ∧
    (sampleClient.registerTopic sampleConfig
        [RxEvent.packet 1 [9, 10, 0, 9, 0, 5, 120, 121, 122],
          RxEvent.packet 1 [7, 11, 0, 7, 0, 1, 0]]
        [97, 98]).map (fun r => (r.1, r.2.1.mTopics))
      = some (false, { entries := [{ id := 9, name := [120, 121, 122] }] }) := by
  decide
/-! ## publish: C6, C7 -/

/-- C6, amended: for every `publish` call on a topic name absent from the registry with a
payload within the size limit.  First part: when the REGISTER is sent, no unsolicited
REGISTER is dispatched during the wait, the gateway accepts the registration with topic id
`t` and the insertion into the registry succeeds, the engine hands exactly two packets to
the transport, the REGISTER for that name and then the PUBLISH whose topic id field is `t`.
Second part: whenever the implicit registration fails, `publish` returns false in the state
the registration left, and nothing sent during the call is a PUBLISH. -/
theorem publish_unregistered (cfg : Config) (c : MqttSnClient) (name data : List Nat)
    (size : Nat) (retain : Bool)
    (hsize : size ≤ cfg.MAX_LENGTH_DATA)
    (habsent : c.mTopics.findTopic name = none) :
    (∀ (pre : List RxEvent) (pkt : List Nat) (rest : List RxEvent) (t : Nat),
      strlen name ≤ cfg.MAX_LENGTH_TOPIC_NAME →
      c.mSocket.sendResults.head? = some true →
      isQuiet cfg c.mGatewayNodeId REGACK pre = true →
      isMessage cfg pkt 7 REGACK = true →
      Regack.getMsgId cfg.bigEndianHost (packetBuffer pkt) = c.mMsgIdCounter →
      Regack.returnCode (packetBuffer pkt) = ACCEPTED →
      Regack.getTopicId cfg.bigEndianHost (packetBuffer pkt) = t →
      (c.mTopics.add cfg.MAX_TOPICS t name).1 = true →
      ∃ c2, c.publish cfg (pre ++ .packet c.mGatewayNodeId pkt :: rest) name data size retain
          = some (c.mSocket.sendResults.tail.headD false, c2, rest) ∧
        c2.mSocket.sent = c.mSocket.sent ++
          [(c.mGatewayNodeId,
              bytesAt (Register.init cfg.bigEndianHost zeroBuffer c.mMsgIdCounter name) 0
                (Header.length (Register.init cfg.bigEndianHost zeroBuffer c.mMsgIdCounter name))),
            (c.mGatewayNodeId,
              bytesAt (Publish.init cfg.bigEndianHost zeroBuffer retain t data size) 0
                (Header.length (Publish.init cfg.bigEndianHost zeroBuffer retain t data size)))] ∧
        Publish.getTopicId cfg.bigEndianHost
          (Publish.init cfg.bigEndianHost zeroBuffer retain t data size) = t) ∧
    (∀ (rx : List RxEvent) (c2 : MqttSnClient) (rx2 : List RxEvent),
      c.registerTopic cfg rx name = some (false, c2, rx2) →
      c.publish cfg rx name data size retain = some (false, c2, rx2) ∧
        ∃ new, c2.mSocket.sent = c.mSocket.sent ++ new ∧ ∀ p ∈ new, p.2.getD 1 0 ≠ PUBLISH) := by
  have hs : ¬ size > cfg.MAX_LENGTH_DATA := by omega
  constructor
  · intro pre pkt rest t hname hsend hq hpkt hm hr ht hadd
    obtain ⟨_, _, hlen⟩ := accepted_of_isMessage cfg c.mGatewayNodeId pkt 7 REGACK hpkt
    obtain ⟨d, buf2, hreg⟩ := registerTopic_reply cfg c pre pkt rest name 7 hname hsend hq hpkt
    have h3 : ¬ (Regack.getMsgId cfg.bigEndianHost (memcpy buf2 0 pkt pkt.length)
        ≠ c.mMsgIdCounter ∨ Regack.returnCode (memcpy buf2 0 pkt pkt.length) ≠ ACCEPTED) := by
      rw [regack_received_msgId _ _ _ (by omega),
        (regack_received cfg.bigEndianHost _ _ (by omega)).2, hm, hr]
      simp
    rw [if_neg h3, (regack_received cfg.bigEndianHost _ _ (by omega)).1, ht, hadd,
      Topics.add_true _ _ _ _ hadd] at hreg
    have hfind := Topics.findTopic_after_add c.mTopics t name habsent
    have htlt : t < 65536 := by rw [← ht]; exact bswap_lt _
    refine ⟨{ c with
        mMsgIdCounter := (c.mMsgIdCounter + 1) % 65536
        mTopics := { entries := c.mTopics.entries ++ [{ id := t, name := name }] }
        delivered := d
        mSocket :=
          { sendResults := c.mSocket.sendResults.tail.tail
            sent := (c.mSocket.sent ++ [(c.mGatewayNodeId,
                bytesAt (Register.init cfg.bigEndianHost zeroBuffer c.mMsgIdCounter name) 0
                  (Header.length
                    (Register.init cfg.bigEndianHost zeroBuffer c.mMsgIdCounter name)))]) ++
              [(c.mGatewayNodeId,
                bytesAt (Publish.init cfg.bigEndianHost zeroBuffer retain t data size) 0
                  (Header.length
                    (Publish.init cfg.bigEndianHost zeroBuffer retain t data size)))] } },
      ?_, ?_, ?_⟩
    · simp only [MqttSnClient.publish, if_neg hs, habsent, hreg, hfind, Bool.not_true,
        Bool.false_eq_true, if_false, Socket.send]
      cases c.mSocket.sendResults.tail.headD false <;> simp
    · simp
    · rw [Publish.getTopicId, publish_loadTopicId, bswap_bswap _ htlt]
  · intro rx c2 rx2 hreg
    refine ⟨?_, registerTopic_sent cfg c rx name false c2 rx2 hreg⟩
    simp [MqttSnClient.publish, hs, habsent, hreg]

/-- C6, amended, at `sensor/temp` and a payload of three bytes: the first part with a
REGACK that accepts with topic id 7, the second part with a REGACK whose message id is
wrong. -/
theorem publish_unregistered_witness :
    (∃ c2, sampleClient.publish sampleConfig
        ([RxEvent.idle] ++ RxEvent.packet sampleClient.mGatewayNodeId [7, 11, 0, 7, 0, 0, 0] :: [])
        sensorTemp [1, 2, 3] 3 true
          = some (sampleClient.mSocket.sendResults.tail.headD false, c2, []) ∧
      c2.mSocket.sent = sampleClient.mSocket.sent ++
        [(sampleClient.mGatewayNodeId,
            bytesAt (Register.init sampleConfig.bigEndianHost zeroBuffer
              sampleClient.mMsgIdCounter sensorTemp) 0
              (Header.length (Register.init sampleConfig.bigEndianHost zeroBuffer
                sampleClient.mMsgIdCounter sensorTemp))),
          (sampleClient.mGatewayNodeId,
            bytesAt (Publish.init sampleConfig.bigEndianHost zeroBuffer true 7 [1, 2, 3] 3) 0
              (Header.length
                (Publish.init sampleConfig.bigEndianHost zeroBuffer true 7 [1, 2, 3] 3)))] ∧
      Publish.getTopicId sampleConfig.bigEndianHost
        (Publish.init sampleConfig.bigEndianHost zeroBuffer true 7 [1, 2, 3] 3) = 7) ∧
    (sampleClient.publish sampleConfig [RxEvent.packet 1 [7, 11, 0, 7, 0, 1, 0]] sensorTemp
        [1, 2, 3] 3 true = some (false, failedRegistration, []) ∧
      ∃ new, failedRegistration.mSocket.sent = sampleClient.mSocket.sent ++ new ∧
        ∀ p ∈ new, p.2.getD 1 0 ≠ PUBLISH) :=
  ⟨(publish_unregistered sampleConfig sampleClient sensorTemp [1, 2, 3] 3 true (by decide)
      (by decide)).1 [RxEvent.idle] [7, 11, 0, 7, 0, 0, 0] [] 7 (by decide) (by decide)
      (by decide) (by decide) (by decide) (by decide) (by decide) (by decide),
    (publish_unregistered sampleConfig sampleClient sensorTemp [1, 2, 3] 3 true (by decide)
      (by decide)).2 [RxEvent.packet 1 [7, 11, 0, 7, 0, 1, 0]] failedRegistration []
      (by decide)⟩

/-- C6 as stated fails when the gateway sends a REGISTER (topic id 9, name `xyz`) before it
accepts the registration of `ab` with topic id 7: the engine hands three packets to the
transport, the REGISTER, a REGACK for the REGISTER of the gateway, and the PUBLISH. -/
theorem publish_sends_three_packets :
    sampleClient.mTopics.findTopic [97, 98] = none ∧
    (sampleClient.publish sampleConfig
        [RxEvent.packet 1 [9, 10, 0, 9, 0, 5, 120, 121, 122],
          RxEvent.packet 1 [7, 11, 0, 7, 0, 0, 0]]
        [97, 98] [1, 2, 3] 3 true).map
      (fun r => (r.1, (r.2.1.mTopics.findTopic [97, 98]).map Topic.id, r.2.1.mSocket.sent))
      = some (true, some 7,
          [(1, [8, 10, 0, 0, 0, 0, 97, 98]),
            (1, [7, 11, 0, 9, 0, 5, 0]),
            (1, [10, 12, 40, 0, 7, 0, 0, 1, 2, 3])]) := by
  decide

/-- C7 at a failing input: with `sensor/temp` registered, the text overload called with
retain true sends a PUBLISH whose retain flag is clear, where the four-argument overload
sends it set; were the default of `iRetain` true, the text overload called with retain false
would send the flag set. -/
theorem publishText_drops_retain :
    (registeredClient.publishText sampleConfig [] sensorTemp [104, 105] true).map
      (fun r => r.2.1.mSocket.sent.map (fun p => Flags.retain (p.2.getD 2 0))) = some [false] ∧
    (registeredClient.publish sampleConfig [] sensorTemp [104, 105] 2 true).map
      (fun r => r.2.1.mSocket.sent.map (fun p => Flags.retain (p.2.getD 2 0))) = some [true] ∧
    (registeredClient.publishText { sampleConfig with DEFAULT_RETAIN := true } [] sensorTemp
        [104, 105] false).map
      (fun r => r.2.1.mSocket.sent.map (fun p => Flags.retain (p.2.getD 2 0))) = some [true] := by
  decide

/-! ## loop: C8 -/

/-- C8, amended: for every valid packet from the gateway whose message type is neither
PUBLISH nor REGISTER, `loop()` leaves the whole engine state unchanged: registry unchanged,
nothing sent, callback not invoked.  A REGISTER from the gateway is dispatched to
`handleRegister`: exactly one packet is sent, a REGACK of 7 bytes, and the callback is not
invoked. -/
theorem loop_without_publish (cfg : Config) (c : MqttSnClient) (node : Nat)
    (bytes : List Nat) (rx : List RxEvent) (ty : Nat)
    (hacc : RxEvent.accepted cfg c.mGatewayNodeId (.packet node bytes) = some ty)
    (hne : ty ≠ PUBLISH) :
    (ty ≠ REGISTER → c.loop cfg (.packet node bytes :: rx) = (c, rx)) ∧
    (ty = REGISTER →
      c.loop cfg (.packet node bytes :: rx) =
        (c.handleRegister cfg
          (memcpy zeroBuffer 0 bytes (min bytes.length cfg.PAYLOAD_CAPACITY)), rx) ∧
      (∃ regack, (c.loop cfg (.packet node bytes :: rx)).1.mSocket.sent =
          c.mSocket.sent ++ [(c.mGatewayNodeId, regack)] ∧ regack.length = 7 ∧
          regack.getD 1 0 = REGACK) ∧
      (c.loop cfg (.packet node bytes :: rx)).1.delivered = c.delivered) := by
  obtain ⟨hty, _⟩ := handleLoop_accepted cfg c node bytes zeroBuffer PUBLISH ty hacc
  have hloop := loop_dispatch cfg c node bytes rx ty hacc
  rw [if_neg hne] at hloop
  constructor
  · intro h
    rw [hloop]
    simp [MqttSnClient.handleInternal, hty, hne, h]
  · intro h
    have hreg : c.handleInternal cfg
        (memcpy zeroBuffer 0 bytes (min bytes.length cfg.PAYLOAD_CAPACITY)) =
        c.handleRegister cfg
          (memcpy zeroBuffer 0 bytes (min bytes.length cfg.PAYLOAD_CAPACITY)) := by
      have h3 : ¬ REGISTER = PUBLISH := by decide
      simp [MqttSnClient.handleInternal, hty, h, h3]
    rw [hloop, hreg]
    refine ⟨rfl, ⟨_, handleRegister_sent cfg c _, by simp, ?_⟩, rfl⟩
    rw [bytesAt_getD]
    simpa [Header.msgType] using (regack_header cfg.bigEndianHost _ _ _).2

/-- C8, amended, at a WILLTOPICREQ packet (type 6) and at a REGISTER packet from the
gateway. -/
theorem loop_without_publish_witness :
    sampleClient.loop sampleConfig (RxEvent.packet 1 [3, 6, 0] :: []) = (sampleClient, []) ∧
    (sampleClient.loop sampleConfig (RxEvent.packet 1 [8, 10, 0, 9, 0, 5, 65, 66] :: []) =
        (sampleClient.handleRegister sampleConfig
          (memcpy zeroBuffer 0 [8, 10, 0, 9, 0, 5, 65, 66]
            (min [8, 10, 0, 9, 0, 5, 65, 66].length sampleConfig.PAYLOAD_CAPACITY)), []) ∧
      (∃ regack,
        (sampleClient.loop sampleConfig
            (RxEvent.packet 1 [8, 10, 0, 9, 0, 5, 65, 66] :: [])).1.mSocket.sent =
          sampleClient.mSocket.sent ++ [(sampleClient.mGatewayNodeId, regack)] ∧
          regack.length = 7 ∧ regack.getD 1 0 = REGACK) ∧
      (sampleClient.loop sampleConfig
          (RxEvent.packet 1 [8, 10, 0, 9, 0, 5, 65, 66] :: [])).1.delivered
        = sampleClient.delivered) :=
  ⟨(loop_without_publish sampleConfig sampleClient 1 [3, 6, 0] [] 6 (by decide) (by decide)).1
      (by decide),
    (loop_without_publish sampleConfig sampleClient 1 [8, 10, 0, 9, 0, 5, 65, 66] [] REGISTER
      (by decide) (by decide)).2 rfl⟩

/-- C8 as stated fails for a REGISTER from the gateway (topic id 9, message id 5, name
`AB`): `loop()` adds the entry to the registry and sends a REGACK. -/
theorem loop_dispatches_register :
    isMessage sampleConfig [8, 10, 0, 9, 0, 5, 65, 66] 8 REGISTER = true ∧
    (sampleClient.loop sampleConfig [RxEvent.packet 1 [8, 10, 0, 9, 0, 5, 65, 66]]).1.mTopics
      = { entries := [{ id := 9, name := [65, 66] }] } ∧
    sampleClient.mTopics = { entries := [] } ∧
    (sampleClient.loop sampleConfig [RxEvent.packet 1 [8, 10, 0, 9, 0, 5, 65, 66]]).1.mSocket.sent
      = [(1, [7, 11, 0, 9, 0, 5, 0])] ∧
    sampleClient.mSocket.sent = [] := by
  decide

/-! ## subscribe: C9 -/

/-- C9, amended: for every `subscribe` call in which no unsolicited REGISTER is dispatched
during the wait and whose SUBACK carries the matching message id and return code ACCEPTED:
with topic id 0 `subscribe` returns true and the registry is unchanged; with a nonzero topic
id `t` it returns the result of inserting `(t, name)` into the registry, which is then the
registry after that insertion. -/
theorem subscribe_accepted (cfg : Config) (c : MqttSnClient) (pre : List RxEvent)
    (pkt : List Nat) (rest : List RxEvent) (name : List Nat) (t : Nat)
    (hname : strlen name ≤ cfg.MAX_LENGTH_TOPIC_NAME)
    (hsend : c.mSocket.sendResults.head? = some true)
    (hq : isQuiet cfg c.mGatewayNodeId SUBACK pre = true)
    (hpkt : isMessage cfg pkt 8 SUBACK = true)
    (hm : Suback.getMsgId cfg.bigEndianHost (packetBuffer pkt) = c.mMsgIdCounter)
    (hr : Suback.returnCode (packetBuffer pkt) = ACCEPTED)
    (ht : Suback.getTopicId cfg.bigEndianHost (packetBuffer pkt) = t) :
    (t = 0 → ∃ c2, c.subscribe cfg (pre ++ .packet c.mGatewayNodeId pkt :: rest) name
        = some (true, c2, rest) ∧ c2.mTopics = c.mTopics) ∧
    (t ≠ 0 → ∃ c2, c.subscribe cfg (pre ++ .packet c.mGatewayNodeId pkt :: rest) name
        = some ((c.mTopics.add cfg.MAX_TOPICS t name).1, c2, rest) ∧
      c2.mTopics = (c.mTopics.add cfg.MAX_TOPICS t name).2) := by
  obtain ⟨_, _, hlen⟩ := accepted_of_isMessage cfg c.mGatewayNodeId pkt 8 SUBACK hpkt
  have hs := headD_of_head? _ hsend
  have hn : ¬ strlen name > cfg.MAX_LENGTH_TOPIC_NAME := by omega
  obtain ⟨d, buf2, hp⟩ := pollLoop_reply cfg SUBACK
    { c with
      mMsgIdCounter := (c.mMsgIdCounter + 1) % 65536
      mSocket := (c.mSocket.send
        (Subscribe.init cfg.bigEndianHost zeroBuffer c.mMsgIdCounter name)
        (Header.length (Subscribe.init cfg.bigEndianHost zeroBuffer c.mMsgIdCounter name))
        c.mGatewayNodeId).2 }
    pre pkt rest (Subscribe.init cfg.bigEndianHost zeroBuffer c.mMsgIdCounter name) 8 hq hpkt
  have hm2 : Suback.getMsgId cfg.bigEndianHost (memcpy buf2 0 pkt pkt.length)
      = c.mMsgIdCounter := by
    rw [← hm, Suback.getMsgId, Suback.getMsgId, loadU16_packet _ _ _ _ (by omega)]
  have ht2 : Suback.getTopicId cfg.bigEndianHost (memcpy buf2 0 pkt pkt.length) = t := by
    rw [← ht, Suback.getTopicId, Suback.getTopicId, loadU16_packet _ _ _ _ (by omega)]
  have hr2 : Suback.returnCode (memcpy buf2 0 pkt pkt.length) = ACCEPTED := by
    rw [← hr, Suback.returnCode, Suback.returnCode, memcpy_packet _ _ _ (by omega)]
  simp only [Socket.send, hs] at hp
  constructor
  · intro h0
    simp only [MqttSnClient.subscribe, if_neg hn, Socket.send, hs, Bool.not_true,
      Bool.false_eq_true, if_false, hp, hm2, ht2, hr2, h0, ne_eq, not_true_eq_false]
    exact ⟨_, rfl, rfl⟩
  · intro h0
    simp only [MqttSnClient.subscribe, if_neg hn, Socket.send, hs, Bool.not_true,
      Bool.false_eq_true, if_false, hp, hm2, ht2, hr2, ne_eq, not_true_eq_false, h0,
      not_false_eq_true, if_true]
    refine ⟨{ c with
        mMsgIdCounter := (c.mMsgIdCounter + 1) % 65536
        mSocket :=
          { sendResults := c.mSocket.sendResults.tail
            sent := c.mSocket.sent ++ [(c.mGatewayNodeId,
              bytesAt (Subscribe.init cfg.bigEndianHost zeroBuffer c.mMsgIdCounter name) 0
                (Header.length
                  (Subscribe.init cfg.bigEndianHost zeroBuffer c.mMsgIdCounter name)))] }
        delivered := d
        mTopics := (c.mTopics.add cfg.MAX_TOPICS t name).2 }, ?_, rfl⟩
    cases hadd : (c.mTopics.add cfg.MAX_TOPICS t name).1 <;> simp

/-- C9, amended, at a SUBACK with topic id 0 and at a SUBACK with topic id 7. -/
theorem subscribe_accepted_witness :
    (∃ c2, sampleClient.subscribe sampleConfig
        ([RxEvent.idle] ++ RxEvent.packet sampleClient.mGatewayNodeId [8, 19, 0, 0, 0, 0, 0, 0] :: [])
        sensorTemp = some (true, c2, []) ∧ c2.mTopics = sampleClient.mTopics) ∧
    (∃ c2, sampleClient.subscribe sampleConfig
        ([RxEvent.idle] ++ RxEvent.packet sampleClient.mGatewayNodeId [8, 19, 0, 0, 7, 0, 0, 0] :: [])
        sensorTemp
          = some ((sampleClient.mTopics.add sampleConfig.MAX_TOPICS 7 sensorTemp).1, c2, []) ∧
      c2.mTopics = (sampleClient.mTopics.add sampleConfig.MAX_TOPICS 7 sensorTemp).2) :=
  ⟨(subscribe_accepted sampleConfig sampleClient [RxEvent.idle] [8, 19, 0, 0, 0, 0, 0, 0] []
      sensorTemp 0 (by decide) (by decide) (by decide) (by decide) (by decide) (by decide)
      (by decide)).1 rfl,
    (subscribe_accepted sampleConfig sampleClient [RxEvent.idle] [8, 19, 0, 0, 7, 0, 0, 0] []
      sensorTemp 7 (by decide) (by decide) (by decide) (by decide) (by decide) (by decide)
      (by decide)).2 (by decide)⟩

/-- C9 as stated fails when the gateway sends a REGISTER (topic id 9, name `AB`) before the
SUBACK with topic id 0: `subscribe` of `AB` returns true, but the registry, empty before the
call, now holds an entry for that very name. -/
theorem subscribe_registry_changes :
    isMessage sampleConfig [8, 19, 0, 0, 0, 0, 0, 0] 8 SUBACK = true ∧
    Suback.getMsgId sampleConfig.bigEndianHost (packetBuffer [8, 19, 0, 0, 0, 0, 0, 0])
      = sampleClient.mMsgIdCounter ∧
    Suback.returnCode (packetBuffer [8, 19, 0, 0, 0, 0, 0, 0]) = ACCEPTED ∧
    Suback.getTopicId sampleConfig.bigEndianHost (packetBuffer [8, 19, 0, 0, 0, 0, 0, 0]) = 0 ∧
    sampleClient.mTopics = { entries := [] } ∧
    (sampleClient.subscribe sampleConfig
        [RxEvent.packet 1 [8, 10, 0, 9, 0, 5, 65, 66],
          RxEvent.packet 1 [8, 19, 0, 0, 0, 0, 0, 0]] [65, 66]).map
      (fun r => (r.1, r.2.1.mTopics))
      = some (true, { entries := [{ id := 9, name := [65, 66] }] }) := by
  decide

/-! ## Dispatch of an inbound PUBLISH: C10 -/

theorem handleInternal_counter (cfg : Config) (c : MqttSnClient) (buf : Buffer) :
    (c.handleInternal cfg buf).mMsgIdCounter = c.mMsgIdCounter := by
  unfold MqttSnClient.handleInternal
  split_ifs
  · unfold MqttSnClient.handlePublish
    split_ifs
    · rfl
    · dsimp only; split <;> rfl
  · rfl
  · rfl

theorem handleLoop_counter (cfg : Config) (c : MqttSnClient) (ev : RxEvent) (buf : Buffer)
    (ty : Nat) : (c.handleLoop cfg ev buf ty).2.1.mMsgIdCounter = c.mMsgIdCounter := by
  unfold MqttSnClient.handleLoop
  dsimp only
  split_ifs
  · rfl
  · rfl
  · exact handleInternal_counter cfg c _

theorem pollLoop_counter (cfg : Config) (ty : Nat) :
    ∀ (rx : List RxEvent) (c : MqttSnClient) (buf : Buffer) (c2 : MqttSnClient)
      (buf2 : Buffer) (rx2 : List RxEvent),
      MqttSnClient.pollLoop cfg ty rx c buf = some (c2, buf2, rx2) →
      c2.mMsgIdCounter = c.mMsgIdCounter := by
  intro rx
  induction rx with
  | nil => intro c buf c2 buf2 rx2 h; simp [MqttSnClient.pollLoop] at h
  | cons ev rx ih =>
    intro c buf c2 buf2 rx2 h
    have h1 := handleLoop_counter cfg c ev buf ty
    simp only [MqttSnClient.pollLoop] at h
    split_ifs at h with hok
    · simp only [Option.some.injEq, Prod.mk.injEq] at h
      rw [← h.1]; exact h1
    · rw [ih _ _ _ _ _ h, h1]

/-- What every returning `registerTopic` call on a name within the length limit has done:
the counter has advanced by one, and the first packet handed to the transport is the
REGISTER carrying the old counter value; any further packet is a REGACK. -/
theorem registerTopic_request (cfg : Config) (c : MqttSnClient) (rx : List RxEvent)
    (name : List Nat) (ok : Bool) (c2 : MqttSnClient) (rx2 : List RxEvent)
    (hname : strlen name ≤ cfg.MAX_LENGTH_TOPIC_NAME)
    (h : c.registerTopic cfg rx name = some (ok, c2, rx2)) :
    c2.mMsgIdCounter = (c.mMsgIdCounter + 1) % 65536 ∧
    ∃ new, c2.mSocket.sent = c.mSocket.sent ++
        (c.mGatewayNodeId,
          bytesAt (Register.init cfg.bigEndianHost zeroBuffer c.mMsgIdCounter name) 0
            (Header.length (Register.init cfg.bigEndianHost zeroBuffer c.mMsgIdCounter name)))
          :: new ∧
      ∀ p ∈ new, p.2.getD 1 0 = REGACK := by
  have hn : ¬ strlen name > cfg.MAX_LENGTH_TOPIC_NAME := by omega
  unfold MqttSnClient.registerTopic at h
  rw [if_neg hn] at h
  dsimp only at h
  split_ifs at h with h2
  · simp only [Option.some.injEq, Prod.mk.injEq] at h
    rw [← h.2.1]
    exact ⟨rfl, [], rfl, by simp⟩
  · split at h
    · simp at h
    · rename_i c3 buf3 rx3 hpoll
      obtain ⟨new, h3, h4, _⟩ := pollLoop_sent cfg REGACK _ _ _ _ _ _ hpoll
      have h5 := pollLoop_counter cfg REGACK _ _ _ _ _ _ hpoll
      have hc2 : c2.mSocket = c3.mSocket ∧ c2.mMsgIdCounter = c3.mMsgIdCounter := by
        split_ifs at h <;> simp only [Option.some.injEq, Prod.mk.injEq] at h <;>
          rw [← h.2.1] <;> exact ⟨rfl, rfl⟩
      refine ⟨by rw [hc2.2, h5], new, ?_, h4⟩
      rw [hc2.1, h3]; simp [Socket.send]

/-- What every returning `subscribe` call on a name within the length limit has done: the
counter has advanced by one, and the first packet handed to the transport is the SUBSCRIBE
carrying the old counter value; any further packet is a REGACK. -/
theorem subscribe_request (cfg : Config) (c : MqttSnClient) (rx : List RxEvent)
    (name : List Nat) (ok : Bool) (c2 : MqttSnClient) (rx2 : List RxEvent)
    (hname : strlen name ≤ cfg.MAX_LENGTH_TOPIC_NAME)
    (h : c.subscribe cfg rx name = some (ok, c2, rx2)) :
    c2.mMsgIdCounter = (c.mMsgIdCounter + 1) % 65536 ∧
    ∃ new, c2.mSocket.sent = c.mSocket.sent ++
        (c.mGatewayNodeId,
          bytesAt (Subscribe.init cfg.bigEndianHost zeroBuffer c.mMsgIdCounter name) 0
            (Header.length (Subscribe.init cfg.bigEndianHost zeroBuffer c.mMsgIdCounter name)))
          :: new ∧
      ∀ p ∈ new, p.2.getD 1 0 = REGACK := by
  have hn : ¬ strlen name > cfg.MAX_LENGTH_TOPIC_NAME := by omega
  unfold MqttSnClient.subscribe at h
  rw [if_neg hn] at h
  dsimp only at h
  split_ifs at h with h2
  · simp only [Option.some.injEq, Prod.mk.injEq] at h
    rw [← h.2.1]
    exact ⟨rfl, [], rfl, by simp⟩
  · split at h
    · simp at h
    · rename_i c3 buf3 rx3 hpoll
      obtain ⟨new, h3, h4, _⟩ := pollLoop_sent cfg SUBACK _ _ _ _ _ _ hpoll
      have h5 := pollLoop_counter cfg SUBACK _ _ _ _ _ _ hpoll
      have hc2 : c2.mSocket = c3.mSocket ∧ c2.mMsgIdCounter = c3.mMsgIdCounter := by
        split_ifs at h <;> simp only [Option.some.injEq, Prod.mk.injEq] at h <;>
          rw [← h.2.1] <;> exact ⟨rfl, rfl⟩
      refine ⟨by rw [hc2.2, h5], new, ?_, h4⟩
      rw [hc2.1, h3]; simp [Socket.send]

/-- What every returning `connect` call has done: the counter is untouched, and the first
packet handed to the transport is the CONNECT; any further packet is a REGACK. -/
theorem connect_request (cfg : Config) (c : MqttSnClient) (rx : List RxEvent)
    (ok : Bool) (c2 : MqttSnClient) (rx2 : List RxEvent)
    (h : c.connect cfg rx = some (ok, c2, rx2)) :
    c2.mMsgIdCounter = c.mMsgIdCounter ∧
    ∃ new, c2.mSocket.sent = c.mSocket.sent ++
        (c.mGatewayNodeId,
          bytesAt (Connect.init cfg.bigEndianHost zeroBuffer c.mClientId) 0
            (Header.length (Connect.init cfg.bigEndianHost zeroBuffer c.mClientId)))
          :: new ∧
      ∀ p ∈ new, p.2.getD 1 0 = REGACK := by
  unfold MqttSnClient.connect at h
  dsimp only at h
  split_ifs at h with h2
  · simp only [Option.some.injEq, Prod.mk.injEq] at h
    rw [← h.2.1]
    exact ⟨rfl, [], rfl, by simp⟩
  · split at h
    · simp at h
    · rename_i c3 buf3 rx3 hpoll
      obtain ⟨new, h3, h4, _⟩ := pollLoop_sent cfg CONNACK _ _ _ _ _ _ hpoll
      have h5 := pollLoop_counter cfg CONNACK _ _ _ _ _ _ hpoll
      have hc2 : c2 = c3 := by
        split_ifs at h <;> simp only [Option.some.injEq, Prod.mk.injEq] at h <;>
          exact h.2.1.symm
      refine ⟨by rw [hc2, h5], new, ?_, h4⟩
      rw [hc2, h3]; simp [Socket.send]

theorem bytesAt_add (buf : Buffer) (off a b : Nat) :
    bytesAt buf off (a + b) = bytesAt buf off a ++ bytesAt buf (off + a) b := by
  simp only [bytesAt, List.range_add, List.map_append, List.map_map]
  congr 1
  apply List.map_congr_left
  intro k _
  simp [Nat.add_assoc]

theorem connect_bytes (be : Bool) (clientId : List Nat)
    (hlen : 6 + strlen clientId ≤ 255) (hbytes : ∀ x ∈ clientId, x < 256) :
    bytesAt (Connect.init be zeroBuffer clientId) 0
        (Header.length (Connect.init be zeroBuffer clientId))
      = [6 + strlen clientId, CONNECT, 32, PROTOCOL_ID_1_2, 255, 255] ++ clientId := by
  have hl : Header.length (Connect.init be zeroBuffer clientId) = 6 + strlen clientId := by
    cases be <;> simp [Connect.init, Header.length, storeU16] <;> omega
  rw [hl, bytesAt_add]
  congr 1
  · have h6 : (6 + strlen clientId) % 256 = 6 + strlen clientId := by omega
    cases be <;>
      simp [bytesAt, List.range, List.range.loop, Connect.init, storeU16, Flags.setDup,
        Flags.setQos, Flags.setRetain, Flags.setWill, Flags.setCleanSession,
        Flags.setTopicIdType, setBits, CONNECT, PROTOCOL_ID_1_2, h6]
  · simp only [Connect.init, strlen, Nat.zero_add]
    rw [bytesAt_memcpy _ _ _ _ (le_refl _) hbytes, List.take_length]

theorem takeWhile_append_zeros (l : List Nat) (m : Nat) :
    (l ++ List.replicate m 0).takeWhile (fun b => b != 0) = l.takeWhile (fun b => b != 0) := by
  induction l with
  | nil => cases m <;> simp [List.replicate]
  | cons a l ih =>
    by_cases h : a = 0
    · simp [List.takeWhile, h]
    · simp [List.takeWhile, h, ih]

theorem bytesAt_packetBuffer (pkt : List Nat) (off limit : Nat)
    (h1 : off ≤ pkt.length) (h2 : pkt.length ≤ off + limit) :
    bytesAt (packetBuffer pkt) off limit
      = (pkt.drop off).map (fun b => b % 256) ++ List.replicate (off + limit - pkt.length) 0 := by
  have hl : limit = (pkt.length - off) + (off + limit - pkt.length) := by omega
  conv_lhs => rw [hl]
  rw [bytesAt_add]
  congr 1
  · apply List.ext_getElem
    · simp
    · intro k hk1 hk2
      simp at hk1
      have hk : off + k < pkt.length := by omega
      simp [bytesAt, packetBuffer, hk]
  · apply List.ext_getElem
    · simp
    · intro k hk1 hk2
      simp at hk1
      have hk : ¬ (off + (pkt.length - off) + k < pkt.length) := by omega
      simp [bytesAt, packetBuffer, hk]

/-- A C string read from a packet that lies in a zeroed buffer ends with the packet. -/
theorem cstrAt_packetBuffer (pkt : List Nat) (off limit : Nat)
    (h1 : off ≤ pkt.length) (h2 : pkt.length ≤ off + limit) :
    cstrAt (packetBuffer pkt) off limit
      = ((pkt.drop off).map (fun b => b % 256)).takeWhile (fun b => b != 0) := by
  rw [cstrAt, bytesAt_packetBuffer pkt off limit h1 h2, takeWhile_append_zeros]

/-- From `loop()`, where the buffer is freshly zeroed, the callback gets the payload of the
PUBLISH it polled and nothing else: the bytes from offset 7 to the end of the packet, up to
the first zero byte. -/
theorem loop_payload_is_packet_payload (cfg : Config) (c : MqttSnClient) (pkt : List Nat)
    (rx : List RxEvent) (size : Nat)
    (hpkt : isMessage cfg pkt size PUBLISH = true) (h7 : 7 ≤ size)
    (hcb : c.mCallback = true) :
    ∃ name, (c.loop cfg (.packet c.mGatewayNodeId pkt :: rx)).1.delivered = c.delivered ++
      [(name, ((pkt.drop 7).map (fun b => b % 256)).takeWhile (fun b => b != 0))] := by
  obtain ⟨hacc, hmin, hlen⟩ := accepted_of_isMessage cfg c.mGatewayNodeId pkt size PUBLISH hpkt
  have hcap : size ≤ cfg.PAYLOAD_CAPACITY := by
    simp only [isMessage, decide_eq_true_eq] at hpkt
    exact hpkt.2.2.1
  rw [loop_dispatch cfg c c.mGatewayNodeId pkt rx PUBLISH hacc, if_pos rfl, hmin]
  have hd : Publish.data (memcpy zeroBuffer 0 pkt pkt.length) (cfg.PAYLOAD_CAPACITY + 1 - 7)
      = ((pkt.drop 7).map (fun b => b % 256)).takeWhile (fun b => b != 0) := by
    rw [Publish.data]
    exact cstrAt_packetBuffer pkt 7 _ (by omega) (by omega)
  simp only [MqttSnClient.handlePublish, hcb, hd]
  cases c.mTopics.findTopicById
      (Publish.getTopicId cfg.bigEndianHost (memcpy zeroBuffer 0 pkt pkt.length)) with
  | none => exact ⟨unknownTopic, by simp⟩
  | some topic => exact ⟨topic.name, by simp⟩

/-- From `loop()`, where the buffer is freshly zeroed, `handleRegister` reads the topic name
of the REGISTER it polled and nothing else. -/
theorem loop_register_name_is_packet_name (cfg : Config) (pkt : List Nat) (size : Nat)
    (hpkt : isMessage cfg pkt size REGISTER = true) (h6 : 6 ≤ size) :
    Register.topicName (packetBuffer pkt) (cfg.PAYLOAD_CAPACITY + 1 - 6)
      = ((pkt.drop 6).map (fun b => b % 256)).takeWhile (fun b => b != 0) := by
  simp only [isMessage, decide_eq_true_eq] at hpkt
  obtain ⟨h1, _, h3, _, _⟩ := hpkt
  rw [Register.topicName]
  exact cstrAt_packetBuffer pkt 6 _ (by omega) (by omega)

theorem pollLoop_waiting (cfg : Config) (awaited : Nat) (rx : List RxEvent) :
    ∀ (pre : List RxEvent) (c : MqttSnClient) (buf : Buffer),
      isWaiting cfg c.mGatewayNodeId awaited pre = true →
      ∃ c2 buf2, MqttSnClient.pollLoop cfg awaited (pre ++ rx) c buf =
          MqttSnClient.pollLoop cfg awaited rx c2 buf2 ∧
        c2.mGatewayNodeId = c.mGatewayNodeId := by
  intro pre
  induction pre with
  | nil => intro c buf _; exact ⟨c, buf, rfl, rfl⟩
  | cons ev pre ih =>
    intro c buf hq
    simp only [isWaiting, List.all_cons, Bool.and_eq_true, bne_iff_ne, ne_eq] at hq
    have hpre : isWaiting cfg c.mGatewayNodeId awaited pre = true := by
      simpa [isWaiting] using hq.2
    cases hacc : RxEvent.accepted cfg c.mGatewayNodeId ev with
    | none =>
      obtain ⟨buf2, h2⟩ := handleLoop_not_accepted cfg c ev buf awaited hacc
      obtain ⟨c3, buf3, h3, h4⟩ := ih c buf2 hpre
      refine ⟨c3, buf3, ?_, h4⟩
      rw [← h3]
      simp [MqttSnClient.pollLoop, h2]
    | some ty =>
      cases ev with
      | idle => simp [RxEvent.accepted] at hacc
      | failure => simp [RxEvent.accepted] at hacc
      | packet node bytes =>
        obtain ⟨_, h2⟩ := handleLoop_accepted cfg c node bytes buf awaited ty hacc
        have h4 : ty ≠ awaited := fun h => hq.1 (by rw [hacc, h])
        rw [if_neg h4] at h2
        obtain ⟨_, _, _, hgw⟩ := handleInternal_sent cfg c
          (memcpy buf 0 bytes (min bytes.length cfg.PAYLOAD_CAPACITY))
        obtain ⟨c3, buf3, h3, h5⟩ := ih
          (c.handleInternal cfg (memcpy buf 0 bytes (min bytes.length cfg.PAYLOAD_CAPACITY)))
          (memcpy buf 0 bytes (min bytes.length cfg.PAYLOAD_CAPACITY)) (by rw [hgw]; exact hpre)
        refine ⟨c3, buf3, ?_, by rw [h5, hgw]⟩
        rw [← h3]
        simp [MqttSnClient.pollLoop, h2]

/-- For a CONNACK that holds its return code (three bytes or more), `connect` returns true
exactly when that return code is ACCEPTED, whatever was received and dispatched before it. -/
theorem connect_complete_connack (cfg : Config) (c : MqttSnClient) (pre : List RxEvent)
    (pkt : List Nat) (rest : List RxEvent) (size : Nat)
    (hsend : c.mSocket.sendResults.head? = some true)
    (hq : isWaiting cfg c.mGatewayNodeId CONNACK pre = true)
    (hpkt : isMessage cfg pkt size CONNACK = true) (h3 : 3 ≤ size) :
    ∃ c2, c.connect cfg (pre ++ .packet c.mGatewayNodeId pkt :: rest)
      = some (decide (Connack.returnCode (packetBuffer pkt) = ACCEPTED), c2, rest) := by
  have hs := headD_of_head? _ hsend
  obtain ⟨_, hmin, hlen⟩ := accepted_of_isMessage cfg c.mGatewayNodeId pkt size CONNACK hpkt
  obtain ⟨c3, buf3, hp, hgw⟩ := pollLoop_waiting cfg CONNACK
    (.packet c.mGatewayNodeId pkt :: rest) pre
    { c with
      mSocket := (c.mSocket.send (Connect.init cfg.bigEndianHost zeroBuffer c.mClientId)
        (Header.length (Connect.init cfg.bigEndianHost zeroBuffer c.mClientId))
        c.mGatewayNodeId).2 }
    (Connect.init cfg.bigEndianHost zeroBuffer c.mClientId) hq
  have hgw2 : c3.mGatewayNodeId = c.mGatewayNodeId := hgw
  have hacc : RxEvent.accepted cfg c3.mGatewayNodeId (.packet c.mGatewayNodeId pkt)
      = some CONNACK := by
    rw [hgw2]; exact (accepted_of_isMessage cfg c.mGatewayNodeId pkt size CONNACK hpkt).1
  rw [pollLoop_arrival cfg CONNACK c3 c.mGatewayNodeId pkt rest buf3 hacc, hmin] at hp
  have hrc : Connack.returnCode (memcpy buf3 0 pkt pkt.length)
      = Connack.returnCode (packetBuffer pkt) := by
    rw [Connack.returnCode, Connack.returnCode, memcpy_packet _ _ _ (by omega)]
  simp only [Socket.send, hs] at hp
  simp only [MqttSnClient.connect, Socket.send, hs, Bool.not_true, Bool.false_eq_true,
    if_false, hp, hrc]
  split_ifs with h
  · exact ⟨c3, by simp [h]⟩
  · exact ⟨c3, by simp [h]⟩

/-! ## What the encoders write -/

theorem connect_header (be : Bool) (buf : Buffer) (clientId : List Nat)
    (h : 6 + strlen clientId ≤ 255) :
    Header.length (Connect.init be buf clientId) = 6 + strlen clientId ∧
      Header.msgType (Connect.init be buf clientId) = CONNECT := by
  cases be <;> simp [Connect.init, Header.length, Header.msgType, storeU16, CONNECT] <;> omega

theorem register_header (be : Bool) (buf : Buffer) (m : Nat) (name : List Nat)
    (h : 6 + strlen name ≤ 255) :
    Header.length (Register.init be buf m name) = 6 + strlen name ∧
      Header.msgType (Register.init be buf m name) = REGISTER := by
  cases be <;> simp [Register.init, Header.length, Header.msgType, storeU16, REGISTER] <;> omega

theorem publish_header (be : Bool) (buf : Buffer) (retain : Bool) (t : Nat) (data : List Nat)
    (n : Nat) (h : 7 + n ≤ 255) :
    Header.length (Publish.init be buf retain t data n) = 7 + n ∧
      Header.msgType (Publish.init be buf retain t data n) = PUBLISH := by
  cases be <;> simp [Publish.init, Header.length, Header.msgType, storeU16, PUBLISH] <;> omega

theorem subscribe_header (be : Bool) (buf : Buffer) (m : Nat) (name : List Nat)
    (h : 5 + strlen name ≤ 255) :
    Header.length (Subscribe.init be buf m name) = 5 + strlen name ∧
      Header.msgType (Subscribe.init be buf m name) = SUBSCRIBE := by
  cases be <;>
    simp [Subscribe.init, Header.length, Header.msgType, storeU16, SUBSCRIBE] <;> omega

theorem disconnect_header (buf : Buffer) :
    Header.length (Disconnect.init buf) = 2 ∧
      Header.msgType (Disconnect.init buf) = DISCONNECT := by
  simp [Disconnect.init, Header.length, Header.msgType, DISCONNECT]

theorem regack_header_any (be : Bool) (buf : Buffer) (t m r : Nat) :
    Header.length (Regack.init be buf t m r) = 7 ∧
      Header.msgType (Regack.init be buf t m r) = REGACK := by
  cases be <;> simp [Regack.init, Header.length, Header.msgType, storeU16, REGACK]

/-- The encoders write nothing at or behind the offset that the header length byte names. -/
theorem connect_extent (be : Bool) (buf : Buffer) (clientId : List Nat) (j : Nat)
    (h : 6 + strlen clientId ≤ j) : Connect.init be buf clientId j = buf j := by
  have h0 : ¬ j = 0 := by omega
  have h1 : ¬ j = 1 := by omega
  have h2 : ¬ j = 2 := by omega
  have h3 : ¬ j = 3 := by omega
  have h4 : ¬ j = 4 := by omega
  have h5 : ¬ j = 5 := by omega
  have h6 : ¬ j < 6 + strlen clientId := by omega
  cases be <;> simp [Connect.init, storeU16, h0, h1, h2, h3, h4, h5, h6]

theorem register_extent (be : Bool) (buf : Buffer) (m : Nat) (name : List Nat) (j : Nat)
    (h : 6 + strlen name ≤ j) : Register.init be buf m name j = buf j := by
  have h0 : ¬ j = 0 := by omega
  have h1 : ¬ j = 1 := by omega
  have h2 : ¬ j = 2 := by omega
  have h3 : ¬ j = 3 := by omega
  have h4 : ¬ j = 4 := by omega
  have h5 : ¬ j = 5 := by omega
  have h6 : ¬ j < 6 + strlen name := by omega
  cases be <;> simp [Register.init, storeU16, h0, h1, h2, h3, h4, h5, h6]

theorem regack_extent (be : Bool) (buf : Buffer) (t m r : Nat) (j : Nat)
    (h : 7 ≤ j) : Regack.init be buf t m r j = buf j := by
  have h0 : ¬ j = 0 := by omega
  have h1 : ¬ j = 1 := by omega
  have h2 : ¬ j = 2 := by omega
  have h3 : ¬ j = 3 := by omega
  have h4 : ¬ j = 4 := by omega
  have h5 : ¬ j = 5 := by omega
  have h6 : ¬ j = 6 := by omega
  cases be <;> simp [Regack.init, storeU16, h0, h1, h2, h3, h4, h5, h6]

theorem publish_extent (be : Bool) (buf : Buffer) (retain : Bool) (t : Nat) (data : List Nat)
    (n : Nat) (j : Nat) (h : 7 + n ≤ j) : Publish.init be buf retain t data n j = buf j := by
  have h0 : ¬ j = 0 := by omega
  have h1 : ¬ j = 1 := by omega
  have h2 : ¬ j = 2 := by omega
  have h3 : ¬ j = 3 := by omega
  have h4 : ¬ j = 4 := by omega
  have h5 : ¬ j = 5 := by omega
  have h6 : ¬ j = 6 := by omega
  have h7 : ¬ j < 7 + n := by omega
  cases be <;> simp [Publish.init, storeU16, h0, h1, h2, h3, h4, h5, h6, h7]

theorem subscribe_extent (be : Bool) (buf : Buffer) (m : Nat) (name : List Nat) (j : Nat)
    (h : 5 + strlen name ≤ j) : Subscribe.init be buf m name j = buf j := by
  have h0 : ¬ j = 0 := by omega
  have h1 : ¬ j = 1 := by omega
  have h2 : ¬ j = 2 := by omega
  have h3 : ¬ j = 3 := by omega
  have h4 : ¬ j = 4 := by omega
  have h6 : ¬ j < 5 + strlen name := by omega
  cases be <;> simp [Subscribe.init, storeU16, h0, h1, h2, h3, h4, h6]

theorem disconnect_extent (buf : Buffer) (j : Nat) (h : 2 ≤ j) :
    Disconnect.init buf j = buf j := by
  have h0 : ¬ j = 0 := by omega
  have h1 : ¬ j = 1 := by omega
  simp [Disconnect.init, h0, h1]

theorem setBits_low (b v : Nat) : setBits b 0 1 v = setBits (b % 256) 0 1 v := by
  simp only [setBits]
  omega

set_option maxRecDepth 100000 in
theorem flags_chain : ∀ x, x < 256 → ∀ r s : Bool,
    setBits (setBits (setBits (setBits (setBits (setBits x 0 1 0 % 256) 1 2 0 % 256) 3 1
      r.toNat % 256) 4 1 0 % 256) 5 1 s.toNat % 256) 6 2 0 % 256
        = 8 * r.toNat + 32 * s.toNat := by
  decide

/-- The six stores into the bit-fields of the flags byte leave no bit of the old byte. -/
theorem connect_flags_any (be : Bool) (buf : Buffer) (clientId : List Nat) :
    Connect.init be buf clientId 2 = 32 := by
  have h := flags_chain (buf 2 % 256) (Nat.mod_lt _ (by norm_num)) false true
  rw [← setBits_low] at h
  cases be <;>
    simpa [Connect.init, storeU16, Flags.setDup, Flags.setQos, Flags.setRetain, Flags.setWill,
      Flags.setCleanSession, Flags.setTopicIdType] using h

theorem publish_flags_any (be : Bool) (buf : Buffer) (retain : Bool) (t : Nat)
    (data : List Nat) (n : Nat) :
    Publish.init be buf retain t data n 2 = 8 * retain.toNat + 32 := by
  have h := flags_chain (buf 2 % 256) (Nat.mod_lt _ (by norm_num)) retain true
  rw [← setBits_low] at h
  cases be <;>
    simpa [Publish.init, storeU16, Flags.setDup, Flags.setQos, Flags.setRetain, Flags.setWill,
      Flags.setCleanSession, Flags.setTopicIdType] using h

theorem subscribe_flags_any (be : Bool) (buf : Buffer) (m : Nat) (name : List Nat) :
    Subscribe.init be buf m name 2 = 0 := by
  have h := flags_chain (buf 2 % 256) (Nat.mod_lt _ (by norm_num)) false false
  rw [← setBits_low] at h
  cases be <;>
    simpa [Subscribe.init, storeU16, Flags.setDup, Flags.setQos, Flags.setRetain,
      Flags.setWill, Flags.setCleanSession, Flags.setTopicIdType] using h

/-- Every byte in front of the offset that the header length byte names is written by the
encoder: it does not depend on what the buffer held. -/
theorem connect_written (be : Bool) (b1 b2 : Buffer) (clientId : List Nat) (j : Nat)
    (h : j < 6 + strlen clientId) :
    Connect.init be b1 clientId j = Connect.init be b2 clientId j := by
  by_cases h6 : 6 ≤ j
  · cases be <;> simp [Connect.init, storeU16, h6, h]
  · have h7 : j < 6 := by omega
    interval_cases j
    all_goals first
      | rw [connect_flags_any, connect_flags_any]
      | (cases be <;> simp [Connect.init, storeU16])

theorem register_written (be : Bool) (b1 b2 : Buffer) (m : Nat) (name : List Nat) (j : Nat)
    (h : j < 6 + strlen name) :
    Register.init be b1 m name j = Register.init be b2 m name j := by
  by_cases h6 : 6 ≤ j
  · cases be <;> simp [Register.init, storeU16, h6, h]
  · have h7 : j < 6 := by omega
    interval_cases j
    all_goals cases be <;> simp [Register.init, storeU16]

theorem regack_written (be : Bool) (b1 b2 : Buffer) (t m r : Nat) (j : Nat) (h : j < 7) :
    Regack.init be b1 t m r j = Regack.init be b2 t m r j := by
  interval_cases j
  all_goals cases be <;> simp [Regack.init, storeU16]

theorem publish_written (be : Bool) (b1 b2 : Buffer) (retain : Bool) (t : Nat)
    (data : List Nat) (n : Nat) (j : Nat) (h : j < 7 + n) :
    Publish.init be b1 retain t data n j = Publish.init be b2 retain t data n j := by
  by_cases h6 : 7 ≤ j
  · cases be <;> simp [Publish.init, storeU16, h6, h]
  · have h7 : j < 7 := by omega
    interval_cases j
    all_goals first
      | rw [publish_flags_any, publish_flags_any]
      | (cases be <;> simp [Publish.init, storeU16])

theorem subscribe_written (be : Bool) (b1 b2 : Buffer) (m : Nat) (name : List Nat) (j : Nat)
    (h : j < 5 + strlen name) :
    Subscribe.init be b1 m name j = Subscribe.init be b2 m name j := by
  by_cases h6 : 5 ≤ j
  · cases be <;> simp [Subscribe.init, storeU16, h6, h]
  · have h7 : j < 5 := by omega
    interval_cases j
    all_goals first
      | rw [subscribe_flags_any, subscribe_flags_any]
      | (cases be <;> simp [Subscribe.init, storeU16])

theorem disconnect_written (b1 b2 : Buffer) (j : Nat) (h : j < 2) :
    Disconnect.init b1 j = Disconnect.init b2 j := by
  interval_cases j <;> simp [Disconnect.init]

/-! ## What the operations hand to the transport, and that they end -/

theorem transmits_of (c c2 : MqttSnClient) (msgType total : Nat) (p : Nat × List Nat)
    (replies : List (Nat × List Nat))
    (h : c2.mSocket.sent = c.mSocket.sent ++ p :: replies)
    (hp : isFramed c.mGatewayNodeId msgType total p = true)
    (hr : ∀ q ∈ replies, isFramed c.mGatewayNodeId REGACK 7 q = true) :
    transmits c c2 msgType total = true := by
  have h1 : sentSince c c2 = some (p :: replies) := by
    simp [sentSince, h]
  simp only [transmits, h1, hp, Bool.true_and, List.all_eq_true]
  exact hr

theorem isFramed_request (gw : Nat) (buf : Buffer) (msgType total : Nat)
    (h0 : Header.length buf = total) (h1 : Header.msgType buf = msgType) (h2 : 2 ≤ total) :
    isFramed gw msgType total (gw, bytesAt buf 0 total) = true := by
  simp only [isFramed, length_bytesAt, bytesAt_getD]
  rw [if_pos (by omega), if_pos (by omega)]
  simp only [Header.length, Header.msgType] at h0 h1
  simp [h0, h1]

theorem handleInternal_framed (cfg : Config) (c : MqttSnClient) (buf : Buffer) :
    ∃ new, (c.handleInternal cfg buf).mSocket.sent = c.mSocket.sent ++ new ∧
      (∀ p ∈ new, isFramed c.mGatewayNodeId REGACK 7 p = true) ∧
      (c.handleInternal cfg buf).mGatewayNodeId = c.mGatewayNodeId := by
  unfold MqttSnClient.handleInternal
  split_ifs with h1 h2
  · refine ⟨[], ?_, by simp, ?_⟩
    · unfold MqttSnClient.handlePublish
      split_ifs
      · simp
      · dsimp only; split <;> simp
    · unfold MqttSnClient.handlePublish
      split_ifs
      · rfl
      · dsimp only; split <;> rfl
  · refine ⟨_, handleRegister_sent cfg c buf, ?_, rfl⟩
    · intro p hp
      simp only [List.mem_singleton] at hp
      rw [hp]
      exact isFramed_request _ _ _ _ (regack_header _ _ _ _).1 (regack_header _ _ _ _).2
        (by omega)
  · exact ⟨[], by simp, by simp, rfl⟩

theorem handleLoop_framed (cfg : Config) (c : MqttSnClient) (ev : RxEvent) (buf : Buffer)
    (ty : Nat) :
    ∃ new, (c.handleLoop cfg ev buf ty).2.1.mSocket.sent = c.mSocket.sent ++ new ∧
      (∀ p ∈ new, isFramed c.mGatewayNodeId REGACK 7 p = true) ∧
      (c.handleLoop cfg ev buf ty).2.1.mGatewayNodeId = c.mGatewayNodeId := by
  unfold MqttSnClient.handleLoop
  dsimp only
  split_ifs
  · exact ⟨[], by simp, by simp, rfl⟩
  · exact ⟨[], by simp, by simp, rfl⟩
  · exact handleInternal_framed cfg c _

theorem pollLoop_framed (cfg : Config) (ty : Nat) :
    ∀ (rx : List RxEvent) (c : MqttSnClient) (buf : Buffer) (c2 : MqttSnClient)
      (buf2 : Buffer) (rx2 : List RxEvent),
      MqttSnClient.pollLoop cfg ty rx c buf = some (c2, buf2, rx2) →
      ∃ new, c2.mSocket.sent = c.mSocket.sent ++ new ∧
        (∀ p ∈ new, isFramed c.mGatewayNodeId REGACK 7 p = true) := by
  intro rx
  induction rx with
  | nil => intro c buf c2 buf2 rx2 h; simp [MqttSnClient.pollLoop] at h
  | cons ev rx ih =>
    intro c buf c2 buf2 rx2 h
    obtain ⟨new1, h1, h2, h3⟩ := handleLoop_framed cfg c ev buf ty
    simp only [MqttSnClient.pollLoop] at h
    split_ifs at h with hok
    · simp only [Option.some.injEq, Prod.mk.injEq] at h
      rw [← h.1]
      exact ⟨new1, h1, h2⟩
    · obtain ⟨new2, h4, h5⟩ := ih _ _ _ _ _ h
      refine ⟨new1 ++ new2, ?_, ?_⟩
      · rw [h4, h1, List.append_assoc]
      · intro p hp
        rcases List.mem_append.1 hp with hp | hp
        · exact h2 p hp
        · rw [← h3]; exact h5 p hp

/-- A wait ends as soon as the awaited message is accepted. -/
theorem pollLoop_returns (cfg : Config) (awaited : Nat) (c : MqttSnClient)
    (pre : List RxEvent) (reply : RxEvent) (rest : List RxEvent) (buf : Buffer)
    (hq : isWaiting cfg c.mGatewayNodeId awaited pre = true)
    (hacc : RxEvent.accepted cfg c.mGatewayNodeId reply = some awaited) :
    ∃ c2 buf2, MqttSnClient.pollLoop cfg awaited (pre ++ reply :: rest) c buf
      = some (c2, buf2, rest) := by
  obtain ⟨c3, buf3, hp, hgw⟩ := pollLoop_waiting cfg awaited (reply :: rest) pre c buf hq
  cases reply with
  | idle => simp [RxEvent.accepted] at hacc
  | failure => simp [RxEvent.accepted] at hacc
  | packet node bytes =>
    rw [← hgw] at hacc
    rw [pollLoop_arrival cfg awaited c3 node bytes rest buf3 hacc] at hp
    exact ⟨c3, _, hp⟩

theorem completes_intro (cfg : Config) (c : MqttSnClient)
    (op : List RxEvent → Option (Bool × MqttSnClient × List RxEvent)) (awaited : Nat)
    (post : MqttSnClient → Prop)
    (hfail : c.mSocket.sendResults.headD false = false →
      ∀ rx : List RxEvent, ∃ c2, op rx = some (false, c2, rx))
    (hret : c.mSocket.sendResults.headD false = true →
      ∀ (pre : List RxEvent) (reply : RxEvent) (rest : List RxEvent),
        isWaiting cfg c.mGatewayNodeId awaited pre = true →
        RxEvent.accepted cfg c.mGatewayNodeId reply = some awaited →
        ∃ ok c2, op (pre ++ reply :: rest) = some (ok, c2, rest))
    (hpost : ∀ (rx : List RxEvent) (ok : Bool) (c2 : MqttSnClient) (rx2 : List RxEvent),
      op rx = some (ok, c2, rx2) → post c2) :
    Completes cfg c op awaited post := by
  refine ⟨?_, ?_, hpost⟩
  · intro hs rx
    obtain ⟨c2, h⟩ := hfail hs rx
    exact ⟨c2, h, hpost _ _ _ _ h⟩
  · intro hs pre reply rest hq hacc
    obtain ⟨ok, c2, h⟩ := hret hs pre reply rest hq hacc
    exact ⟨ok, c2, h, hpost _ _ _ _ h⟩

/-- The operation `connect` ends: at once when the send fails, and with the first CONNACK
that is accepted when the send succeeds. -/
theorem connect_ends (cfg : Config) (c : MqttSnClient) :
    (c.mSocket.sendResults.headD false = false →
      ∀ rx : List RxEvent, ∃ c2, c.connect cfg rx = some (false, c2, rx)) ∧
    (c.mSocket.sendResults.headD false = true →
      ∀ (pre : List RxEvent) (reply : RxEvent) (rest : List RxEvent),
        isWaiting cfg c.mGatewayNodeId CONNACK pre = true →
        RxEvent.accepted cfg c.mGatewayNodeId reply = some CONNACK →
        ∃ ok c2, c.connect cfg (pre ++ reply :: rest) = some (ok, c2, rest)) := by
  constructor
  · intro hs rx
    exact ⟨_, by simp only [MqttSnClient.connect, Socket.send, hs, Bool.not_false, if_true]; rfl⟩
  · intro hs pre reply rest hq hacc
    obtain ⟨c3, buf3, hp⟩ := pollLoop_returns cfg CONNACK
      { c with
        mSocket := (c.mSocket.send (Connect.init cfg.bigEndianHost zeroBuffer c.mClientId)
          (Header.length (Connect.init cfg.bigEndianHost zeroBuffer c.mClientId))
          c.mGatewayNodeId).2 }
      pre reply rest (Connect.init cfg.bigEndianHost zeroBuffer c.mClientId) hq hacc
    simp only [Socket.send, hs] at hp
    simp only [MqttSnClient.connect, Socket.send, hs, Bool.not_true, Bool.false_eq_true,
      if_false, hp]
    split_ifs
    · exact ⟨true, c3, rfl⟩
    · exact ⟨false, c3, rfl⟩

/-- The operation `disconnect` ends: at once when the send fails, and with the first
DISCONNECT that is accepted when the send succeeds. -/
theorem disconnect_ends (cfg : Config) (c : MqttSnClient) :
    (c.mSocket.sendResults.headD false = false →
      ∀ rx : List RxEvent, ∃ c2, c.disconnect cfg rx = some (false, c2, rx)) ∧
    (c.mSocket.sendResults.headD false = true →
      ∀ (pre : List RxEvent) (reply : RxEvent) (rest : List RxEvent),
        isWaiting cfg c.mGatewayNodeId DISCONNECT pre = true →
        RxEvent.accepted cfg c.mGatewayNodeId reply = some DISCONNECT →
        ∃ ok c2, c.disconnect cfg (pre ++ reply :: rest) = some (ok, c2, rest)) := by
  constructor
  · intro hs rx
    exact ⟨_, by simp only [MqttSnClient.disconnect, Socket.send, hs, Bool.not_false, if_true]; rfl⟩
  · intro hs pre reply rest hq hacc
    obtain ⟨c3, buf3, hp⟩ := pollLoop_returns cfg DISCONNECT
      { c with
        mSocket := (c.mSocket.send (Disconnect.init zeroBuffer)
          (Header.length (Disconnect.init zeroBuffer)) c.mGatewayNodeId).2 }
      pre reply rest (Disconnect.init zeroBuffer) hq hacc
    simp only [Socket.send, hs] at hp
    simp only [MqttSnClient.disconnect, Socket.send, hs, Bool.not_true, Bool.false_eq_true,
      if_false, hp]
    exact ⟨true, c3, rfl⟩

/-- The operation `registerTopic` on a name within the length limit ends: at once when the
send fails, and with the first REGACK that is accepted when the send succeeds. -/
theorem registerTopic_ends (cfg : Config) (c : MqttSnClient) (name : List Nat)
    (hname : strlen name ≤ cfg.MAX_LENGTH_TOPIC_NAME) :
    (c.mSocket.sendResults.headD false = false →
      ∀ rx : List RxEvent, ∃ c2, c.registerTopic cfg rx name = some (false, c2, rx)) ∧
    (c.mSocket.sendResults.headD false = true →
      ∀ (pre : List RxEvent) (reply : RxEvent) (rest : List RxEvent),
        isWaiting cfg c.mGatewayNodeId REGACK pre = true →
        RxEvent.accepted cfg c.mGatewayNodeId reply = some REGACK →
        ∃ ok c2, c.registerTopic cfg (pre ++ reply :: rest) name = some (ok, c2, rest)) := by
  have hn : ¬ strlen name > cfg.MAX_LENGTH_TOPIC_NAME := by omega
  constructor
  · intro hs rx
    exact ⟨_, by simp only [MqttSnClient.registerTopic, if_neg hn, Socket.send, hs,
      Bool.not_false, if_true]; rfl⟩
  · intro hs pre reply rest hq hacc
    obtain ⟨c3, buf3, hp⟩ := pollLoop_returns cfg REGACK
      { c with
        mMsgIdCounter := (c.mMsgIdCounter + 1) % 65536
        mSocket := (c.mSocket.send
          (Register.init cfg.bigEndianHost zeroBuffer c.mMsgIdCounter name)
          (Header.length (Register.init cfg.bigEndianHost zeroBuffer c.mMsgIdCounter name))
          c.mGatewayNodeId).2 }
      pre reply rest (Register.init cfg.bigEndianHost zeroBuffer c.mMsgIdCounter name) hq hacc
    simp only [Socket.send, hs] at hp
    simp only [MqttSnClient.registerTopic, if_neg hn, Socket.send, hs, Bool.not_true,
      Bool.false_eq_true, if_false, hp]
    split_ifs
    all_goals exact ⟨_, _, rfl⟩

/-- The operation `subscribe` on a name within the length limit ends: at once when the send
fails, and with the first SUBACK that is accepted when the send succeeds. -/
theorem subscribe_ends (cfg : Config) (c : MqttSnClient) (name : List Nat)
    (hname : strlen name ≤ cfg.MAX_LENGTH_TOPIC_NAME) :
    (c.mSocket.sendResults.headD false = false →
      ∀ rx : List RxEvent, ∃ c2, c.subscribe cfg rx name = some (false, c2, rx)) ∧
    (c.mSocket.sendResults.headD false = true →
      ∀ (pre : List RxEvent) (reply : RxEvent) (rest : List RxEvent),
        isWaiting cfg c.mGatewayNodeId SUBACK pre = true →
        RxEvent.accepted cfg c.mGatewayNodeId reply = some SUBACK →
        ∃ ok c2, c.subscribe cfg (pre ++ reply :: rest) name = some (ok, c2, rest)) := by
  have hn : ¬ strlen name > cfg.MAX_LENGTH_TOPIC_NAME := by omega
  constructor
  · intro hs rx
    exact ⟨_, by simp only [MqttSnClient.subscribe, if_neg hn, Socket.send, hs,
      Bool.not_false, if_true]; rfl⟩
  · intro hs pre reply rest hq hacc
    obtain ⟨c3, buf3, hp⟩ := pollLoop_returns cfg SUBACK
      { c with
        mMsgIdCounter := (c.mMsgIdCounter + 1) % 65536
        mSocket := (c.mSocket.send
          (Subscribe.init cfg.bigEndianHost zeroBuffer c.mMsgIdCounter name)
          (Header.length (Subscribe.init cfg.bigEndianHost zeroBuffer c.mMsgIdCounter name))
          c.mGatewayNodeId).2 }
      pre reply rest (Subscribe.init cfg.bigEndianHost zeroBuffer c.mMsgIdCounter name) hq hacc
    simp only [Socket.send, hs] at hp
    simp only [MqttSnClient.subscribe, if_neg hn, Socket.send, hs, Bool.not_true,
      Bool.false_eq_true, if_false, hp]
    split_ifs
    all_goals exact ⟨_, _, rfl⟩

theorem transmits_request (c c2 : MqttSnClient) (buf : Buffer) (msgType total : Nat)
    (replies : List (Nat × List Nat))
    (h : c2.mSocket.sent = c.mSocket.sent ++
      (c.mGatewayNodeId, bytesAt buf 0 (Header.length buf)) :: replies)
    (hl : Header.length buf = total) (ht : Header.msgType buf = msgType) (h2 : 2 ≤ total)
    (hr : ∀ q ∈ replies, isFramed c.mGatewayNodeId REGACK 7 q = true) :
    transmits c c2 msgType total = true := by
  refine transmits_of c c2 msgType total _ replies h ?_ hr
  rw [hl]
  exact isFramed_request _ _ _ _ hl ht h2

theorem transmits_after_wait (cfg : Config) (c c1 c3 c2 : MqttSnClient) (ty : Nat)
    (buf buf3 : Buffer) (rx rx3 : List RxEvent) (msgType total : Nat)
    (h1 : c1.mSocket.sent = c.mSocket.sent ++
      [(c.mGatewayNodeId, bytesAt buf 0 (Header.length buf))])
    (hgw : c1.mGatewayNodeId = c.mGatewayNodeId)
    (hl : Header.length buf = total) (ht : Header.msgType buf = msgType) (h2 : 2 ≤ total)
    (hpoll : MqttSnClient.pollLoop cfg ty rx c1 buf = some (c3, buf3, rx3))
    (hc2 : c2.mSocket = c3.mSocket) :
    transmits c c2 msgType total = true := by
  obtain ⟨new, h3, h4⟩ := pollLoop_framed cfg ty _ _ _ _ _ _ hpoll
  refine transmits_request c c2 buf msgType total new ?_ hl ht h2 ?_
  · rw [hc2, h3, h1]; simp
  · intro q hq; rw [← hgw]; exact h4 q hq

/-- Whenever `connect` returns, it has handed to the transport a CONNECT of `6 + n` bytes
that declares this length, and after it nothing but REGACKs of 7 bytes. -/
theorem connect_transmits (cfg : Config) (c : MqttSnClient) (rx : List RxEvent)
    (ok : Bool) (c2 : MqttSnClient) (rx2 : List RxEvent)
    (hlen : 6 + strlen c.mClientId ≤ 255)
    (h : c.connect cfg rx = some (ok, c2, rx2)) :
    transmits c c2 CONNECT (6 + strlen c.mClientId) = true := by
  obtain ⟨hl, ht⟩ := connect_header cfg.bigEndianHost zeroBuffer c.mClientId hlen
  unfold MqttSnClient.connect at h
  dsimp only at h
  split_ifs at h with h2
  · simp only [Option.some.injEq, Prod.mk.injEq] at h
    rw [← h.2.1]
    exact transmits_request c _ _ _ _ [] rfl hl ht (by omega) (by simp)
  · split at h
    · simp at h
    · rename_i c3 buf3 rx3 hpoll
      have hc2 : c2 = c3 := by
        split_ifs at h <;> simp only [Option.some.injEq, Prod.mk.injEq] at h <;>
          exact h.2.1.symm
      refine transmits_after_wait cfg c _ c3 c2 CONNACK _ buf3 rx rx3 _ _ ?_ ?_ hl ht
        (by omega) hpoll (by rw [hc2])
      all_goals rfl

/-- Whenever `disconnect` returns, it has handed to the transport a DISCONNECT of 2 bytes
that declares this length, and after it nothing but REGACKs of 7 bytes. -/
theorem disconnect_transmits (cfg : Config) (c : MqttSnClient) (rx : List RxEvent)
    (ok : Bool) (c2 : MqttSnClient) (rx2 : List RxEvent)
    (h : c.disconnect cfg rx = some (ok, c2, rx2)) :
    transmits c c2 DISCONNECT 2 = true := by
  obtain ⟨hl, ht⟩ := disconnect_header zeroBuffer
  unfold MqttSnClient.disconnect at h
  dsimp only at h
  split_ifs at h with h2
  · simp only [Option.some.injEq, Prod.mk.injEq] at h
    rw [← h.2.1]
    exact transmits_request c _ _ _ _ [] rfl hl ht (by omega) (by simp)
  · split at h
    · simp at h
    · rename_i c3 buf3 rx3 hpoll
      simp only [Option.some.injEq, Prod.mk.injEq] at h
      refine transmits_after_wait cfg c _ c3 c2 DISCONNECT _ buf3 rx rx3 _ _ ?_ ?_ hl ht
        (by omega) hpoll (by rw [← h.2.1])
      all_goals rfl

/-- Whenever `registerTopic` on a name within the length limit returns, it has handed to
the transport a REGISTER of `6 + n` bytes that declares this length, and after it nothing
but REGACKs of 7 bytes. -/
theorem registerTopic_transmits (cfg : Config) (c : MqttSnClient) (rx : List RxEvent)
    (name : List Nat) (ok : Bool) (c2 : MqttSnClient) (rx2 : List RxEvent)
    (hname : strlen name ≤ cfg.MAX_LENGTH_TOPIC_NAME) (hlen : 6 + strlen name ≤ 255)
    (h : c.registerTopic cfg rx name = some (ok, c2, rx2)) :
    transmits c c2 REGISTER (6 + strlen name) = true := by
  obtain ⟨hl, ht⟩ := register_header cfg.bigEndianHost zeroBuffer c.mMsgIdCounter name hlen
  have hn : ¬ strlen name > cfg.MAX_LENGTH_TOPIC_NAME := by omega
  unfold MqttSnClient.registerTopic at h
  rw [if_neg hn] at h
  dsimp only at h
  split_ifs at h with h2
  · simp only [Option.some.injEq, Prod.mk.injEq] at h
    rw [← h.2.1]
    exact transmits_request c _ _ _ _ [] rfl hl ht (by omega) (by simp)
  · split at h
    · simp at h
    · rename_i c3 buf3 rx3 hpoll
      have hc2 : c2.mSocket = c3.mSocket := by
        split_ifs at h <;> simp only [Option.some.injEq, Prod.mk.injEq] at h <;>
          rw [← h.2.1]
      refine transmits_after_wait cfg c _ c3 c2 REGACK _ buf3 rx rx3 _ _ ?_ ?_ hl ht
        (by omega) hpoll hc2
      all_goals rfl

/-- Whenever `subscribe` on a name within the length limit returns, it has handed to the
transport a SUBSCRIBE of `5 + n` bytes that declares this length, and after it nothing but
REGACKs of 7 bytes. -/
theorem subscribe_transmits (cfg : Config) (c : MqttSnClient) (rx : List RxEvent)
    (name : List Nat) (ok : Bool) (c2 : MqttSnClient) (rx2 : List RxEvent)
    (hname : strlen name ≤ cfg.MAX_LENGTH_TOPIC_NAME) (hlen : 5 + strlen name ≤ 255)
    (h : c.subscribe cfg rx name = some (ok, c2, rx2)) :
    transmits c c2 SUBSCRIBE (5 + strlen name) = true := by
  obtain ⟨hl, ht⟩ := subscribe_header cfg.bigEndianHost zeroBuffer c.mMsgIdCounter name hlen
  have hn : ¬ strlen name > cfg.MAX_LENGTH_TOPIC_NAME := by omega
  unfold MqttSnClient.subscribe at h
  rw [if_neg hn] at h
  dsimp only at h
  split_ifs at h with h2
  · simp only [Option.some.injEq, Prod.mk.injEq] at h
    rw [← h.2.1]
    exact transmits_request c _ _ _ _ [] rfl hl ht (by omega) (by simp)
  · split at h
    · simp at h
    · rename_i c3 buf3 rx3 hpoll
      have hc2 : c2.mSocket = c3.mSocket := by
        split_ifs at h <;> simp only [Option.some.injEq, Prod.mk.injEq] at h <;>
          rw [← h.2.1]
      refine transmits_after_wait cfg c _ c3 c2 SUBACK _ buf3 rx rx3 _ _ ?_ ?_ hl ht
        (by omega) hpoll hc2
      all_goals rfl

/-- The REGACK that `handleRegister` hands to the transport has 7 bytes and declares 7. -/
theorem handleRegister_transmits (cfg : Config) (c : MqttSnClient) (buf : Buffer) :
    transmits c (c.handleRegister cfg buf) REGACK 7 = true := by
  refine transmits_of c _ REGACK 7 _ [] (handleRegister_sent cfg c buf) ?_ (by simp)
  exact isFramed_request _ _ _ _ (regack_header _ _ _ _).1 (regack_header _ _ _ _).2 (by omega)

/-- What `publish` does on a topic found in the registry with a size within the limit. -/
theorem publish_found (cfg : Config) (c : MqttSnClient) (rx : List RxEvent)
    (name data : List Nat) (size : Nat) (retain : Bool) (topic : Topic)
    (hfind : c.mTopics.findTopic name = some topic)
    (hsize : size ≤ cfg.MAX_LENGTH_DATA) :
    c.publish cfg rx name data size retain =
      some (c.mSocket.sendResults.headD false,
        { c with
          mSocket :=
            { sendResults := c.mSocket.sendResults.tail
              sent := c.mSocket.sent ++ [(c.mGatewayNodeId,
                bytesAt (Publish.init cfg.bigEndianHost zeroBuffer retain topic.id data size) 0
                  (Header.length
                    (Publish.init cfg.bigEndianHost zeroBuffer retain topic.id data size)))] } },
        rx) := by
  have hs : ¬ size > cfg.MAX_LENGTH_DATA := by omega
  simp only [MqttSnClient.publish, if_neg hs, hfind, Socket.send]
  cases c.mSocket.sendResults.headD false <;> simp

/-- The bytes of a PUBLISH as `Publish::initialize` writes them into a zeroed buffer. -/
theorem publish_bytes (be : Bool) (retain : Bool) (t : Nat) (data : List Nat) (size : Nat)
    (hlen : 7 + size ≤ 255) (ht : t < 65536) (hsz : size ≤ data.length)
    (hb : ∀ x ∈ data, x < 256) :
    bytesAt (Publish.init be zeroBuffer retain t data size) 0
        (Header.length (Publish.init be zeroBuffer retain t data size))
      = [7 + size, PUBLISH, 32 + 8 * retain.toNat,
          if be then t % 256 else t / 256, if be then t / 256 else t % 256, 0, 0]
        ++ data.take size := by
  rw [(publish_header be zeroBuffer retain t data size hlen).1, bytesAt_add]
  congr 1
  · have h0 := (publish_header be zeroBuffer retain t data size hlen).1
    have h1 := (publish_header be zeroBuffer retain t data size hlen).2
    have h2 := publish_flags_any be zeroBuffer retain t data size
    have h34 : Publish.init be zeroBuffer retain t data size 3
          = (if be then t % 256 else t / 256) ∧
        Publish.init be zeroBuffer retain t data size 4
          = (if be then t / 256 else t % 256) := by
      have hv := bswap_eq t ht
      have hlo : bswap t % 256 = t / 256 := by omega
      have hhi : bswap t / 256 % 256 = t % 256 := by omega
      cases be <;> simp [Publish.init, storeU16, hlo, hhi]
    have h56 : Publish.init be zeroBuffer retain t data size 5 = 0 ∧
        Publish.init be zeroBuffer retain t data size 6 = 0 := by
      cases be <;> simp [Publish.init, storeU16]
    simp only [Header.length, Header.msgType] at h0 h1
    simp only [bytesAt, List.range, List.range.loop, List.map, Nat.zero_add, h0, h1, h2,
      h34.1, h34.2, h56.1, h56.2]
    simp [Nat.add_comm]
  · simp only [Publish.init, Nat.zero_add]
    exact bytesAt_memcpy _ _ _ _ hsz hb

theorem transmits_elim (c c2 : MqttSnClient) (msgType total : Nat)
    (h : transmits c c2 msgType total = true) :
    ∃ p replies, c2.mSocket.sent = c.mSocket.sent ++ p :: replies ∧
      isFramed c.mGatewayNodeId msgType total p = true ∧
      ∀ q ∈ replies, isFramed c.mGatewayNodeId REGACK 7 q = true := by
  unfold transmits sentSince at h
  split_ifs at h with h1
  · cases hd : c2.mSocket.sent.drop c.mSocket.sent.length with
    | nil => simp [hd] at h
    | cons p replies =>
      simp only [hd, Bool.and_eq_true, List.all_eq_true] at h
      have h2 := List.take_append_drop c.mSocket.sent.length c2.mSocket.sent
      rw [h1, hd] at h2
      exact ⟨p, replies, h2.symm, h.1, h.2⟩

theorem transmitsOnly_of (c c2 : MqttSnClient) (kinds : List (Nat × Nat))
    (new : List (Nat × List Nat))
    (h : c2.mSocket.sent = c.mSocket.sent ++ new)
    (hk : ∀ p ∈ new, ∃ k ∈ kinds, isFramed c.mGatewayNodeId k.1 k.2 p = true) :
    transmitsOnly c c2 kinds = true := by
  have h1 : sentSince c c2 = some new := by simp [sentSince, h]
  simp only [transmitsOnly, h1, List.all_eq_true, List.any_eq_true]
  exact hk

theorem registerTopic_gateway (cfg : Config) (c : MqttSnClient) (rx : List RxEvent)
    (name : List Nat) (ok : Bool) (c2 : MqttSnClient) (rx2 : List RxEvent)
    (h : c.registerTopic cfg rx name = some (ok, c2, rx2)) :
    c2.mGatewayNodeId = c.mGatewayNodeId := by
  unfold MqttSnClient.registerTopic at h
  split_ifs at h with h1
  · simp only [Option.some.injEq, Prod.mk.injEq] at h
    rw [← h.2.1]
  · dsimp only at h
    split_ifs at h with h2
    · simp only [Option.some.injEq, Prod.mk.injEq] at h
      rw [← h.2.1]
    · split at h
      · simp at h
      · rename_i c3 buf3 rx3 hpoll
        obtain ⟨_, _, _, h3⟩ := pollLoop_sent cfg REGACK _ _ _ _ _ _ hpoll
        have hc2 : c2.mGatewayNodeId = c3.mGatewayNodeId := by
          split_ifs at h <;> simp only [Option.some.injEq, Prod.mk.injEq] at h <;>
            rw [← h.2.1]
        rw [hc2, h3]

/-- Whenever `publish` on a topic that is not in the registry returns, every packet it has
handed to the transport is a REGISTER of `6 + n` bytes, a REGACK of 7 bytes or a PUBLISH of
`7 + size` bytes, each declaring its number of bytes in its header. -/
theorem publish_implicit_transmits (cfg : Config) (c : MqttSnClient) (rx : List RxEvent)
    (name data : List Nat) (size : Nat) (retain : Bool)
    (ok : Bool) (c2 : MqttSnClient) (rx2 : List RxEvent)
    (hfind : c.mTopics.findTopic name = none)
    (hname : strlen name ≤ cfg.MAX_LENGTH_TOPIC_NAME) (hlen : 6 + strlen name ≤ 255)
    (hdata : 7 + size ≤ 255)
    (h : c.publish cfg rx name data size retain = some (ok, c2, rx2)) :
    transmitsOnly c c2 [(REGISTER, 6 + strlen name), (REGACK, 7), (PUBLISH, 7 + size)]
      = true := by
  have hreg : ∀ (okr : Bool) (c1 : MqttSnClient) (rx1 : List RxEvent),
      c.registerTopic cfg rx name = some (okr, c1, rx1) →
      ∃ new, c1.mSocket.sent = c.mSocket.sent ++ new ∧
        ∀ p ∈ new, ∃ k ∈ [(REGISTER, 6 + strlen name), (REGACK, 7), (PUBLISH, 7 + size)],
          isFramed c.mGatewayNodeId k.1 k.2 p = true := by
    intro okr c1 rx1 h1
    obtain ⟨p, replies, h2, h3, h4⟩ := transmits_elim c c1 _ _
      (registerTopic_transmits cfg c rx name okr c1 rx1 hname hlen h1)
    refine ⟨p :: replies, h2, ?_⟩
    intro q hq
    rcases List.mem_cons.1 hq with hq | hq
    · exact ⟨(REGISTER, 6 + strlen name), by simp, by rw [hq]; exact h3⟩
    · exact ⟨(REGACK, 7), by simp, h4 q hq⟩
  unfold MqttSnClient.publish at h
  simp only [hfind] at h
  split_ifs at h with hs
  · simp only [Option.some.injEq, Prod.mk.injEq] at h
    rw [← h.2.1]
    exact transmitsOnly_of c c _ [] (by simp) (by simp)
  · cases hr : c.registerTopic cfg rx name with
    | none => simp [hr] at h
    | some r =>
      obtain ⟨okr, c1, rx1⟩ := r
      obtain ⟨new, h2, h3⟩ := hreg okr c1 rx1 hr
      have hgw := registerTopic_gateway cfg c rx name okr c1 rx1 hr
      simp only [hr] at h
      split_ifs at h with hok
      · simp only [Option.some.injEq, Prod.mk.injEq] at h
        rw [← h.2.1]
        exact transmitsOnly_of c c1 _ new h2 h3
      · split at h
        · simp only [Option.some.injEq, Prod.mk.injEq] at h
          rw [← h.2.1]
          exact transmitsOnly_of c c1 _ new h2 h3
        · rename_i topic hfind2
          have hc2 : c2.mSocket.sent = c1.mSocket.sent ++ [(c1.mGatewayNodeId,
              bytesAt (Publish.init cfg.bigEndianHost zeroBuffer retain topic.id data size) 0
                (Header.length
                  (Publish.init cfg.bigEndianHost zeroBuffer retain topic.id data size)))] := by
            split_ifs at h <;> simp only [Option.some.injEq, Prod.mk.injEq] at h <;>
              rw [← h.2.1] <;> rfl
          refine transmitsOnly_of c c2 _ (new ++ [(c1.mGatewayNodeId,
              bytesAt (Publish.init cfg.bigEndianHost zeroBuffer retain topic.id data size) 0
                (Header.length
                  (Publish.init cfg.bigEndianHost zeroBuffer retain topic.id data size)))])
            (by rw [hc2, h2, List.append_assoc]) ?_
          intro q hq
          rcases List.mem_append.1 hq with hq | hq
          · exact h3 q hq
          · simp only [List.mem_singleton] at hq
            refine ⟨(PUBLISH, 7 + size), by simp, ?_⟩
            rw [hq, hgw, (publish_header _ zeroBuffer retain topic.id data size hdata).1]
            exact isFramed_request _ _ _ _
              (publish_header _ zeroBuffer retain topic.id data size hdata).1
              (publish_header _ zeroBuffer retain topic.id data size hdata).2 (by omega)

/-- The operation `publish` on a topic that is not in the registry ends: at once when the
send of the REGISTER fails, and with the first REGACK that is accepted otherwise. -/
theorem publish_implicit_ends (cfg : Config) (c : MqttSnClient)
    (name data : List Nat) (size : Nat) (retain : Bool)
    (hfind : c.mTopics.findTopic name = none)
    (hname : strlen name ≤ cfg.MAX_LENGTH_TOPIC_NAME) (hsize : size ≤ cfg.MAX_LENGTH_DATA) :
    (c.mSocket.sendResults.headD false = false →
      ∀ rx : List RxEvent, ∃ c2, c.publish cfg rx name data size retain
        = some (false, c2, rx)) ∧
    (c.mSocket.sendResults.headD false = true →
      ∀ (pre : List RxEvent) (reply : RxEvent) (rest : List RxEvent),
        isWaiting cfg c.mGatewayNodeId REGACK pre = true →
        RxEvent.accepted cfg c.mGatewayNodeId reply = some REGACK →
        ∃ ok c2, c.publish cfg (pre ++ reply :: rest) name data size retain
          = some (ok, c2, rest)) := by
  have hs : ¬ size > cfg.MAX_LENGTH_DATA := by omega
  constructor
  · intro hf rx
    obtain ⟨c1, h1⟩ := (registerTopic_ends cfg c name hname).1 hf rx
    exact ⟨c1, by simp [MqttSnClient.publish, hs, hfind, h1]⟩
  · intro hf pre reply rest hq hacc
    obtain ⟨okr, c1, h1⟩ := (registerTopic_ends cfg c name hname).2 hf pre reply rest hq hacc
    simp only [MqttSnClient.publish, if_neg hs, hfind, h1]
    split_ifs
    · exact ⟨_, _, rfl⟩
    · split
      · exact ⟨_, _, rfl⟩
      · split_ifs
        all_goals exact ⟨_, _, rfl⟩

/-! ## The length invariant: C1 -/

/-- C1: for every message the engine encodes, the header length byte equals the number of
bytes of the encoded message and the number of bytes handed to the transport.

The codec, for totals up to 255: each encoder sets the length byte to the total (CONNECT
6 + client id length, REGISTER 6 + topic name length, REGACK 7, PUBLISH 7 + payload size,
SUBSCRIBE 5 + topic name length, DISCONNECT 2) and writes exactly that many bytes, whatever
the buffer held.

The engine: `connect`, `registerTopic`, `subscribe` and `disconnect` end when the send fails
and when the awaited reply arrives, and have then handed to the transport their request with
exactly that many bytes, whose first byte is that number, and after it nothing but REGACKs
of 7 bytes with first byte 7; `handleRegister` does so with its REGACK, and `publish` on a
registered topic with its PUBLISH.  A `publish` on a topic that is not registered ends
likewise, and every packet it has handed to the transport is a REGISTER, a REGACK or a
PUBLISH whose first byte is its number of bytes, as stated for that type. -/
theorem header_length_matches_encoded_size (cfg : Config) (c : MqttSnClient) :
    (∀ (buf : Buffer) (clientId : List Nat), 6 + strlen clientId ≤ 255 →
      Header.length (Connect.init cfg.bigEndianHost buf clientId) = 6 + strlen clientId ∧
      writesExactly (fun b => Connect.init cfg.bigEndianHost b clientId)
        (6 + strlen clientId)) ∧
    (∀ (buf : Buffer) (msgId : Nat) (topicName : List Nat), 6 + strlen topicName ≤ 255 →
      Header.length (Register.init cfg.bigEndianHost buf msgId topicName)
        = 6 + strlen topicName ∧
      writesExactly (fun b => Register.init cfg.bigEndianHost b msgId topicName)
        (6 + strlen topicName)) ∧
    (∀ (buf : Buffer) (topicId msgId returnCode : Nat),
      Header.length (Regack.init cfg.bigEndianHost buf topicId msgId returnCode) = 7 ∧
      writesExactly (fun b => Regack.init cfg.bigEndianHost b topicId msgId returnCode) 7) ∧
    (∀ (buf : Buffer) (retain : Bool) (topicId : Nat) (data : List Nat) (size : Nat),
      7 + size ≤ 255 →
      Header.length (Publish.init cfg.bigEndianHost buf retain topicId data size) = 7 + size ∧
      writesExactly (fun b => Publish.init cfg.bigEndianHost b retain topicId data size)
        (7 + size)) ∧
    (∀ (buf : Buffer) (msgId : Nat) (topicName : List Nat), 5 + strlen topicName ≤ 255 →
      Header.length (Subscribe.init cfg.bigEndianHost buf msgId topicName)
        = 5 + strlen topicName ∧
      writesExactly (fun b => Subscribe.init cfg.bigEndianHost b msgId topicName)
        (5 + strlen topicName)) ∧
    (∀ buf : Buffer, Header.length (Disconnect.init buf) = 2 ∧
      writesExactly (fun b => Disconnect.init b) 2) ∧
    (6 + strlen c.mClientId ≤ 255 →
      Completes cfg c (fun rx => c.connect cfg rx) CONNACK
        (fun c2 => transmits c c2 CONNECT (6 + strlen c.mClientId) = true)) ∧
    (∀ name : List Nat, strlen name ≤ cfg.MAX_LENGTH_TOPIC_NAME → 6 + strlen name ≤ 255 →
      Completes cfg c (fun rx => c.registerTopic cfg rx name) REGACK
        (fun c2 => transmits c c2 REGISTER (6 + strlen name) = true)) ∧
    (∀ buf : Buffer, transmits c (c.handleRegister cfg buf) REGACK 7 = true) ∧
    (∀ (rx : List RxEvent) (name data : List Nat) (size : Nat) (retain : Bool) (topic : Topic),
      c.mTopics.findTopic name = some topic → size ≤ cfg.MAX_LENGTH_DATA → 7 + size ≤ 255 →
      ∃ c2, c.publish cfg rx name data size retain
          = some (c.mSocket.sendResults.headD false, c2, rx) ∧
        transmits c c2 PUBLISH (7 + size) = true) ∧
    (∀ (name data : List Nat) (size : Nat) (retain : Bool),
      c.mTopics.findTopic name = none → strlen name ≤ cfg.MAX_LENGTH_TOPIC_NAME →
      6 + strlen name ≤ 255 → size ≤ cfg.MAX_LENGTH_DATA → 7 + size ≤ 255 →
      Completes cfg c (fun rx => c.publish cfg rx name data size retain) REGACK
        (fun c2 => transmitsOnly c c2
          [(REGISTER, 6 + strlen name), (REGACK, 7), (PUBLISH, 7 + size)] = true)) ∧
    (∀ name : List Nat, strlen name ≤ cfg.MAX_LENGTH_TOPIC_NAME → 5 + strlen name ≤ 255 →
      Completes cfg c (fun rx => c.subscribe cfg rx name) SUBACK
        (fun c2 => transmits c c2 SUBSCRIBE (5 + strlen name) = true)) ∧
    Completes cfg c (fun rx => c.disconnect cfg rx) DISCONNECT
      (fun c2 => transmits c c2 DISCONNECT 2 = true) := by
  refine ⟨?_, ?_, ?_, ?_, ?_, ?_, ?_, ?_, handleRegister_transmits cfg c, ?_, ?_, ?_, ?_⟩
  · intro buf clientId h
    exact ⟨(connect_header _ buf clientId h).1,
      fun b1 b2 j hj => connect_written _ b1 b2 clientId j hj,
      fun b j hj => connect_extent _ b clientId j hj⟩
  · intro buf msgId topicName h
    exact ⟨(register_header _ buf msgId topicName h).1,
      fun b1 b2 j hj => register_written _ b1 b2 msgId topicName j hj,
      fun b j hj => register_extent _ b msgId topicName j hj⟩
  · intro buf topicId msgId returnCode
    exact ⟨(regack_header_any _ buf topicId msgId returnCode).1,
      fun b1 b2 j hj => regack_written _ b1 b2 topicId msgId returnCode j hj,
      fun b j hj => regack_extent _ b topicId msgId returnCode j hj⟩
  · intro buf retain topicId data size h
    exact ⟨(publish_header _ buf retain topicId data size h).1,
      fun b1 b2 j hj => publish_written _ b1 b2 retain topicId data size j hj,
      fun b j hj => publish_extent _ b retain topicId data size j hj⟩
  · intro buf msgId topicName h
    exact ⟨(subscribe_header _ buf msgId topicName h).1,
      fun b1 b2 j hj => subscribe_written _ b1 b2 msgId topicName j hj,
      fun b j hj => subscribe_extent _ b msgId topicName j hj⟩
  · intro buf
    exact ⟨(disconnect_header buf).1, fun b1 b2 j hj => disconnect_written b1 b2 j hj,
      fun b j hj => disconnect_extent b j hj⟩
  · intro hlen
    exact completes_intro cfg c _ CONNACK _ (connect_ends cfg c).1 (connect_ends cfg c).2
      (fun rx ok c2 rx2 h => connect_transmits cfg c rx ok c2 rx2 hlen h)
  · intro name hname hlen
    exact completes_intro cfg c _ REGACK _ (registerTopic_ends cfg c name hname).1
      (registerTopic_ends cfg c name hname).2
      (fun rx ok c2 rx2 h => registerTopic_transmits cfg c rx name ok c2 rx2 hname hlen h)
  · intro rx name data size retain topic hfind hsize hlen
    refine ⟨_, publish_found cfg c rx name data size retain topic hfind hsize, ?_⟩
    exact transmits_request c _ _ _ _ [] rfl
      (publish_header _ zeroBuffer retain topic.id data size hlen).1
      (publish_header _ zeroBuffer retain topic.id data size hlen).2 (by omega) (by simp)
  · intro name data size retain hfind hname hlen hsize hdata
    exact completes_intro cfg c _ REGACK _
      (publish_implicit_ends cfg c name data size retain hfind hname hsize).1
      (publish_implicit_ends cfg c name data size retain hfind hname hsize).2
      (fun rx ok c2 rx2 h =>
        publish_implicit_transmits cfg c rx name data size retain ok c2 rx2 hfind hname hlen
          hdata h)
  · intro name hname hlen
    exact completes_intro cfg c _ SUBACK _ (subscribe_ends cfg c name hname).1
      (subscribe_ends cfg c name hname).2
      (fun rx ok c2 rx2 h => subscribe_transmits cfg c rx name ok c2 rx2 hname hlen h)
  · exact completes_intro cfg c _ DISCONNECT _ (disconnect_ends cfg c).1
      (disconnect_ends cfg c).2
      (fun rx ok c2 rx2 h => disconnect_transmits cfg c rx ok c2 rx2 h)

/-- C1 at the sample client: the CONNECT encoder at client id `Bt`; a `connect` whose
CONNACK arrives after an idle poll; a `disconnect` whose send fails; a `disconnect` that is
answered; and the packets of these runs and of a `handleRegister` as they are evaluated:
a CONNECT of 8 bytes, a DISCONNECT of 2 bytes and a REGACK of 7 bytes, each with its number
of bytes as first byte. -/
theorem header_length_matches_encoded_size_witness :
    (Header.length (Connect.init sampleConfig.bigEndianHost zeroBuffer [66, 116]) = 8 ∧
      writesExactly (fun b => Connect.init sampleConfig.bigEndianHost b [66, 116]) 8) ∧
    (∃ ok c2, sampleClient.connect sampleConfig [RxEvent.idle, RxEvent.packet 1 [3, 5, 0]]
        = some (ok, c2, []) ∧ transmits sampleClient c2 CONNECT 8 = true) ∧
    (∃ c2, ({ sampleClient with mSocket := { sendResults := [], sent := [] } }
          : MqttSnClient).disconnect sampleConfig [RxEvent.idle]
        = some (false, c2, [RxEvent.idle]) ∧
      transmits { sampleClient with mSocket := { sendResults := [], sent := [] } } c2
        DISCONNECT 2 = true) ∧
    (∃ ok c2, sampleClient.disconnect sampleConfig [RxEvent.packet 1 [2, 24]]
        = some (ok, c2, []) ∧ transmits sampleClient c2 DISCONNECT 2 = true) ∧
    (sampleClient.connect sampleConfig [RxEvent.idle, RxEvent.packet 1 [3, 5, 0]]).map
        (fun r => (r.1, r.2.1.mSocket.sent))
      = some (true, [(1, [8, 4, 32, 1, 255, 255, 66, 116])]) ∧
    (sampleClient.disconnect sampleConfig [RxEvent.packet 1 [2, 24]]).map
        (fun r => (r.1, r.2.1.mSocket.sent)) = some (true, [(1, [2, 24])]) ∧
    (sampleClient.handleRegister sampleConfig
        (packetBuffer [8, 10, 0, 9, 0, 5, 65, 66])).mSocket.sent
      = [(1, [7, 11, 0, 9, 0, 5, 0])] :=
  ⟨(header_length_matches_encoded_size sampleConfig sampleClient).1 zeroBuffer [66, 116]
      (by decide),
    ((header_length_matches_encoded_size sampleConfig sampleClient).2.2.2.2.2.2.1
      (by decide)).2.1 (by decide) [RxEvent.idle] (RxEvent.packet 1 [3, 5, 0]) []
      (by decide) (by decide),
    (header_length_matches_encoded_size sampleConfig
      { sampleClient with mSocket := { sendResults := [], sent := [] } }).2.2.2.2.2.2.2.2.2.2.2.2.1
      (by decide) [RxEvent.idle],
    (header_length_matches_encoded_size sampleConfig sampleClient).2.2.2.2.2.2.2.2.2.2.2.2.2.1
      (by decide) [] (RxEvent.packet 1 [2, 24]) [] (by decide) (by decide),
    by decide, by decide, by decide⟩

/-! ## connect: C11, C12 -/

/-- C11 at a failing input: while `connect` waits, the gateway sends a PUBLISH and then a
CONNACK of two bytes, which holds no return code; `connect` reads the flags byte of the
PUBLISH as return code and returns true.  For comparison: a CONNACK with return code 0 gives
true, one with return code 1 gives false, and a failed send gives false with the stream of
radio events untouched. -/
theorem connect_accepts_truncated_connack :
    (sampleClient.connect sampleConfig
        [RxEvent.packet 1 [8, 12, 0, 0, 9, 0, 0, 65], RxEvent.packet 1 [2, 5]]).map
      (fun r => r.1) = some true ∧
    isMessage sampleConfig [2, 5] 2 CONNACK = true ∧
    (sampleClient.connect sampleConfig [RxEvent.packet 1 [3, 5, 0]]).map (fun r => r.1)
      = some true ∧
    (sampleClient.connect sampleConfig [RxEvent.packet 1 [3, 5, 1]]).map (fun r => r.1)
      = some false ∧
    ({ sampleClient with mSocket := { sendResults := [false], sent := [] } }
        : MqttSnClient).connect sampleConfig [RxEvent.packet 1 [3, 5, 0]]
      = some (false,
          { sampleClient with
            mSocket := { sendResults := [], sent := [(1, [8, 4, 32, 1, 255, 255, 66, 116])] } },
          [RxEvent.packet 1 [3, 5, 0]]) := by
  decide

/-- C12, amended: for a stored client id of `n` bytes with `6 + n ≤ 255`, the first packet
that `connect()` hands to the transport is addressed to the gateway node and holds length
`6 + n`, message type 0x04, the flags byte 0x20 (cleanSession set; dup, qos, retain, will
and topicIdType zero), protocol id 0x01, duration bytes 0xFF 0xFF and the `n` bytes of the
client id; every further packet sent during the call is a REGACK that answers a REGISTER of
the gateway.  When no such REGISTER is dispatched during the wait, or when the send fails,
the CONNECT is the only packet. -/
theorem connect_sends_connect (cfg : Config) (c : MqttSnClient)
    (hlen : 6 + strlen c.mClientId ≤ 255) (hbytes : ∀ x ∈ c.mClientId, x < 256) :
    (∀ (rx : List RxEvent) (ok : Bool) (c2 : MqttSnClient) (rx2 : List RxEvent),
      c.connect cfg rx = some (ok, c2, rx2) →
      ∃ new, c2.mSocket.sent = c.mSocket.sent ++
          (c.mGatewayNodeId,
            [6 + strlen c.mClientId, CONNECT, 32, PROTOCOL_ID_1_2, 255, 255] ++ c.mClientId)
            :: new ∧
        ∀ p ∈ new, p.2.getD 1 0 = REGACK) ∧
    (∀ (pre : List RxEvent) (pkt : List Nat) (rest : List RxEvent) (size : Nat),
      c.mSocket.sendResults.head? = some true →
      isQuiet cfg c.mGatewayNodeId CONNACK pre = true →
      isMessage cfg pkt size CONNACK = true →
      ∃ ok c2, c.connect cfg (pre ++ .packet c.mGatewayNodeId pkt :: rest) = some (ok, c2, rest) ∧
        c2.mSocket.sent = c.mSocket.sent ++
          [(c.mGatewayNodeId,
            [6 + strlen c.mClientId, CONNECT, 32, PROTOCOL_ID_1_2, 255, 255] ++ c.mClientId)]) ∧
    (c.mSocket.sendResults.headD false = false →
      ∀ rx : List RxEvent, ∃ c2, c.connect cfg rx = some (false, c2, rx) ∧
        c2.mSocket.sent = c.mSocket.sent ++
          [(c.mGatewayNodeId,
            [6 + strlen c.mClientId, CONNECT, 32, PROTOCOL_ID_1_2, 255, 255] ++ c.mClientId)]) ∧
    (Flags.cleanSession 32 = true ∧ Flags.dup 32 = false ∧ Flags.qos 32 = 0 ∧
      Flags.retain 32 = false ∧ Flags.will 32 = false ∧ Flags.topicIdType 32 = 0) := by
  have hb := connect_bytes cfg.bigEndianHost c.mClientId hlen hbytes
  refine ⟨?_, ?_, ?_, by decide⟩
  · intro rx ok c2 rx2 h
    obtain ⟨_, new, h1, h2⟩ := connect_request cfg c rx ok c2 rx2 h
    rw [hb] at h1
    exact ⟨new, h1, h2⟩
  · intro pre pkt rest size hsend hq hpkt
    have hs := headD_of_head? _ hsend
    obtain ⟨d, buf2, hp⟩ := pollLoop_reply cfg CONNACK
      { c with
        mSocket := (c.mSocket.send (Connect.init cfg.bigEndianHost zeroBuffer c.mClientId)
          (Header.length (Connect.init cfg.bigEndianHost zeroBuffer c.mClientId))
          c.mGatewayNodeId).2 }
      pre pkt rest (Connect.init cfg.bigEndianHost zeroBuffer c.mClientId) size hq hpkt
    simp only [Socket.send, hs, hb] at hp
    simp only [MqttSnClient.connect, Socket.send, hs, Bool.not_true, Bool.false_eq_true,
      if_false, hb, hp]
    split_ifs
    · exact ⟨true, _, rfl, rfl⟩
    · exact ⟨false, _, rfl, rfl⟩
  · intro hs rx
    refine ⟨{ c with
      mSocket := (c.mSocket.send (Connect.init cfg.bigEndianHost zeroBuffer c.mClientId)
        (Header.length (Connect.init cfg.bigEndianHost zeroBuffer c.mClientId))
        c.mGatewayNodeId).2 }, ?_, ?_⟩
    · simp only [MqttSnClient.connect, Socket.send, hs, Bool.not_false, if_true]
    · simp [Socket.send, hb]

/-- C12, amended, at the sample client, whose client id is `Bt`. -/
theorem connect_sends_connect_witness :
    ∃ ok c2, sampleClient.connect sampleConfig
        ([RxEvent.idle] ++ RxEvent.packet sampleClient.mGatewayNodeId [3, 5, 0] :: [])
          = some (ok, c2, []) ∧
      c2.mSocket.sent = sampleClient.mSocket.sent ++
        [(sampleClient.mGatewayNodeId,
          [6 + strlen sampleClient.mClientId, CONNECT, 32, PROTOCOL_ID_1_2, 255, 255]
            ++ sampleClient.mClientId)] :=
  (connect_sends_connect sampleConfig sampleClient (by decide) (by decide)).2.1
    [RxEvent.idle] [3, 5, 0] [] 3 (by decide) (by decide) (by decide)

/-- C12 as stated fails when the gateway sends a REGISTER (topic id 9, name `xyz`) before the
CONNACK: `connect()` hands two packets to the transport, the CONNECT and a REGACK. -/
theorem connect_sends_two_packets :
    (sampleClient.connect sampleConfig
        [RxEvent.packet 1 [9, 10, 0, 9, 0, 5, 120, 121, 122], RxEvent.packet 1 [3, 5, 0]]).map
      (fun r => (r.1, r.2.1.mSocket.sent))
      = some (true, [(1, [8, 4, 32, 1, 255, 255, 66, 116]), (1, [7, 11, 0, 9, 0, 5, 0])]) := by
  decide

/-! ## The receive step: C13 -/

/-- The checks of the receive step.  It accepts a poll exactly when the transport reports
data available, `receive` returns a non-negative size, the sender node is the configured
gateway node, the size is at least 2 and the size equals the length byte of the header.
When it does not accept, `handleLoop` returns false and the engine state is as before, and
`loop()` returns with the state as before; but the buffer of the caller is the one that
`receive` has written the packet into. -/
theorem receive_step_checks (cfg : Config) (c : MqttSnClient) (ev : RxEvent)
    (buf : Buffer) :
    ((c.reveiveLoop cfg ev buf).1 = true ↔
      Socket.available ev = true ∧
      0 ≤ (Socket.receive ev buf cfg.PAYLOAD_CAPACITY).2.1 ∧
      (Socket.receive ev buf cfg.PAYLOAD_CAPACITY).2.2 = c.mGatewayNodeId ∧
      2 ≤ (Socket.receive ev buf cfg.PAYLOAD_CAPACITY).2.1 ∧
      (Socket.receive ev buf cfg.PAYLOAD_CAPACITY).2.1
        = (Header.length (Socket.receive ev buf cfg.PAYLOAD_CAPACITY).1 : Int)) ∧
    ((c.reveiveLoop cfg ev buf).1 = false →
      ∀ msgType : Nat,
        c.handleLoop cfg ev buf msgType = (false, c, (c.reveiveLoop cfg ev buf).2)) ∧
    ((c.reveiveLoop cfg ev zeroBuffer).1 = false →
      ∀ rx : List RxEvent, c.loop cfg (ev :: rx) = (c, rx)) ∧
    (∀ (node : Nat) (bytes : List Nat),
      (c.reveiveLoop cfg (.packet node bytes) buf).2
        = memcpy buf 0 bytes (min bytes.length cfg.PAYLOAD_CAPACITY)) := by
  refine ⟨?_, ?_, ?_, ?_⟩
  · cases ev with
    | idle => simp [MqttSnClient.reveiveLoop, Socket.available]
    | failure => simp [MqttSnClient.reveiveLoop, Socket.available, Socket.receive]
    | packet node bytes =>
      simp only [MqttSnClient.reveiveLoop, Socket.available, Socket.receive, Bool.not_true,
        Bool.false_eq_true, if_false, true_and]
      split_ifs with h1 h2 h3 h4
      · exact ⟨fun h => h.elim, fun h => absurd h.1 (not_le.2 h1)⟩
      · exact ⟨fun h => h.elim, fun h => absurd h.2.1 h2⟩
      · exact ⟨fun h => h.elim, fun h => absurd h.2.2.1 (not_le.2 h3)⟩
      · exact ⟨fun h => h.elim, fun h => absurd h.2.2.2 h4⟩
      · exact ⟨fun _ => ⟨not_lt.1 h1, not_not.1 h2, not_lt.1 h3, not_not.1 h4⟩, fun _ => rfl⟩
  · intro h msgType
    simp [MqttSnClient.handleLoop, h]
  · intro h rx
    simp [MqttSnClient.loop, nextEvent, MqttSnClient.handleLoop, h]
  · intro node bytes
    rw [reveiveLoop_packet]

/-- C13 at failing inputs: a packet that the receive step does not accept still reaches the
waiting operation, because `receive` has stored it in the buffer of that operation before
the checks.  While `connect` waits, a packet of 12 bytes from node 9 (not the gateway node
1) is not accepted; the PUBLISH of 8 bytes with payload `A` that the gateway sends next
reaches the callback with the payload text `AACK!`, whose last four bytes are bytes of the
packet from node 9; without that packet the callback gets `A`.  While `registerTopic` of
`sensor/temp` waits, a packet of 7 bytes whose header declares 9 is not accepted; with the
REGACK of two bytes that follows, the topic is registered under the id 7 that only the
packet not accepted holds; without that packet the same REGACK makes the call fail.  From
`loop()`, which polls into a zeroed buffer at each call, the packet from node 9 leaves no
trace: the PUBLISH polled by the next call delivers `A`. -/
theorem rejected_packet_reaches_operation :
    (sampleClient.reveiveLoop sampleConfig
        (RxEvent.packet 9 [12, 12, 0, 0, 9, 0, 0, 72, 65, 67, 75, 33])
        (Connect.init sampleConfig.bigEndianHost zeroBuffer sampleClient.mClientId)).1
      = false ∧
    (sampleClient.connect sampleConfig
        [RxEvent.packet 9 [12, 12, 0, 0, 9, 0, 0, 72, 65, 67, 75, 33],
          RxEvent.packet 1 [8, 12, 0, 0, 9, 0, 0, 65], RxEvent.packet 1 [3, 5, 0]]).map
        (fun r => (r.1, r.2.1.delivered))
      = some (true, [(unknownTopic, [65, 65, 67, 75, 33])]) ∧
    (sampleClient.connect sampleConfig
        [RxEvent.packet 1 [8, 12, 0, 0, 9, 0, 0, 65], RxEvent.packet 1 [3, 5, 0]]).map
        (fun r => (r.1, r.2.1.delivered))
      = some (true, [(unknownTopic, [65])]) ∧
    (sampleClient.reveiveLoop sampleConfig (RxEvent.packet 1 [9, 11, 0, 7, 0, 0, 0])
        (Register.init sampleConfig.bigEndianHost zeroBuffer 0 sensorTemp)).1 = false ∧
    (sampleClient.registerTopic sampleConfig
        [RxEvent.packet 1 [9, 11, 0, 7, 0, 0, 0], RxEvent.packet 1 [2, 11]] sensorTemp).map
        (fun r => (r.1, r.2.1.mTopics))
      = some (true, { entries := [{ id := 7, name := sensorTemp }] }) ∧
    (sampleClient.registerTopic sampleConfig [RxEvent.packet 1 [2, 11]] sensorTemp).map
        (fun r => (r.1, r.2.1.mTopics))
      = some (false, { entries := [] }) ∧
    ((sampleClient.loop sampleConfig
        [RxEvent.packet 9 [12, 12, 0, 0, 9, 0, 0, 72, 65, 67, 75, 33],
          RxEvent.packet 1 [8, 12, 0, 0, 9, 0, 0, 65]]).1.loop sampleConfig
        [RxEvent.packet 1 [8, 12, 0, 0, 9, 0, 0, 65]]).1.delivered
      = [(unknownTopic, [65])] := by
  decide

/-! ## Unsolicited REGISTER: C14 -/

/-- C14 at a failing input: while `registerTopic` of `sensor/temp` waits, the gateway sends
a REGISTER with topic id 9, message id 5 and name `AB`.  The REGACK that goes out is the
right one, but the name inserted under id 9 is `ABnsor/temp`: the name is read as a C string
and runs on into the bytes of the REGISTER request that lie behind the packet.  From
`loop()`, where the buffer is zeroed, the same packet inserts the name `AB`. -/
theorem handleRegister_reads_stale_name :
    (sampleClient.registerTopic sampleConfig
        [RxEvent.packet 1 [8, 10, 0, 9, 0, 5, 65, 66], RxEvent.packet 1 [7, 11, 0, 7, 0, 0, 0]]
        sensorTemp).map (fun r => (r.1, r.2.1.mTopics, r.2.1.mSocket.sent))
      = some (true,
          { entries := [{ id := 9, name := [65, 66, 110, 115, 111, 114, 47, 116, 101, 109, 112] },
              { id := 7, name := sensorTemp }] },
          [(1, [17, 10, 0, 0, 0, 0, 115, 101, 110, 115, 111, 114, 47, 116, 101, 109, 112]),
            (1, [7, 11, 0, 9, 0, 5, 0])]) ∧
    (sampleClient.loop sampleConfig [RxEvent.packet 1 [8, 10, 0, 9, 0, 5, 65, 66]]).1.mTopics
      = { entries := [{ id := 9, name := [65, 66] }] } := by
  decide

/-! ## Guards and the registered path of publish: C15, C16, C17 -/

/-- C15: `publish` with a payload size above the maximum data length returns false with the
engine state and the stream of radio events untouched, whatever the topic: nothing is sent,
no implicit REGISTER, the message-id counter and the registry are unchanged.  The same
holds for the text overload. -/
theorem publish_rejects_oversized (cfg : Config) (c : MqttSnClient) (rx : List RxEvent)
    (topic data : List Nat) (size : Nat) (retain : Bool)
    (h : size > cfg.MAX_LENGTH_DATA) :
    c.publish cfg rx topic data size retain = some (false, c, rx) ∧
    (strlen data = size → c.publishText cfg rx topic data retain = some (false, c, rx)) := by
  constructor
  · simp [MqttSnClient.publish, h]
  · intro hs
    simp [MqttSnClient.publishText, MqttSnClient.publish, hs, h]

/-- C15 at a payload of 21 bytes, the maximum being 20, on a topic that is not registered. -/
theorem publish_rejects_oversized_witness :
    sampleClient.publish sampleConfig [RxEvent.idle] sensorTemp (List.replicate 21 97) 21 true
      = some (false, sampleClient, [RxEvent.idle]) :=
  (publish_rejects_oversized sampleConfig sampleClient [RxEvent.idle] sensorTemp
    (List.replicate 21 97) 21 true (by decide)).1

/-- C16: `registerTopic` and `subscribe` called with a topic name longer than the maximum
return false with the engine state untouched: nothing sent, counter not advanced, registry
unchanged.  A name within the maximum, in particular one of exactly the maximum length, is
not rejected: whenever the call returns, the request is in the send log. -/
theorem name_length_check (cfg : Config) (c : MqttSnClient) (rx : List RxEvent)
    (name : List Nat) :
    (strlen name > cfg.MAX_LENGTH_TOPIC_NAME →
      c.registerTopic cfg rx name = some (false, c, rx) ∧
      c.subscribe cfg rx name = some (false, c, rx)) ∧
    (strlen name ≤ cfg.MAX_LENGTH_TOPIC_NAME →
      c.registerTopic cfg rx name ≠ some (false, c, rx) ∧
      c.subscribe cfg rx name ≠ some (false, c, rx) ∧
      (∀ (ok : Bool) (c2 : MqttSnClient) (rx2 : List RxEvent),
        c.registerTopic cfg rx name = some (ok, c2, rx2) →
        ∃ new, c2.mSocket.sent = c.mSocket.sent ++
          (c.mGatewayNodeId,
            bytesAt (Register.init cfg.bigEndianHost zeroBuffer c.mMsgIdCounter name) 0
              (Header.length
                (Register.init cfg.bigEndianHost zeroBuffer c.mMsgIdCounter name))) :: new) ∧
      (∀ (ok : Bool) (c2 : MqttSnClient) (rx2 : List RxEvent),
        c.subscribe cfg rx name = some (ok, c2, rx2) →
        ∃ new, c2.mSocket.sent = c.mSocket.sent ++
          (c.mGatewayNodeId,
            bytesAt (Subscribe.init cfg.bigEndianHost zeroBuffer c.mMsgIdCounter name) 0
              (Header.length
                (Subscribe.init cfg.bigEndianHost zeroBuffer c.mMsgIdCounter name))) :: new)) := by
  constructor
  · intro h
    simp [MqttSnClient.registerTopic, MqttSnClient.subscribe, h]
  · intro h
    refine ⟨?_, ?_, ?_, ?_⟩
    · intro heq
      obtain ⟨_, new, h1, _⟩ := registerTopic_request cfg c rx name false c rx h heq
      have := congrArg List.length h1
      simp at this
    · intro heq
      obtain ⟨_, new, h1, _⟩ := subscribe_request cfg c rx name false c rx h heq
      have := congrArg List.length h1
      simp at this
    · intro ok c2 rx2 heq
      obtain ⟨_, new, h1, _⟩ := registerTopic_request cfg c rx name ok c2 rx2 h heq
      exact ⟨new, h1⟩
    · intro ok c2 rx2 heq
      obtain ⟨_, new, h1, _⟩ := subscribe_request cfg c rx name ok c2 rx2 h heq
      exact ⟨new, h1⟩

/-- C16 at names of 21 and of 20 bytes, the maximum being 20. -/
theorem name_length_check_witness :
    (sampleClient.registerTopic sampleConfig [RxEvent.idle] (List.replicate 21 97)
        = some (false, sampleClient, [RxEvent.idle]) ∧
      sampleClient.subscribe sampleConfig [RxEvent.idle] (List.replicate 21 97)
        = some (false, sampleClient, [RxEvent.idle])) ∧
    sampleClient.registerTopic sampleConfig [RxEvent.idle] (List.replicate 20 97)
      ≠ some (false, sampleClient, [RxEvent.idle]) :=
  ⟨(name_length_check sampleConfig sampleClient [RxEvent.idle] (List.replicate 21 97)).1
      (by decide),
    ((name_length_check sampleConfig sampleClient [RxEvent.idle] (List.replicate 20 97)).2
      (by decide)).1⟩

/-- C17: `publish` on a topic found in the registry with a payload within the size limit
returns the result of the one `send` call, with the stream of radio events untouched and the
engine state changed in the send log only: the registry and the message-id counter are
unchanged.  The one packet is the PUBLISH with the registered id of that topic, message id
0 and the given payload bytes: its type byte is PUBLISH, its flags byte holds `iRetain` and
cleanSession, and for a 16-bit id, a total within 255 and `size` bytes of data its bytes are
the length `7 + size`, the type, the flags, the two bytes of the topic id as `bswap` and the
host lay them out, two zero bytes for the message id, and the payload. -/
theorem publish_registered (cfg : Config) (c : MqttSnClient) (rx : List RxEvent)
    (name data : List Nat) (size : Nat) (retain : Bool) (topic : Topic)
    (hfind : c.mTopics.findTopic name = some topic)
    (hsize : size ≤ cfg.MAX_LENGTH_DATA) :
    c.publish cfg rx name data size retain =
      some (c.mSocket.sendResults.headD false,
        { c with
          mSocket :=
            { sendResults := c.mSocket.sendResults.tail
              sent := c.mSocket.sent ++ [(c.mGatewayNodeId,
                bytesAt (Publish.init cfg.bigEndianHost zeroBuffer retain topic.id data size) 0
                  (Header.length
                    (Publish.init cfg.bigEndianHost zeroBuffer retain topic.id data size)))] } },
        rx) ∧
    (topic.id < 65536 → Publish.getTopicId cfg.bigEndianHost
      (Publish.init cfg.bigEndianHost zeroBuffer retain topic.id data size) = topic.id) ∧
    Publish.getMsgId cfg.bigEndianHost
      (Publish.init cfg.bigEndianHost zeroBuffer retain topic.id data size) = 0 ∧
    (7 + size ≤ 255 → Header.length
      (Publish.init cfg.bigEndianHost zeroBuffer retain topic.id data size) = 7 + size) ∧
    (size ≤ data.length → (∀ x ∈ data, x < 256) →
      bytesAt (Publish.init cfg.bigEndianHost zeroBuffer retain topic.id data size) 7 size
        = data.take size) ∧
    Header.msgType (Publish.init cfg.bigEndianHost zeroBuffer retain topic.id data size)
      = PUBLISH ∧
    Publish.flags (Publish.init cfg.bigEndianHost zeroBuffer retain topic.id data size)
      = 32 + 8 * retain.toNat ∧
    (7 + size ≤ 255 → topic.id < 65536 → size ≤ data.length → (∀ x ∈ data, x < 256) →
      bytesAt (Publish.init cfg.bigEndianHost zeroBuffer retain topic.id data size) 0
          (Header.length
            (Publish.init cfg.bigEndianHost zeroBuffer retain topic.id data size))
        = [7 + size, PUBLISH, 32 + 8 * retain.toNat,
            if cfg.bigEndianHost then topic.id % 256 else topic.id / 256,
            if cfg.bigEndianHost then topic.id / 256 else topic.id % 256, 0, 0]
          ++ data.take size) := by
  refine ⟨publish_found cfg c rx name data size retain topic hfind hsize, ?_, ?_, ?_, ?_, ?_,
    publish_flags_init _ _ _ _ _, ?_⟩
  · intro ht
    rw [Publish.getTopicId, publish_loadTopicId, bswap_bswap _ ht]
  · rw [Publish.getMsgId, publish_loadMsgId, bswap_zero]
  · intro h
    exact (publish_header _ _ _ _ _ _ h).1
  · intro h1 h2
    simp only [Publish.init]
    exact bytesAt_memcpy _ _ _ _ h1 h2
  · cases cfg.bigEndianHost <;> simp [Publish.init, Header.msgType, storeU16, PUBLISH]
  · intro h1 h2 h3 h4
    exact publish_bytes _ retain topic.id data size h1 h2 h3 h4

/-- C17 at `sensor/temp`, registered under id 7, and a payload of three bytes, with
`iRetain` set: the one packet handed to the transport is
`[10, 12, 40, 0, 7, 0, 0, 1, 2, 3]`. -/
theorem publish_registered_witness :
    registeredClient.publish sampleConfig [RxEvent.idle] sensorTemp [1, 2, 3] 3 true =
      some (true,
        { registeredClient with
          mSocket :=
            { sendResults := [true, true]
              sent := [(1, [10, 12, 40, 0, 7, 0, 0, 1, 2, 3])] } },
        [RxEvent.idle]) :=
  (publish_registered sampleConfig registeredClient [RxEvent.idle] sensorTemp [1, 2, 3] 3 true
    { id := 7, name := sensorTemp } (by decide) (by decide)).1.trans (by decide)

/-! ## Bytes behind the declared length: C18, C19 -/

/-- C18 at failing inputs: a reply of two bytes passes the size checks and the fields are
read from what lies behind it in the buffer.  The CONNACK `[2, 5]` makes `connect` return
false when it comes first (byte 2 is the flags byte of the CONNECT) and true after a packet
from another node that was dropped.  The REGACK `[2, 11]` makes `registerTopic` fail when it
comes first and register `sensor/temp` under id 7 after a dropped packet from another node;
likewise the SUBACK `[2, 19]` for `subscribe`. -/
theorem reply_outcome_depends_on_stale_bytes :
    isMessage sampleConfig [2, 5] 2 CONNACK = true ∧
    (sampleClient.connect sampleConfig [RxEvent.packet 1 [2, 5]]).map (fun r => r.1)
      = some false ∧
    (sampleClient.connect sampleConfig
        [RxEvent.packet 9 [3, 5, 0], RxEvent.packet 1 [2, 5]]).map (fun r => r.1)
      = some true ∧
    isMessage sampleConfig [2, 11] 2 REGACK = true ∧
    (sampleClient.registerTopic sampleConfig [RxEvent.packet 1 [2, 11]] sensorTemp).map
      (fun r => (r.1, r.2.1.mTopics)) = some (false, { entries := [] }) ∧
    (sampleClient.registerTopic sampleConfig
        [RxEvent.packet 9 [7, 11, 0, 7, 0, 0, 0], RxEvent.packet 1 [2, 11]] sensorTemp).map
      (fun r => (r.1, r.2.1.mTopics))
      = some (true, { entries := [{ id := 7, name := sensorTemp }] }) ∧
    (sampleClient.subscribe sampleConfig [RxEvent.packet 1 [2, 19]] sensorTemp).map
      (fun r => (r.1, r.2.1.mTopics)) = some (false, { entries := [] }) ∧
    (sampleClient.subscribe sampleConfig
        [RxEvent.packet 9 [8, 19, 0, 0, 7, 0, 0, 0], RxEvent.packet 1 [2, 19]] sensorTemp).map
      (fun r => (r.1, r.2.1.mTopics))
      = some (true, { entries := [{ id := 7, name := sensorTemp }] }) := by
  decide

/-- C19 at a failing input: a PUBLISH of 8 bytes with the one payload byte `A`, received
while `registerTopic` of `sensor/temp` waits, reaches the callback with the payload text
`Ansor/temp`, which runs on into the REGISTER request.  From `loop()` the same packet
delivers `A`. -/
theorem payload_text_runs_into_stale_bytes :
    isMessage sampleConfig [8, 12, 0, 0, 9, 0, 0, 65] 8 PUBLISH = true ∧
    (sampleClient.registerTopic sampleConfig
        [RxEvent.packet 1 [8, 12, 0, 0, 9, 0, 0, 65], RxEvent.packet 1 [7, 11, 0, 7, 0, 0, 0]]
        sensorTemp).map (fun r => r.2.1.delivered)
      = some [(unknownTopic, [65, 110, 115, 111, 114, 47, 116, 101, 109, 112])] ∧
    (sampleClient.loop sampleConfig [RxEvent.packet 1 [8, 12, 0, 0, 9, 0, 0, 65]]).1.delivered
      = [(unknownTopic, [65])] := by
  decide

/-! ## Message ids: C20 -/

end BtMqttSn
